import Mathlib

/-!
The backend dbx_xtralight_backend: a shallow embedding of its controllers and middlewares.

The development follows the source files
`src/middlewares/auth.js`, `src/controllers/authController.js`,
`src/controllers/articulosController.js`, `src/controllers/usuariosController.js`,
`src/app.js` and `src/config/database.js`.

* JavaScript values are a small datatype (`JsVal`); numbers (`JsNum`) are the
  integers of magnitude up to `2^53`, which doubles hold exactly, `NaN` and the
  infinities, and one more value standing for every other number, about which
  nothing is asserted.
* SQL text written with template literals is a list of fragments (`Sql`): literal
  text and interpolated positional placeholders.
* The relational store is either a concrete table state (`Store`, for the
  authentication and article-writing paths) or an oracle answering statements
  (`Db`, for the listing endpoints, whose SQL is assembled dynamically).
* `bcrypt` and `jsonwebtoken` are parameters (`Cripto`).
-/

namespace Xtralight

/-! ## JavaScript values -/

/-- The number `2^53`: every integer up to this magnitude is a double, and
doubles beyond it are rounded. -/
def maxSeguro : Int := 9007199254740992

/-- A JavaScript number as far as this model tracks it. `int i` is the integer
`i`, tracked while its magnitude is at most `2^53` (both zeros are `int 0`);
`nan` and `inf` are `NaN` and the infinities; `otro` is any other number: as a
request value a non-integer or an integer beyond `2^53`, and as the result of a
conversion or an operation a number that this model does not determine. Nothing
is said about which number an `otro` is. -/
inductive JsNum where
  | int (i : Int)
  | nan
  | inf (negativo : Bool)
  | otro
  deriving DecidableEq, Repr

/-- A JavaScript value of the kinds that reach the handlers: request fields,
query parameters and column values. -/
inductive JsVal where
  | undefined
  | null
  | bool (b : Bool)
  | num (n : JsNum)
  | str (s : String)
  deriving DecidableEq, Repr

/-- A request field that is either absent or a string (query-string values and
textual body fields). -/
abbrev Campo := Option String

/-- The JavaScript value of a textual request field. -/
def Campo.val : Campo → JsVal
  | none => .undefined
  | some s => .str s

/-- JavaScript truthiness (`if (x)`, `!x`, `x || y`). It is applied to request
values only, where `otro` is a non-integer or an integer beyond `2^53`, which is
not zero. -/
def JsVal.truthy : JsVal → Bool
  | .undefined => false
  | .null => false
  | .bool b => b
  | .num (.int i) => i != 0
  | .num .nan => false
  | .num (.inf _) => true
  | .num .otro => true
  | .str s => s != ""

/-- Truthiness of a textual request field: present and not the empty string. -/
def Campo.truthy (c : Campo) : Bool := c.val.truthy

/-- ASCII white space: what separates the words of the SQL text. -/
def esEspacio (c : Char) : Bool :=
  c == ' ' || c == '\t' || c == '\n' || c == '\r'

/-- White space of JavaScript, skipped by `parseInt` and trimmed by `ToNumber`:
tab, line feed, vertical tab, form feed, carriage return, space, no-break space,
the Unicode space separators, the line and paragraph separators and the byte
order mark. -/
def esEspacioJs (c : Char) : Bool :=
  [0x09, 0x0A, 0x0B, 0x0C, 0x0D, 0x20, 0xA0, 0x1680, 0x2028, 0x2029, 0x202F, 0x205F,
    0x3000, 0xFEFF].contains c.toNat
    || (decide (0x2000 ≤ c.toNat) && decide (c.toNat ≤ 0x200A))

/-- White space of the C locale (`isspace`), trimmed by PostgreSQL around the
text of a boolean: space, tab, line feed, vertical tab, form feed, carriage
return. -/
def esEspacioC (c : Char) : Bool :=
  [0x09, 0x0A, 0x0B, 0x0C, 0x0D, 0x20].contains c.toNat

/-- Removes leading and trailing characters that satisfy `p`. -/
def recortarCon (p : Char → Bool) (cs : List Char) : List Char :=
  ((cs.dropWhile p).reverse.dropWhile p).reverse

/-- Whether an integer is within the tracked range. -/
def JsNum.seguro (i : Int) : Bool :=
  decide (-maxSeguro ≤ i) && decide (i ≤ maxSeguro)

/-- The number with the integer value `i`: tracked within the safe range, not
determined beyond it (doubles round there). -/
def JsNum.deEntero (i : Int) : JsNum :=
  if JsNum.seguro i then .int i else .otro

/-- The operator unary minus. -/
def JsNum.neg : JsNum → JsNum
  | .int i => .int (-i)
  | .nan => .nan
  | .inf s => .inf (!s)
  | .otro => .otro

/-- Value of a run of decimal digits, most significant first. -/
def valorDigitos (cs : List Char) : Nat :=
  cs.foldl (fun acc c => 10 * acc + (c.toNat - 48)) 0

/-- A non-empty run of decimal digits and nothing else. -/
def esDecimal (cs : List Char) : Bool :=
  !cs.isEmpty && cs.all Char.isDigit

/-- The value of a digit in a base up to sixteen (`0`-`9`, `a`-`f`, `A`-`F`). -/
def valorDigito (c : Char) : Option Nat :=
  if c.isDigit then some (c.toNat - 48)
  else if 97 ≤ c.toNat ∧ c.toNat ≤ 102 then some (c.toNat - 87)
  else if 65 ≤ c.toNat ∧ c.toNat ≤ 70 then some (c.toNat - 55)
  else none

/-- Whether a character is a digit of the given base. -/
def esDigitoBase (base : Nat) (c : Char) : Bool :=
  match valorDigito c with
  | some v => decide (v < base)
  | none => false

/-- Value of a run of digits of the given base, most significant first. -/
def valorEnBase (base : Nat) (cs : List Char) : Nat :=
  cs.foldl (fun acc c => base * acc + (valorDigito c).getD 0) 0

/-- The longest prefix of decimal digits, as a value; `none` when there is no
digit. -/
def prefijoDecimal (cs : List Char) : Option Nat :=
  if (cs.takeWhile Char.isDigit).isEmpty then none
  else some (valorDigitos (cs.takeWhile Char.isDigit))

/-- The digits read by `parseInt` after the sign: after a prefix `0x` or `0X` the
longest prefix of hexadecimal digits, otherwise the longest prefix of decimal
digits; what follows the digits is ignored; `none` when there is no digit. -/
def parseIntMagnitud (cs : List Char) : Option Nat :=
  match cs with
  | '0' :: x :: r =>
    if x = 'x' ∨ x = 'X' then
      if (r.takeWhile (esDigitoBase 16)).isEmpty then none
      else some (valorEnBase 16 (r.takeWhile (esDigitoBase 16)))
    else prefijoDecimal cs
  | _ => prefijoDecimal cs

/-- The builtin `parseInt` on the characters that follow the leading white
space: an optional sign, then the digits; no digit gives `NaN`. -/
def parseIntChars : List Char → JsNum
  | '-' :: cs =>
    match parseIntMagnitud cs with
    | none => .nan
    | some v => .deEntero (-(v : Int))
  | '+' :: cs =>
    match parseIntMagnitud cs with
    | none => .nan
    | some v => .deEntero v
  | cs =>
    match parseIntMagnitud cs with
    | none => .nan
    | some v => .deEntero v

/-- The builtin `parseInt(x)` with no radix argument: the argument is converted
to a string, leading white space is skipped, and the longest signed prefix of
digits is read. `undefined`, `null`, booleans, `NaN` and the infinities print as
words and give `NaN`; a tracked integer prints as its decimal digits. -/
def parseInt : JsVal → JsNum
  | .str s => parseIntChars (s.toList.dropWhile esEspacioJs)
  | .num (.int i) => .deEntero i
  | .num .nan => .nan
  | .num (.inf _) => .nan
  | .num .otro => .otro
  | .undefined => .nan
  | .null => .nan
  | .bool _ => .nan

/-- The integer literals `0x…`, `0o…`, `0b…` of `ToNumber` (either case of the
letter, at least one digit, nothing else). -/
def literalNoDecimal (cs : List Char) : Option Nat :=
  match cs with
  | '0' :: x :: r =>
    let base : Nat :=
      if x = 'x' ∨ x = 'X' then 16 else if x = 'o' ∨ x = 'O' then 8
      else if x = 'b' ∨ x = 'B' then 2 else 0
    if base ≠ 0 ∧ !r.isEmpty ∧ r.all (esDigitoBase base) then some (valorEnBase base r)
    else none
  | _ => none

/-- Splits a decimal literal at its first `e` or `E`: the mantissa and, when
there is one, the text of the exponent. -/
def partirExponente (cs : List Char) : List Char × Option (List Char) :=
  match cs.span fun c => c != 'e' && c != 'E' with
  | (m, []) => (m, none)
  | (m, _ :: e) => (m, some e)

/-- The exponent of a decimal literal: an optional sign and digits. -/
def exponente (e : List Char) : Option Int :=
  match e with
  | '-' :: ds => if esDecimal ds then some (-(valorDigitos ds : Int)) else none
  | '+' :: ds => if esDecimal ds then some (valorDigitos ds) else none
  | ds => if esDecimal ds then some (valorDigitos ds) else none

/-- The mantissa of a decimal literal: digits, digits with a point and optional
digits after it, or a point followed by digits; gives the digits before and
after the point. -/
def mantisa (m : List Char) : Option (List Char × List Char) :=
  match m.span Char.isDigit with
  | (i, []) => if i.isEmpty then none else some (i, [])
  | (i, '.' :: f) =>
    if f.all Char.isDigit ∧ ¬ (i.isEmpty ∧ f.isEmpty) then some (i, f) else none
  | _ => none

/-- An unsigned decimal literal of `ToNumber` other than `Infinity`; `none` when
the text is no such literal. Its value `n · 10^k` is tracked when it is an
integer of the safe range. -/
def literalDecimal (cs : List Char) : Option JsNum :=
  match mantisa (partirExponente cs).1,
      (match (partirExponente cs).2 with
        | none => some (0 : Int)
        | some e => exponente e) with
  | some (i, f), some x =>
    let n := valorDigitos (i ++ f)
    let k : Int := x - f.length
    some (if n = 0 then .int 0
      else if 0 ≤ k then (if k ≤ 16 then .deEntero (n * 10 ^ k.toNat) else .otro)
      else if (-k).toNat ≤ (i ++ f).length ∧ n % 10 ^ (-k).toNat = 0 then
        .deEntero (n / 10 ^ (-k).toNat)
      else .otro)
  | _, _ => none

/-- The conversion `ToNumber` on a string: white space around the text is
dropped; the empty string is `0`; then come the literals `0x…`, `0o…`, `0b…`,
the signed `Infinity`, signed runs of digits and the other signed decimal
literals; any other text is `NaN`. -/
def strToNumber (cs : List Char) : JsNum :=
  let t := recortarCon esEspacioJs cs
  if t.isEmpty then .int 0
  else
    match literalNoDecimal t with
    | some v => .deEntero v
    | none =>
      let neg : Bool := match t with
        | '-' :: _ => true
        | _ => false
      let u : List Char := match t with
        | '-' :: r => r
        | '+' :: r => r
        | r => r
      if u = "Infinity".toList then .inf neg
      else if esDecimal u then
        (if neg then .deEntero (-(valorDigitos u : Int)) else .deEntero (valorDigitos u))
      else
        match literalDecimal u with
        | some n => if neg then n.neg else n
        | none => .nan

/-- The implicit conversion `ToNumber` applied by `-`, `*` and `/`. -/
def JsVal.toNumber : JsVal → JsNum
  | .undefined => .nan
  | .null => .int 0
  | .bool b => .int (if b then 1 else 0)
  | .num n => n
  | .str s => strToNumber s.toList

/-- The operator `a - b` on numbers. -/
def JsNum.sub : JsNum → JsNum → JsNum
  | .nan, _ => .nan
  | _, .nan => .nan
  | .otro, _ => .otro
  | _, .otro => .otro
  | .int a, .int b => if JsNum.seguro a && JsNum.seguro b then .deEntero (a - b) else .otro
  | .inf s, .int _ => .inf s
  | .int _, .inf s => .inf (!s)
  | .inf s, .inf t => if s = t then .nan else .inf s

/-- The operator `a * b` on numbers. -/
def JsNum.mul : JsNum → JsNum → JsNum
  | .nan, _ => .nan
  | _, .nan => .nan
  | .otro, _ => .otro
  | _, .otro => .otro
  | .int a, .int b => if JsNum.seguro a && JsNum.seguro b then .deEntero (a * b) else .otro
  | .inf s, .int b => if b = 0 then .nan else .inf (s != decide (b < 0))
  | .int a, .inf s => if a = 0 then .nan else .inf (s != decide (a < 0))
  | .inf s, .inf t => .inf (s != t)

/-- The expression `Math.ceil(a / b)`. Within the safe range the rounded
quotient of two integers has the same ceiling as the exact one, the least
integer not below it. A division by zero gives `NaN` for `0 / 0` and otherwise an
infinity whose sign depends on the sign of the zero, which is not tracked. -/
def JsNum.ceilDiv : JsNum → JsNum → JsNum
  | .nan, _ => .nan
  | _, .nan => .nan
  | .otro, _ => .otro
  | _, .otro => .otro
  | .int a, .int b =>
    if !(JsNum.seguro a && JsNum.seguro b) then .otro
    else if b = 0 then (if a = 0 then .nan else .otro)
    else if 0 < b then .int (-((-a) / b))
    else .int (a / b)
  | .inf s, .int b => if b = 0 then .otro else .inf (s != decide (b < 0))
  | .int _, .inf _ => .int 0
  | .inf _, .inf _ => .nan

/-! ## SQL text, statements and rows -/

/-- A piece of an SQL template literal: literal text, or an interpolated
positional placeholder (dollar sign followed by the number `k`). -/
inductive Frag where
  | texto (s : String)
  | ph (k : Nat)
  deriving DecidableEq, Repr

/-- SQL text as written in the source: a sequence of template pieces. -/
abbrev Sql := List Frag

/-- The text of one piece. -/
def Frag.render : Frag → String
  | .texto s => s
  | .ph k => "$" ++ toString k

/-- The string the template literal evaluates to. -/
def renderSql (q : Sql) : String :=
  String.join (q.map Frag.render)

/-- The placeholders of a statement, in order of appearance. -/
def placeholders (q : Sql) : List Nat :=
  q.filterMap fun f => match f with
    | .ph k => some k
    | .texto _ => none

/-- The method `Array.prototype.join` on SQL pieces with a text separator. -/
def joinSql (sep : String) : List Sql → Sql
  | [] => []
  | [c] => c
  | c :: cs => c ++ .texto sep :: joinSql sep cs

/-- A call `query(text, params)`. -/
structure Consulta where
  sql : Sql
  params : List JsVal
  deriving DecidableEq, Repr

/-- A result row: column names with their values. -/
abbrev Fila := List (String × JsVal)

/-- Property access `row.col`; a missing column reads as `undefined`. -/
def campo (f : Fila) (col : String) : JsVal :=
  (f.lookup col).getD .undefined

/-- The store seen as an oracle: each statement is answered with rows or fails. -/
abbrev Db := Consulta → Except String (List Fila)

/-! ## Responses -/

/-- The user profile sent back by `login`. -/
structure Perfil where
  id : Nat
  uuid : String
  username : String
  email : String
  nombre : String
  apellido : String
  nombreCompleto : String
  rol : String
  rolId : Nat
  deriving DecidableEq, Repr

/-- The `pagination` object of the listing endpoints. -/
structure Paginacion where
  page : JsNum
  limit : JsNum
  total : JsNum
  totalPages : JsNum
  deriving DecidableEq, Repr

/-! ## The relational store -/

/-- A row of `usuarios`. Timestamps are clock readings. -/
structure Usuario where
  id : Nat
  uuid : String
  username : String
  email : String
  password_hash : String
  nombre : String
  apellido : String
  rol_id : Nat
  activo : Bool
  ultimo_acceso : Option Nat
  created_at : Nat
  updated_at : Nat
  deriving DecidableEq, Repr

/-- A row of `roles`. -/
structure Rol where
  id : Nat
  nombre : String
  deriving DecidableEq, Repr

/-- A row of `articulos`; nullable columns are options. -/
structure Articulo where
  id : Nat
  sku : String
  descripcion : String
  categoria : String
  color : Option String
  size : Option String
  tipo_etiqueta : String
  codigo_barras : Option String
  imagen_url : Option String
  activo : Bool
  created_at : Nat
  updated_at : Nat
  deriving DecidableEq, Repr

/-- The state of the store: the three tables, the reading of
`CURRENT_TIMESTAMP`, and a schedule telling which of the next statements fail
(`true` = that statement throws; an exhausted schedule means no more failures). -/
structure Store where
  usuarios : List Usuario
  roles : List Rol
  articulos : List Articulo
  ahora : Nat
  fallos : List Bool
  deriving DecidableEq, Repr

/-- Issues one statement: reports whether it is answered and advances the
failure schedule. -/
def Store.paso (st : Store) : Bool × Store :=
  match st.fallos with
  | [] => (true, st)
  | f :: fs => (!f, { st with fallos := fs })

/-- The join `usuarios u INNER JOIN roles r ON u.rol_id = r.id`, each user row
paired with `r.nombre`. -/
def Store.usuariosConRol (st : Store) : List (Usuario × String) :=
  st.usuarios.flatMap fun u =>
    (st.roles.filter fun r => r.id = u.rol_id).map fun r => (u, r.nombre)

/-! ## Responses and outcomes -/

/-- The payload of a JSON response beyond `success` and `message`. -/
inductive Datos where
  | ninguno
  | roles (rolRequerido : List String) (tuRol : String)
  | sesion (token : String) (usuario : Perfil)
  | listado (data : List Fila) (pagination : Paginacion)
  | articulo (data : Articulo)
  | fila (data : Option Fila)
  deriving DecidableEq, Repr

/-- An HTTP response `res.status(status).json(...)`. -/
structure Respuesta where
  status : Nat
  success : Bool
  message : Option String
  datos : Datos
  deriving DecidableEq, Repr

/-- A failure response `{ success: false, message }`. -/
def fallo (status : Nat) (message : String) : Respuesta :=
  ⟨status, false, some message, .ninguno⟩

/-- What a controller did: the statements it issued, in order, and its response. -/
structure Salida where
  consultas : List Consulta
  respuesta : Respuesta
  deriving DecidableEq, Repr

/-- The identity attached to the request as `req.user`. -/
structure Identidad where
  id : Nat
  uuid : String
  username : String
  email : String
  nombre : String
  apellido : String
  rolId : Nat
  rol : String
  deriving DecidableEq, Repr

/-- The part of a request the middlewares read and write. -/
structure Req where
  authorization : Campo
  user : Option Identidad
  deriving DecidableEq, Repr

/-- What a middleware did: the response it sent (if any), how many times it
called `next`, the value of `req.user` afterwards, and the statements issued. -/
structure MwSalida where
  respuesta : Option Respuesta
  next : Nat
  user : Option Identidad
  consultas : List Consulta
  deriving DecidableEq, Repr

/-! ## Cryptographic primitives -/

/-- The claims signed into a token by `login`. -/
structure TokenPayload where
  userId : Nat
  username : String
  rol : String
  deriving DecidableEq, Repr

/-- The result of `jwt.verify`: the decoded `userId`, or the name of the error
thrown (`TokenExpiredError`, `JsonWebTokenError`, or any other). -/
inductive JwtResult where
  | valido (userId : Nat)
  | expirado
  | invalido
  | otro
  deriving DecidableEq, Repr

/-- The libraries `bcrypt` and `jsonwebtoken` with the configured secret. -/
structure Cripto where
  compare : String → String → Bool
  hash : String → String
  sign : TokenPayload → String
  verify : String → JwtResult

/-- A number passed as a statement parameter. -/
def idParam (n : Nat) : JsVal := .num (.int n)

/-- A route parameter `:id` that denotes the id `n`, passed as a statement
parameter: route parameters are strings. -/
def rutaParam (n : Nat) : JsVal := .str (toString n)

/-! ## `authController.js`: login -/

/-- The body of `POST /api/auth/login`. -/
structure LoginBody where
  username : Campo
  password : Campo
  deriving DecidableEq, Repr

/-- The lookup statement of `login`. -/
def sqlLoginSelect : Sql :=
  [.texto "SELECT u.id, u.uuid, u.username, u.email, u.password_hash, u.nombre, u.apellido, u.rol_id, r.nombre as rol_nombre, u.activo FROM usuarios u INNER JOIN roles r ON u.rol_id = r.id WHERE u.username = ",
   .ph 1]

/-- The statement of `login` that records the access time. -/
def sqlUpdateUltimoAcceso : Sql :=
  [.texto "UPDATE usuarios SET ultimo_acceso = CURRENT_TIMESTAMP WHERE id = ", .ph 1]

/-- Effect of `UPDATE usuarios SET ultimo_acceso = CURRENT_TIMESTAMP WHERE id = $1`. -/
def Store.marcarAcceso (st : Store) (id : Nat) : Store :=
  { st with usuarios := st.usuarios.map fun u =>
      if u.id = id then { u with ultimo_acceso := some st.ahora } else u }

/-- The handler `login`. The result of `bcrypt.compare` is bound to
`passwordValido`, as in the source, and not read afterwards. -/
def login (c : Cripto) (st : Store) (body : LoginBody) : Store × Salida :=
  if !Campo.truthy body.username || !Campo.truthy body.password then
    (st, ⟨[], fallo 400 "Username y password son requeridos"⟩)
  else
    let username := body.username.getD ""
    let password := body.password.getD ""
    let q1 : Consulta := ⟨sqlLoginSelect, [.str username]⟩
    let (ok1, st1) := st.paso
    if !ok1 then (st1, ⟨[q1], fallo 500 "Error al procesar login"⟩)
    else
      match st1.usuariosConRol.filter fun ur => ur.1.username = username with
      | [] => (st1, ⟨[q1], fallo 401 "Credenciales inválidas"⟩)
      | (usuario, rol_nombre) :: _ =>
        if !usuario.activo then
          (st1, ⟨[q1], fallo 401 "Usuario inactivo. Contacta al administrador."⟩)
        else
          let _passwordValido := c.compare password usuario.password_hash
          let q2 : Consulta := ⟨sqlUpdateUltimoAcceso, [idParam usuario.id]⟩
          let (ok2, st2) := st1.paso
          if !ok2 then (st2, ⟨[q1, q2], fallo 500 "Error al procesar login"⟩)
          else
            let st3 := st2.marcarAcceso usuario.id
            let token := c.sign ⟨usuario.id, usuario.username, rol_nombre⟩
            (st3, ⟨[q1, q2],
              ⟨200, true, some "Login exitoso",
                .sesion token
                  { id := usuario.id, uuid := usuario.uuid, username := usuario.username,
                    email := usuario.email, nombre := usuario.nombre,
                    apellido := usuario.apellido,
                    nombreCompleto := usuario.nombre ++ " " ++ usuario.apellido,
                    rol := rol_nombre, rolId := usuario.rol_id }⟩⟩)

/-! ## `middlewares/auth.js` -/

/-- The method `String.prototype.split(" ")` on the characters of a string. -/
def splitEspacio : List Char → List (List Char)
  | [] => [[]]
  | c :: cs =>
    match splitEspacio cs with
    | [] => [[c]]
    | seg :: resto => if c = ' ' then [] :: seg :: resto else (c :: seg) :: resto

/-- The expression `authHeader.split(" ")[1]`; `none` is `undefined`. -/
def segundoSegmento (authHeader : String) : Campo :=
  ((splitEspacio authHeader.toList).get? 1).map String.mk

/-- The lookup statement of `verificarToken`. -/
def sqlTokenSelect : Sql :=
  [.texto "SELECT u.id, u.uuid, u.username, u.email, u.nombre, u.apellido, u.rol_id, r.nombre as rol_nombre, u.activo FROM usuarios u INNER JOIN roles r ON u.rol_id = r.id WHERE u.id = ",
   .ph 1, .texto " AND u.activo = true"]

/-- The lookup statement of `verificarTokenOpcional`. -/
def sqlTokenOpcionalSelect : Sql :=
  [.texto "SELECT u.id, u.uuid, u.username, u.email, u.nombre, u.apellido, u.rol_id, r.nombre as rol_nombre FROM usuarios u INNER JOIN roles r ON u.rol_id = r.id WHERE u.id = ",
   .ph 1, .texto " AND u.activo = true"]

/-- Rows of the join with `u.id = $1 AND u.activo = true`. -/
def Store.activosPorId (st : Store) (userId : Nat) : List (Usuario × String) :=
  st.usuariosConRol.filter fun ur => ur.1.id = userId && ur.1.activo

/-- The object assigned to `req.user` from the first row. -/
def identidadDe (u : Usuario) (rol_nombre : String) : Identidad :=
  { id := u.id, uuid := u.uuid, username := u.username, email := u.email,
    nombre := u.nombre, apellido := u.apellido, rolId := u.rol_id, rol := rol_nombre }

/-- A middleware outcome that sends `r` and does not call `next`. -/
def rechazo (req : Req) (consultas : List Consulta) (r : Respuesta) : MwSalida :=
  ⟨some r, 0, req.user, consultas⟩

/-- The middleware `verificarToken`. -/
def verificarToken (c : Cripto) (st : Store) (req : Req) : Store × MwSalida :=
  let authHeader := req.authorization
  if !Campo.truthy authHeader then
    (st, rechazo req [] (fallo 401 "No se proporcionó token de autenticación"))
  else
    let token := segundoSegmento (authHeader.getD "")
    if !Campo.truthy token then
      (st, rechazo req [] (fallo 401 "Formato de token inválido"))
    else
      match c.verify (token.getD "") with
      | .expirado => (st, rechazo req [] (fallo 401 "Token expirado"))
      | .invalido => (st, rechazo req [] (fallo 401 "Token inválido"))
      | .otro => (st, rechazo req [] (fallo 500 "Error al verificar token"))
      | .valido userId =>
        let q : Consulta := ⟨sqlTokenSelect, [idParam userId]⟩
        let (ok, st1) := st.paso
        if !ok then (st1, rechazo req [q] (fallo 500 "Error al verificar token"))
        else
          match st1.activosPorId userId with
          | [] => (st1, rechazo req [q] (fallo 401 "Usuario no encontrado o inactivo"))
          | (u, rol_nombre) :: _ =>
            (st1, ⟨none, 1, some (identidadDe u rol_nombre), [q]⟩)

/-- The middleware returned by `verificarRol(...rolesPermitidos)`. -/
def verificarRol (rolesPermitidos : List String) (req : Req) : MwSalida :=
  match req.user with
  | none => rechazo req [] (fallo 401 "Usuario no autenticado")
  | some user =>
    if !rolesPermitidos.contains user.rol then
      rechazo req []
        ⟨403, false, some "No tienes permisos para acceder a este recurso",
          .roles rolesPermitidos user.rol⟩
    else
      ⟨none, 1, req.user, []⟩

/-- The middleware `verificarTokenOpcional`. -/
def verificarTokenOpcional (c : Cripto) (st : Store) (req : Req) : Store × MwSalida :=
  let authHeader := req.authorization
  if !Campo.truthy authHeader then
    (st, ⟨none, 1, req.user, []⟩)
  else
    let token := segundoSegmento (authHeader.getD "")
    if !Campo.truthy token then
      (st, ⟨none, 1, req.user, []⟩)
    else
      match c.verify (token.getD "") with
      | .valido userId =>
        let q : Consulta := ⟨sqlTokenOpcionalSelect, [idParam userId]⟩
        let (ok, st1) := st.paso
        if !ok then (st1, ⟨none, 1, req.user, [q]⟩)
        else
          match st1.activosPorId userId with
          | (u, rol_nombre) :: _ => (st1, ⟨none, 1, some (identidadDe u rol_nombre), [q]⟩)
          | [] => (st1, ⟨none, 1, req.user, [q]⟩)
      | _ => (st, ⟨none, 1, req.user, []⟩)

/-! ## The dynamic query builder of the listing endpoints -/

/-- The three accumulators of the builder: `whereConditions`, `params`, `paramCount`. -/
structure Filtros where
  whereConditions : List Sql
  params : List JsVal
  paramCount : Nat
  deriving DecidableEq, Repr

/-- One filter step: push the predicate written with the current `paramCount`,
push its parameter, increment `paramCount`. -/
def Filtros.push (b : Filtros) (cond : Nat → Sql) (p : JsVal) : Filtros :=
  ⟨b.whereConditions ++ [cond b.paramCount], b.params ++ [p], b.paramCount + 1⟩

/-- The expression
`whereConditions.length > 0 ? "WHERE " + whereConditions.join(" AND ") : ""`. -/
def whereClause (whereConditions : List Sql) : Sql :=
  if whereConditions.length > 0 then
    .texto "WHERE " :: joinSql " AND " whereConditions
  else []

/-- The query string of `GET /api/articulos`. -/
structure ArticulosQuery where
  categoria : Campo
  tipo_etiqueta : Campo
  activo : Campo
  search : Campo
  page : JsVal
  limit : JsVal
  deriving DecidableEq, Repr

/-- A destructuring default `x = d`: it applies when the value is `undefined`. -/
def porDefecto (v : JsVal) (d : Int) : JsVal :=
  match v with
  | .undefined => .num (.int d)
  | w => w

/-- The filter steps of `listarArticulos`, in source order. -/
def articulosFiltros (q : ArticulosQuery) : Filtros :=
  let b : Filtros := ⟨[], [], 1⟩
  let b := if Campo.truthy q.categoria then
      b.push (fun k => [.texto "categoria = ", .ph k]) (Campo.val q.categoria) else b
  let b := if Campo.truthy q.tipo_etiqueta then
      b.push (fun k => [.texto "tipo_etiqueta = ", .ph k]) (Campo.val q.tipo_etiqueta) else b
  let b := if q.activo.isSome then
      b.push (fun k => [.texto "activo = ", .ph k]) (.bool (q.activo == some "true")) else b
  let b := if Campo.truthy q.search then
      b.push (fun k => [.texto "(sku ILIKE ", .ph k, .texto " OR descripcion ILIKE ", .ph k,
                        .texto ")"])
        (.str ("%" ++ q.search.getD "" ++ "%")) else b
  b

/-- The count statement of `listarArticulos`. -/
def articulosCountSql (w : Sql) : Sql :=
  .texto "SELECT COUNT(*) as total FROM articulos " :: w

/-- The page statement of `listarArticulos`. -/
def articulosPageSql (w : Sql) (paramCount : Nat) : Sql :=
  .texto "SELECT id, sku, descripcion, categoria, color, size, tipo_etiqueta, codigo_barras, imagen_url, activo, created_at, updated_at FROM articulos " ::
    w ++ [.texto " ORDER BY created_at DESC LIMIT ", .ph paramCount, .texto " OFFSET ",
          .ph (paramCount + 1)]

/-- The expression `(page - 1) * limit`. -/
def calcOffset (page limit : JsVal) : JsNum :=
  (page.toNumber.sub (.int 1)).mul limit.toNumber

/-- The handler `listarArticulos` against a store oracle. A failing statement,
or an empty count result (reading `.total` of `rows[0]` then throws), ends in
the `catch` branch. -/
def listarArticulos (db : Db) (q : ArticulosQuery) : Salida :=
  let page := porDefecto q.page 1
  let limit := porDefecto q.limit 50
  let b := articulosFiltros q
  let w := whereClause b.whereConditions
  let countQ : Consulta := ⟨articulosCountSql w, b.params⟩
  match db countQ with
  | .error _ => ⟨[countQ], fallo 500 "Error al listar artículos"⟩
  | .ok [] => ⟨[countQ], fallo 500 "Error al listar artículos"⟩
  | .ok (r0 :: _) =>
    let total := parseInt (campo r0 "total")
    let offset := calcOffset page limit
    let params := b.params ++ [limit, .num offset]
    let pageQ : Consulta := ⟨articulosPageSql w b.paramCount, params⟩
    match db pageQ with
    | .error _ => ⟨[countQ, pageQ], fallo 500 "Error al listar artículos"⟩
    | .ok rows =>
      ⟨[countQ, pageQ],
        ⟨200, true, none,
          .listado rows
            { page := parseInt page, limit := parseInt limit, total := total,
              totalPages := total.ceilDiv limit.toNumber }⟩⟩

/-- The query string of `GET /api/usuarios`. -/
structure UsuariosQuery where
  rol_id : Campo
  activo : Campo
  search : Campo
  page : JsVal
  limit : JsVal
  deriving DecidableEq, Repr

/-- The filter steps of `listarUsuarios`, in source order. The `rol_id` step
interpolates the identifier `paramCounter`, which is declared nowhere: evaluating
the template literal throws a `ReferenceError` before anything is pushed. -/
def usuariosFiltros (q : UsuariosQuery) : Except String Filtros :=
  let b : Filtros := ⟨[], [], 1⟩
  if Campo.truthy q.rol_id then
    .error "ReferenceError: paramCounter is not defined"
  else
    let b := if q.activo.isSome then
        b.push (fun k => [.texto "activo = ", .ph k]) (.bool (q.activo == some "true")) else b
    let b := if Campo.truthy q.search then
        b.push (fun k => [.texto "(nombre ILIKE ", .ph k, .texto " OR email ILIKE ", .ph k,
                          .texto ") OR username ILIKE ", .ph k])
          (.str ("%" ++ q.search.getD "" ++ "%")) else b
    .ok b

/-- The count statement of `listarUsuarios`. -/
def usuariosCountSql (w : Sql) : Sql :=
  .texto "SELECT COUNT(*) FROM usuarios " :: w

/-- The page statement of `listarUsuarios`. -/
def usuariosPageSql (w : Sql) (paramCount : Nat) : Sql :=
  .texto "SELECT id, username, email, nombre, apellido, rol_id, activo, ultimo_acceso, created_at, updated_at FROM usuarios " ::
    w ++ [.texto " ORDER BY created_at DESC LIMIT ", .ph paramCount, .texto " OFFSET ",
          .ph (paramCount + 1)]

/-- The handler `listarUsuarios` against a store oracle. -/
def listarUsuarios (db : Db) (q : UsuariosQuery) : Salida :=
  let page := porDefecto q.page 1
  let limit := porDefecto q.limit 50
  match usuariosFiltros q with
  | .error _ => ⟨[], fallo 500 "Error al listar usuarios"⟩
  | .ok b =>
    let w := whereClause b.whereConditions
    let countQ : Consulta := ⟨usuariosCountSql w, b.params⟩
    match db countQ with
    | .error _ => ⟨[countQ], fallo 500 "Error al listar usuarios"⟩
    | .ok [] => ⟨[countQ], fallo 500 "Error al listar usuarios"⟩
    | .ok (r0 :: _) =>
      let total := parseInt (campo r0 "total")
      let offset := calcOffset page limit
      let params := b.params ++ [limit, .num offset]
      let pageQ : Consulta := ⟨usuariosPageSql w b.paramCount, params⟩
      match db pageQ with
      | .error _ => ⟨[countQ, pageQ], fallo 500 "Error al listar usuarios"⟩
      | .ok rows =>
        ⟨[countQ, pageQ],
          ⟨200, true, none,
            .listado rows
              { page := parseInt page, limit := parseInt limit, total := total,
                totalPages := total.ceilDiv limit.toNumber }⟩⟩

/-! ## Reading a WHERE fragment the way the SQL engine does -/

/-- A lexical token of a search condition. -/
inductive Tok where
  | lpar
  | rpar
  | palabra (s : String)
  | ph (k : Nat)
  deriving DecidableEq, Repr

/-- The word collected so far, as a token (nothing when empty). -/
def cerrarPalabra (acc : List Char) : List Tok :=
  if acc.isEmpty then [] else [.palabra (String.mk acc)]

/-- Splits literal text into words and parentheses; white space separates words. -/
def lexTexto (acc : List Char) : List Char → List Tok
  | [] => cerrarPalabra acc
  | c :: cs =>
    if c = '(' then cerrarPalabra acc ++ .lpar :: lexTexto [] cs
    else if c = ')' then cerrarPalabra acc ++ .rpar :: lexTexto [] cs
    else if esEspacio c then cerrarPalabra acc ++ lexTexto [] cs
    else lexTexto (acc ++ [c]) cs

/-- The tokens of a statement fragment. -/
def lexSql (q : Sql) : List Tok :=
  q.flatMap fun f => match f with
    | .texto s => lexTexto [] s.toList
    | .ph k => [.ph k]

/-- The comparison operators used by the listing predicates. -/
inductive Op where
  | eq
  | ilike
  deriving DecidableEq, Repr

/-- A search condition: comparisons of a column with a placeholder, combined
with AND and OR. -/
inductive Cond where
  | pred (col : String) (op : Op) (k : Nat)
  | and (a b : Cond)
  | or (a b : Cond)
  deriving DecidableEq, Repr

/-- Grammar levels, loosest first: OR binds looser than AND, which binds looser
than a comparison or a parenthesised condition. -/
inductive Nivel where
  | disy
  | conj
  | atomo
  deriving DecidableEq, Repr

/-- Recursive-descent reading of a condition with SQL operator precedence.
The first argument bounds the recursion depth. -/
def parseCond : Nat → Nivel → List Tok → Option (Cond × List Tok)
  | 0, _, _ => none
  | n + 1, .atomo, ts =>
    match ts with
    | .lpar :: r =>
      match parseCond n .disy r with
      | some (e, .rpar :: r') => some (e, r')
      | _ => none
    | .palabra col :: .palabra o :: .ph k :: r =>
      if o = "=" then some (.pred col .eq k, r)
      else if o = "ILIKE" then some (.pred col .ilike k, r)
      else none
    | _ => none
  | n + 1, .conj, ts =>
    match parseCond n .atomo ts with
    | none => none
    | some (a, .palabra o :: r) =>
      if o = "AND" then
        match parseCond n .conj r with
        | some (b, r') => some (.and a b, r')
        | none => none
      else some (a, .palabra o :: r)
    | some (a, r) => some (a, r)
  | n + 1, .disy, ts =>
    match parseCond n .conj ts with
    | none => none
    | some (a, .palabra o :: r) =>
      if o = "OR" then
        match parseCond n .disy r with
        | some (b, r') => some (.or a b, r')
        | none => none
      else some (a, .palabra o :: r)
    | some (a, r) => some (a, r)

/-- Reads a WHERE fragment: the empty fragment restricts nothing (`some none`),
`WHERE` followed by a condition gives that condition, anything else is not a
fragment (`none`). -/
def parseWhere (w : Sql) : Option (Option Cond) :=
  match lexSql w with
  | [] => some none
  | .palabra kw :: ts =>
    if kw = "WHERE" then
      match parseCond (3 * ts.length + 3) .disy ts with
      | some (e, []) => some (some e)
      | _ => none
    else none
  | _ => none

/-- Truth value of a condition on one row, given which comparisons the row
satisfies. -/
def Cond.eval (sat : String → Op → Nat → Bool) : Cond → Bool
  | .pred col op k => sat col op k
  | .and a b => a.eval sat && b.eval sat
  | .or a b => a.eval sat || b.eval sat

/-- Whether a row is selected under a WHERE fragment (`none`: not a fragment). -/
def selecciona (w : Sql) (sat : String → Op → Nat → Bool) : Option Bool :=
  (parseWhere w).map fun c => match c with
    | none => true
    | some e => e.eval sat

/-! ## `articulosController.js`: crearArticulo -/

/-- The body of `POST /api/articulos`. -/
structure ArticuloBody where
  sku : Campo
  descripcion : Campo
  categoria : Campo
  color : Campo
  size : Campo
  tipo_etiqueta : Campo
  codigo_barras : Campo
  imagen_url : Campo
  deriving DecidableEq, Repr

/-- The label types accepted by `crearArticulo`. -/
def tiposEtiqueta : List String := ["qr", "barcode", "envio"]

/-- The expression `x || null` as a column value. -/
def oNull (c : Campo) : Option String :=
  if Campo.truthy c then c else none

/-- A nullable text as a statement parameter. -/
def textoParam : Option String → JsVal
  | none => .null
  | some s => .str s

/-- The duplicate check of `crearArticulo`. -/
def sqlSkuSelect : Sql :=
  [.texto "SELECT id FROM articulos WHERE sku = ", .ph 1]

/-- The insert statement of `crearArticulo`. -/
def sqlArticuloInsert : Sql :=
  [.texto "INSERT INTO articulos (sku, descripcion, categoria, color, size, tipo_etiqueta, codigo_barras, imagen_url) VALUES (",
   .ph 1, .texto ", ", .ph 2, .texto ", ", .ph 3, .texto ", ", .ph 4, .texto ", ", .ph 5,
   .texto ", ", .ph 6, .texto ", ", .ph 7, .texto ", ", .ph 8, .texto ") RETURNING *"]

/-- Modelled from the spec: the table definition of `articulos` is not part of
the sources. A new row gets an id not used by any row, `activo = true`
("row returned with `activo=true`") and both timestamps set to the current time. -/
def Store.nuevoArticulo (st : Store) (sku descripcion categoria : String)
    (color size : Option String) (tipo_etiqueta : String)
    (codigo_barras imagen_url : Option String) : Articulo :=
  { id := (st.articulos.map fun a => a.id).foldr max 0 + 1,
    sku := sku, descripcion := descripcion, categoria := categoria,
    color := color, size := size, tipo_etiqueta := tipo_etiqueta,
    codigo_barras := codigo_barras, imagen_url := imagen_url,
    activo := true, created_at := st.ahora, updated_at := st.ahora }

/-- The handler `crearArticulo`. -/
def crearArticulo (st : Store) (body : ArticuloBody) : Store × Salida :=
  if !Campo.truthy body.sku || !Campo.truthy body.descripcion
      || !Campo.truthy body.categoria || !Campo.truthy body.tipo_etiqueta then
    (st, ⟨[], fallo 400 "SKU, descripción, categoría y tipo de etiqueta son requeridos"⟩)
  else
    let sku := body.sku.getD ""
    let descripcion := body.descripcion.getD ""
    let categoria := body.categoria.getD ""
    let tipo_etiqueta := body.tipo_etiqueta.getD ""
    if !tiposEtiqueta.contains tipo_etiqueta then
      (st, ⟨[], fallo 400 "Tipo de etiqueta inválido (qr, barcode, envio)"⟩)
    else
      let q1 : Consulta := ⟨sqlSkuSelect, [.str sku]⟩
      let (ok1, st1) := st.paso
      if !ok1 then (st1, ⟨[q1], fallo 500 "Error al crear artículo"⟩)
      else if (st1.articulos.filter fun a => a.sku = sku).length > 0 then
        (st1, ⟨[q1], fallo 400 "El SKU ya existe"⟩)
      else
        let q2 : Consulta := ⟨sqlArticuloInsert,
          [.str sku, .str descripcion, .str categoria, textoParam (oNull body.color),
           textoParam (oNull body.size), .str tipo_etiqueta,
           textoParam (oNull body.codigo_barras), textoParam (oNull body.imagen_url)]⟩
        let (ok2, st2) := st1.paso
        if !ok2 then (st2, ⟨[q1, q2], fallo 500 "Error al crear artículo"⟩)
        else
          let a := st2.nuevoArticulo sku descripcion categoria (oNull body.color)
            (oNull body.size) tipo_etiqueta (oNull body.codigo_barras)
            (oNull body.imagen_url)
          ({ st2 with articulos := st2.articulos ++ [a] },
            ⟨[q1, q2], ⟨201, true, some "Artículo creado exitosamente", .articulo a⟩⟩)

/-! ## `articulosController.js`: the other article handlers -/

/-- The lookup statement of `obtenerArticulo`. -/
def sqlArticuloPorId : Sql :=
  [.texto "SELECT id, sku, descripcion, categoria, color, size, tipo_etiqueta, codigo_barras, imagen_url, activo, created_at, updated_at FROM articulos WHERE id = ",
   .ph 1]

/-- The handler `obtenerArticulo`; `id` is the route parameter. -/
def obtenerArticulo (st : Store) (id : Nat) : Store × Salida :=
  let q : Consulta := ⟨sqlArticuloPorId, [rutaParam id]⟩
  let (ok, st1) := st.paso
  if !ok then (st1, ⟨[q], fallo 500 "Error al obtener artículo"⟩)
  else
    match st1.articulos.filter fun a => a.id = id with
    | [] => (st1, ⟨[q], fallo 404 "Artículo no encontrado"⟩)
    | a :: _ => (st1, ⟨[q], ⟨200, true, none, .articulo a⟩⟩)

/-- The existence check of `actualizarArticulo`. -/
def sqlArticuloExiste : Sql :=
  [.texto "SELECT id FROM articulos WHERE id = ", .ph 1]

/-- The duplicate check of `actualizarArticulo`. -/
def sqlSkuDeOtro : Sql :=
  [.texto "SELECT id FROM articulos WHERE sku = ", .ph 1, .texto " AND id != ", .ph 2]

/-- The update statement of `actualizarArticulo`. -/
def sqlArticuloUpdate : Sql :=
  [.texto "UPDATE articulos SET sku = COALESCE(", .ph 1,
   .texto ", sku), descripcion = COALESCE(", .ph 2,
   .texto ", descripcion), categoria = COALESCE(", .ph 3,
   .texto ", categoria), color = COALESCE(", .ph 4,
   .texto ", color), size = COALESCE(", .ph 5,
   .texto ", size), tipo_etiqueta = COALESCE(", .ph 6,
   .texto ", tipo_etiqueta), codigo_barras = COALESCE(", .ph 7,
   .texto ", codigo_barras), imagen_url = COALESCE(", .ph 8,
   .texto ", imagen_url), updated_at = CURRENT_TIMESTAMP WHERE id = ", .ph 9,
   .texto " RETURNING *"]

/-- The function `COALESCE(p, col)` on a column without NULLs: the parameter
unless it is NULL (an absent body field is passed as `undefined`, which the
driver sends as NULL). -/
def coalesce (p : Campo) (col : String) : String :=
  match p with
  | some v => v
  | none => col

/-- The function `COALESCE(p, col)` on a nullable column. -/
def coalesceNull (p : Campo) (col : Option String) : Option String :=
  match p with
  | some v => some v
  | none => col

/-- The row written by the update statement of `actualizarArticulo`. -/
def Articulo.fusionar (a : Articulo) (body : ArticuloBody) (ahora : Nat) : Articulo :=
  { a with
    sku := coalesce body.sku a.sku,
    descripcion := coalesce body.descripcion a.descripcion,
    categoria := coalesce body.categoria a.categoria,
    color := coalesceNull body.color a.color,
    size := coalesceNull body.size a.size,
    tipo_etiqueta := coalesce body.tipo_etiqueta a.tipo_etiqueta,
    codigo_barras := coalesceNull body.codigo_barras a.codigo_barras,
    imagen_url := coalesceNull body.imagen_url a.imagen_url,
    updated_at := ahora }

/-- The handler `actualizarArticulo`; `id` is the route parameter. -/
def actualizarArticulo (st : Store) (id : Nat) (body : ArticuloBody) : Store × Salida :=
  let q1 : Consulta := ⟨sqlArticuloExiste, [rutaParam id]⟩
  let (ok1, st1) := st.paso
  if !ok1 then (st1, ⟨[q1], fallo 500 "Error al actualizar artículo"⟩)
  else if (st1.articulos.filter fun a => a.id = id).length = 0 then
    (st1, ⟨[q1], fallo 404 "Artículo no encontrado"⟩)
  else
    let q3 : Consulta := ⟨sqlArticuloUpdate,
      [Campo.val body.sku, Campo.val body.descripcion, Campo.val body.categoria,
       Campo.val body.color, Campo.val body.size, Campo.val body.tipo_etiqueta,
       Campo.val body.codigo_barras, Campo.val body.imagen_url, rutaParam id]⟩
    let escribir (s : Store) (previas : List Consulta) : Store × Salida :=
      let (ok3, s3) := s.paso
      if !ok3 then (s3, ⟨previas ++ [q3], fallo 500 "Error al actualizar artículo"⟩)
      else
        let s4 : Store := { s3 with articulos := s3.articulos.map fun a =>
          if a.id = id then a.fusionar body s3.ahora else a }
        (s4, ⟨previas ++ [q3],
          ⟨200, true, some "Artículo actualizado exitosamente",
            match s4.articulos.filter fun a => a.id = id with
            | a :: _ => .articulo a
            | [] => .fila none⟩⟩)
    if Campo.truthy body.sku then
      let q2 : Consulta := ⟨sqlSkuDeOtro, [Campo.val body.sku, rutaParam id]⟩
      let (ok2, st2) := st1.paso
      if !ok2 then (st2, ⟨[q1, q2], fallo 500 "Error al actualizar artículo"⟩)
      else if (st2.articulos.filter fun a => a.sku = body.sku.getD "" && a.id != id).length > 0
      then (st2, ⟨[q1, q2], fallo 400 "El SKU ya existe en otro artículo"⟩)
      else escribir st2 [q1, q2]
    else escribir st1 [q1]

/-- The statement of `eliminarArticulo`. -/
def sqlArticuloDesactivar : Sql :=
  [.texto "UPDATE articulos SET activo = false, updated_at = CURRENT_TIMESTAMP WHERE id = ",
   .ph 1, .texto " RETURNING id, sku, descripcion"]

/-- The handler `eliminarArticulo`; `id` is the route parameter. -/
def eliminarArticulo (st : Store) (id : Nat) : Store × Salida :=
  let q : Consulta := ⟨sqlArticuloDesactivar, [rutaParam id]⟩
  let (ok, st1) := st.paso
  if !ok then (st1, ⟨[q], fallo 500 "Error al eliminar artículo"⟩)
  else
    let st2 : Store := { st1 with articulos := st1.articulos.map fun a =>
      if a.id = id then { a with activo := false, updated_at := st1.ahora } else a }
    match st2.articulos.filter fun a => a.id = id with
    | [] => (st2, ⟨[q], fallo 404 "Artículo no encontrado"⟩)
    | a :: _ =>
      (st2, ⟨[q], ⟨200, true, some "Artículo desactivado exitosamente",
        .fila (some [("id", idParam a.id), ("sku", .str a.sku),
                     ("descripcion", .str a.descripcion)])⟩⟩)

/-- Whether `pre` is a non-empty prefix of `palabra`. -/
def prefijoNoVacio (pre palabra : List Char) : Bool :=
  !pre.isEmpty && pre.isPrefixOf palabra

/-- PostgreSQL's reading of text as a boolean: case and surrounding white space
are ignored; prefixes of `true`, `yes`, and `on` (two letters at least) and `1`
are true; prefixes of `false`, `no`, and `off` (two letters at least) and `0`
are false; other text is an error (`none`). -/
def textoBooleano (s : String) : Option Bool :=
  let t := (recortarCon esEspacioC s.toList).map Char.toLower
  if prefijoNoVacio t "true".toList || prefijoNoVacio t "yes".toList
      || t = "on".toList || t = "1".toList then some true
  else if prefijoNoVacio t "false".toList || prefijoNoVacio t "no".toList
      || t = "of".toList || t = "off".toList || t = "0".toList then some false
  else none

/-- The value a statement parameter takes in a boolean column that admits no
NULL; `none` when the store rejects the statement. Numbers reach the store as
their decimal text. -/
def paramBooleano : JsVal → Option Bool
  | .bool b => some b
  | .str s => textoBooleano s
  | .num (.int 1) => some true
  | .num (.int 0) => some false
  | _ => none

/-- The statement of the article handler `cambiarEstado`. -/
def sqlArticuloEstado : Sql :=
  [.texto "UPDATE articulos SET activo = ", .ph 1,
   .texto ", updated_at = CURRENT_TIMESTAMP WHERE id = ", .ph 2,
   .texto " RETURNING id, sku, descripcion, activo"]

/-- The article handler `cambiarEstado`; `id` is the route parameter and
`activo` the body field, of any JSON type. -/
def cambiarEstado (st : Store) (id : Nat) (activo : JsVal) : Store × Salida :=
  if activo = .undefined then
    (st, ⟨[], fallo 400 "El campo 'activo' es requerido"⟩)
  else
    let q : Consulta := ⟨sqlArticuloEstado, [activo, rutaParam id]⟩
    let (ok, st1) := st.paso
    if !ok then (st1, ⟨[q], fallo 500 "Error al cambiar estado del artículo"⟩)
    else
      match paramBooleano activo with
      | none => (st1, ⟨[q], fallo 500 "Error al cambiar estado del artículo"⟩)
      | some b =>
        let st2 : Store := { st1 with articulos := st1.articulos.map fun a =>
          if a.id = id then { a with activo := b, updated_at := st1.ahora } else a }
        match st2.articulos.filter fun a => a.id = id with
        | [] => (st2, ⟨[q], fallo 404 "Artículo no encontrado"⟩)
        | a :: _ =>
          (st2, ⟨[q],
            ⟨200, true,
              some ("Artículo " ++ (if activo.truthy then "activado" else "desactivado")
                ++ " exitosamente"),
              .fila (some [("id", idParam a.id), ("sku", .str a.sku),
                           ("descripcion", .str a.descripcion), ("activo", .bool a.activo)])⟩⟩)

/-! ## `authController.js`: cambiarPassword -/

/-- The body of `POST /api/auth/cambiar-password`. -/
structure PasswordBody where
  passwordActual : Campo
  passwordNuevo : Campo
  deriving DecidableEq, Repr

/-- The property `length` of a string: its number of UTF-16 code units. -/
def jsLength (s : String) : Nat :=
  (s.toList.map fun c => if c.toNat < 65536 then 1 else 2).sum

/-- The lookup statement of `cambiarPassword`. -/
def sqlPasswordSelect : Sql :=
  [.texto "SELECT password_hash FROM usuarios WHERE id = ", .ph 1]

/-- The update statement of `cambiarPassword`. -/
def sqlPasswordUpdate : Sql :=
  [.texto "UPDATE usuarios SET password_hash = ", .ph 1,
   .texto ", updated_at = CURRENT_TIMESTAMP WHERE id = ", .ph 2]

/-- Effect of the update statement of `cambiarPassword`. -/
def Store.ponerHash (st : Store) (id : Nat) (hash : String) : Store :=
  { st with usuarios := st.usuarios.map fun u =>
      if u.id = id then { u with password_hash := hash, updated_at := st.ahora } else u }

/-- The handler `cambiarPassword`; `userId` is `req.user.id`. With no row for the
user, reading `password_hash` of `rows[0]` throws and the `catch` branch answers. -/
def cambiarPassword (c : Cripto) (st : Store) (userId : Nat) (body : PasswordBody) :
    Store × Salida :=
  if !Campo.truthy body.passwordActual || !Campo.truthy body.passwordNuevo then
    (st, ⟨[], fallo 400 "Password actual y nuevo son requeridos"⟩)
  else
    let passwordActual := body.passwordActual.getD ""
    let passwordNuevo := body.passwordNuevo.getD ""
    if jsLength passwordNuevo < 6 then
      (st, ⟨[], fallo 400 "El password nuevo debe tener al menos 6 caracteres"⟩)
    else
      let q1 : Consulta := ⟨sqlPasswordSelect, [idParam userId]⟩
      let (ok1, st1) := st.paso
      if !ok1 then (st1, ⟨[q1], fallo 500 "Error al cambiar password"⟩)
      else
        match st1.usuarios.filter fun u => u.id = userId with
        | [] => (st1, ⟨[q1], fallo 500 "Error al cambiar password"⟩)
        | usuario :: _ =>
          let passwordValido := c.compare passwordActual usuario.password_hash
          if !passwordValido then (st1, ⟨[q1], fallo 401 "Password actual incorrecto"⟩)
          else
            let nuevoHash := c.hash passwordNuevo
            let q2 : Consulta := ⟨sqlPasswordUpdate, [.str nuevoHash, idParam userId]⟩
            let (ok2, st2) := st1.paso
            if !ok2 then (st2, ⟨[q1, q2], fallo 500 "Error al cambiar password"⟩)
            else
              (st2.ponerHash userId nuevoHash,
                ⟨[q1, q2], ⟨200, true, some "Password actualizado correctamente", .ninguno⟩⟩)

/-! ## `app.js`: the global error handler -/

/-- An error object reaching the global handler: the properties the handler
reads. `status` is `none` when the error has no such property, and an integer
otherwise. -/
structure ErrorJs where
  name : String
  message : Campo
  status : Option Int
  stack : Campo
  errors : JsVal
  deriving DecidableEq, Repr

/-- The status and the JSON object handed to `res.status(...).json(...)`. An
absent key is `none`. -/
structure RespuestaError where
  status : Int
  success : Bool
  message : String
  errors : Option JsVal
  stack : Option String
  deriving DecidableEq, Repr

/-- What the global error handler does to the response. -/
inductive ResultadoError where
  /-- The status is sent with the JSON object as the body. -/
  | json (r : RespuestaError)
  /-- The status is sent and the body is left out. -/
  | sinCuerpo (status : Int)
  /-- The call throws: the handler sends nothing, and the error goes on to the
  default handler of Express, which answers 500 with a page of its own. -/
  | lanza
  deriving DecidableEq, Repr

/-- The call `res.status(n).json(obj)`. A status outside `100..999` is refused
with a `RangeError`; the informational statuses, 204 and 304 are sent without
a body, and so is 205, whose body Express empties; every other status is sent
with the object as JSON. -/
def enviarJson (r : RespuestaError) : ResultadoError :=
  if r.status < 100 ∨ 999 < r.status then .lanza
  else if r.status < 200 ∨ r.status = 204 ∨ r.status = 205 ∨ r.status = 304 then
    .sinCuerpo r.status
  else .json r

/-- The global error handler; `nodeEnv` is `process.env.NODE_ENV`. The spread
`...(cond && { stack: err.stack })` adds the key only when `cond` holds, and a
key whose value is `undefined` is not serialised. -/
def manejadorErrores (nodeEnv : Campo) (err : ErrorJs) : ResultadoError :=
  if err.name = "ValidationError" then
    enviarJson ⟨400, false, "Error de validación",
      if err.errors = .undefined then none else some err.errors, none⟩
  else if err.name = "JsonWebTokenError" then
    enviarJson ⟨401, false, "Token inválido", none, none⟩
  else if err.name = "TokenExpiredError" then
    enviarJson ⟨401, false, "Token expirado", none, none⟩
  else
    enviarJson
      ⟨match err.status with
        | some n => if n = 0 then 500 else n
        | none => 500,
       false,
       if Campo.truthy err.message then err.message.getD "" else "Error interno del servidor",
       none,
       if nodeEnv = some "development" then err.stack else none⟩

/-! ## `config/database.js`: transaction -/

/-- What happens on a client during a transaction, in order: a statement is
issued, the callback runs, `release` of the pool is invoked. -/
inductive Evento where
  | sql (texto : String)
  | callback
  | release
  deriving DecidableEq, Repr

/-- The awaits of `transaction`. -/
inductive Fase where
  | inicio
  | callback
  | commit
  | rollback
  deriving DecidableEq, Repr

/-- The environment of one call of `transaction`: whether `pool.connect`
resolves, how BEGIN, the callback, COMMIT and ROLLBACK end (an error carries its
message), and the await, if any, during which the five-second timer armed by
`getClient` fires. -/
structure Entorno (ρ : Type) where
  conecta : Except String Unit
  inicio : Except String Unit
  callback : Except String ρ
  commit : Except String Unit
  rollback : Except String Unit
  timer : Option Fase

/-- The outcome of a call of `transaction`: the events on the client and the
value returned or the error thrown. -/
structure Transcurso (ρ : Type) where
  traza : List Evento
  resultado : Except String ρ

/-- The timer of `getClient`, when it fires during the await `f`: it calls
`client.release()`, which at that moment is the wrapper: the wrapper restores the
original `release` and invokes it. -/
def disparo {ρ : Type} (e : Entorno ρ) (f : Fase) : List Evento :=
  if e.timer = some f then [.release] else []

/-- The `try` block of `transaction`: BEGIN, the callback, COMMIT. -/
def transaction.intento {ρ : Type} (e : Entorno ρ) : List Evento × Except String ρ :=
  match e.inicio with
  | .error m => ([.sql "BEGIN"] ++ disparo e .inicio, .error m)
  | .ok _ =>
    match e.callback with
    | .error m =>
      ([.sql "BEGIN"] ++ disparo e .inicio ++ [.callback] ++ disparo e .callback, .error m)
    | .ok result =>
      match e.commit with
      | .error m =>
        ([.sql "BEGIN"] ++ disparo e .inicio ++ [.callback] ++ disparo e .callback
          ++ [.sql "COMMIT"] ++ disparo e .commit, .error m)
      | .ok _ =>
        ([.sql "BEGIN"] ++ disparo e .inicio ++ [.callback] ++ disparo e .callback
          ++ [.sql "COMMIT"] ++ disparo e .commit, .ok result)

/-- The function `transaction` on a client obtained with `getClient`. After the
`try` block, the `catch` block issues ROLLBACK and rethrows (a failing ROLLBACK
throws its own error instead); the `finally` block calls `client.release()`:
the wrapper of `getClient` if the timer has not fired (it clears the timer and
invokes the pool's release), and otherwise the pool's release itself, for the
second time, which throws. When `getClient` fails there is no client and nothing
happens. -/
def transaction {ρ : Type} (e : Entorno ρ) : Transcurso ρ :=
  match e.conecta with
  | .error m => ⟨[], .error m⟩
  | .ok _ =>
    let (t1, r1) := transaction.intento e
    let (t2, r2) : List Evento × Except String ρ :=
      match r1 with
      | .ok result => (t1, .ok result)
      | .error m =>
        match e.rollback with
        | .ok _ => (t1 ++ [.sql "ROLLBACK"] ++ disparo e .rollback, .error m)
        | .error m' => (t1 ++ [.sql "ROLLBACK"] ++ disparo e .rollback, .error m')
    if t2.contains .release then
      ⟨t2 ++ [.release],
        .error "Release called on client which has already been released to the pool."⟩
    else ⟨t2 ++ [.release], r2⟩

/-! ## `usuariosController.js`: actualizarUsuario -/

/-- The body of `PUT /api/usuarios/:id`. `rol_id` and `activo` may be of any
JSON type. -/
structure UsuarioBody where
  username : Campo
  email : Campo
  nombre : Campo
  apellido : Campo
  rol_id : JsVal
  activo : JsVal
  password : Campo
  deriving DecidableEq, Repr

/-- The three accumulators of `actualizarUsuario`: `fields`, `params`, `paramCount`. -/
structure Campos where
  fields : List Sql
  params : List JsVal
  paramCount : Nat
  deriving DecidableEq, Repr

/-- One step: push the assignment of `col` written with the current
`paramCount`, push its parameter, increment `paramCount`. -/
def Campos.push (b : Campos) (col : String) (p : JsVal) : Campos :=
  ⟨b.fields ++ [[.texto (col ++ " = "), .ph b.paramCount]], b.params ++ [p], b.paramCount + 1⟩

/-- The steps of `actualizarUsuario` that collect the fields to update, in source
order, ending with the push of the `updated_at` assignment. -/
def usuarioCampos (c : Cripto) (body : UsuarioBody) : Campos :=
  let b : Campos := ⟨[], [], 1⟩
  let b := if Campo.truthy body.username then b.push "username" (Campo.val body.username) else b
  let b := if Campo.truthy body.email then b.push "email" (Campo.val body.email) else b
  let b := if Campo.truthy body.nombre then b.push "nombre" (Campo.val body.nombre) else b
  let b := if Campo.truthy body.apellido then b.push "apellido" (Campo.val body.apellido) else b
  let b := if body.rol_id.truthy then b.push "rol_id" body.rol_id else b
  let b := if body.activo ≠ .undefined then
      b.push "activo" (.bool (body.activo == .bool true || body.activo == .str "true")) else b
  let b := if Campo.truthy body.password then
      b.push "password_hash" (.str (c.hash (body.password.getD ""))) else b
  { b with fields := b.fields ++ [[.texto "updated_at = CURRENT_TIMESTAMP"]] }

/-- The existence check of `actualizarUsuario`. -/
def sqlUsuarioExiste : Sql :=
  [.texto "SELECT id FROM usuarios WHERE id = ", .ph 1]

/-- The update statement of `actualizarUsuario`. -/
def usuarioUpdateSql (fields : List Sql) (paramCount : Nat) : Sql :=
  .texto "UPDATE usuarios SET " :: joinSql ", " fields
    ++ [.texto " WHERE id = ", .ph paramCount,
        .texto " RETURNING id, uuid, username, email, nombre, apellido, rol_id, activo, ultimo_acceso, created_at, updated_at"]

/-- The handler `actualizarUsuario` against a store oracle; `id` is the route
parameter. -/
def actualizarUsuario (c : Cripto) (db : Db) (id : String) (body : UsuarioBody) : Salida :=
  let q1 : Consulta := ⟨sqlUsuarioExiste, [.str id]⟩
  match db q1 with
  | .error _ => ⟨[q1], fallo 500 "Error al actualizar usuario"⟩
  | .ok [] => ⟨[q1], fallo 404 "Usuario no encontrado"⟩
  | .ok (_ :: _) =>
    let b := usuarioCampos c body
    if b.fields.length = 0 then
      ⟨[q1], fallo 400 "No hay campos para actualizar"⟩
    else
      let params := b.params ++ [.str id]
      let q2 : Consulta := ⟨usuarioUpdateSql b.fields b.paramCount, params⟩
      match db q2 with
      | .error _ => ⟨[q1, q2], fallo 500 "Error al actualizar usuario"⟩
      | .ok rows =>
        ⟨[q1, q2], ⟨200, true, some "Usuario actualizado exitosamente", .fila rows.head?⟩⟩

/-! ## The listing contract, in the words of the specification -/

/-- A piece of a statement in which every placeholder has been replaced by the
value it refers to. -/
inductive Pieza where
  | texto (s : String)
  | valor (v : JsVal)
  deriving DecidableEq, Repr

/-- Replaces each placeholder with number `k` by the `k`-th entry of the
parameter list, counting from one; `none` when a placeholder is `0` or exceeds
the length of the list. -/
def instanciar (params : List JsVal) : Sql → Option (List Pieza)
  | [] => some []
  | .texto s :: r => (instanciar params r).map fun ps => .texto s :: ps
  | .ph k :: r =>
    if k = 0 then none
    else
      match params.get? (k - 1) with
      | none => none
      | some v => (instanciar params r).map fun ps => .valor v :: ps

/-- The filter values of an article query as the contract lists them: the values
of the filters that are present, in the order categoria, tipo_etiqueta, activo
(as the boolean "the string is `true`"), search wrapped in percent signs.
A text filter is present when it is a non-empty string, `activo` when it is
given at all. -/
def articulosValores (q : ArticulosQuery) : List JsVal :=
  (if Campo.truthy q.categoria then [Campo.val q.categoria] else [])
    ++ (if Campo.truthy q.tipo_etiqueta then [Campo.val q.tipo_etiqueta] else [])
    ++ (match q.activo with
        | some a => [.bool (decide (a = "true"))]
        | none => [])
    ++ (if Campo.truthy q.search then [.str ("%" ++ q.search.getD "" ++ "%")] else [])

/-- The predicates of an article query written with their values in place, one
for each present filter. -/
def articulosPredicadosDirectos (q : ArticulosQuery) : List (List Pieza) :=
  (if Campo.truthy q.categoria then
      [[.texto "categoria = ", .valor (Campo.val q.categoria)]] else [])
    ++ (if Campo.truthy q.tipo_etiqueta then
      [[.texto "tipo_etiqueta = ", .valor (Campo.val q.tipo_etiqueta)]] else [])
    ++ (match q.activo with
        | some a => [[.texto "activo = ", .valor (.bool (decide (a = "true")))]]
        | none => [])
    ++ (if Campo.truthy q.search then
      [[.texto "(sku ILIKE ", .valor (.str ("%" ++ q.search.getD "" ++ "%")),
        .texto " OR descripcion ILIKE ", .valor (.str ("%" ++ q.search.getD "" ++ "%")),
        .texto ")"]] else [])

/-- Predicates joined by AND under a WHERE keyword; nothing when there is none. -/
def whereDirecto : List (List Pieza) → List Pieza
  | [] => []
  | c :: cs => .texto "WHERE " :: c ++ (cs.flatMap fun d => .texto " AND " :: d)

/-- The conditions of an article query as the policy describes them: one
comparison for each present filter, the search being one OR over `sku` and
`descripcion`; each takes the placeholder number it is given. -/
def articulosPredicados (q : ArticulosQuery) : List (Nat → Cond) :=
  (if Campo.truthy q.categoria then [fun k => .pred "categoria" .eq k] else [])
    ++ (if Campo.truthy q.tipo_etiqueta then [fun k => .pred "tipo_etiqueta" .eq k] else [])
    ++ (if q.activo.isSome then [fun k => .pred "activo" .eq k] else [])
    ++ (if Campo.truthy q.search then
      [fun k => .or (.pred "sku" .ilike k) (.pred "descripcion" .ilike k)] else [])

/-- Gives consecutive placeholder numbers to a list of conditions. -/
def numerar : List (Nat → Cond) → Nat → List Cond
  | [], _ => []
  | f :: fs, k => f k :: numerar fs (k + 1)

/-- The conjunction of a list of conditions; `none` for the empty list. -/
def conjuncion : List Cond → Option Cond
  | [] => none
  | [c] => some c
  | c :: d :: cs => (conjuncion (d :: cs)).map fun e => .and c e

/-- A value that denotes the integer `n`: the number itself or a string of
decimal digits. -/
def esEntero (v : JsVal) (n : Int) : Prop :=
  v = .num (.int n) ∨ ∃ s, v = .str s ∧ esDecimal s.toList = true ∧ (valorDigitos s.toList : Int) = n

/-- How a stored article fares on one comparison of a listing statement:
equality compares the column with the parameter the placeholder refers to, and
`ILIKE` applies the pattern-matching relation `ilike` of the store to the column
and the pattern parameter. Comparisons the listing never writes are false. -/
def satisfaceArticulo (ilike : String → String → Bool) (params : List JsVal) (a : Articulo)
    (col : String) (op : Op) (k : Nat) : Bool :=
  match op, params.get? (k - 1) with
  | .eq, some v =>
    if col = "categoria" then v == .str a.categoria
    else if col = "tipo_etiqueta" then v == .str a.tipo_etiqueta
    else if col = "activo" then v == .bool a.activo
    else false
  | .ilike, some (.str patron) =>
    if col = "sku" then ilike a.sku patron
    else if col = "descripcion" then ilike a.descripcion patron
    else false
  | _, _ => false

/-- An article row without its modification time. -/
def Articulo.sinFecha (a : Articulo) : Articulo := { a with updated_at := 0 }

/-- The count statement of the article listing with the contract's parameter list. -/
def articulosConteoEsperado (q : ArticulosQuery) : Consulta :=
  ⟨articulosCountSql (whereClause (articulosFiltros q).whereConditions), articulosValores q⟩

/-- The page statement of the article listing with the contract's parameter
list: the filter values, then `limit`, then the offset `(page - 1) * limit`. -/
def articulosPaginaEsperada (q : ArticulosQuery) : Consulta :=
  ⟨articulosPageSql (whereClause (articulosFiltros q).whereConditions)
      (articulosFiltros q).paramCount,
    articulosValores q
      ++ [porDefecto q.limit 50,
          .num (calcOffset (porDefecto q.page 1) (porDefecto q.limit 50))]⟩

/-- The validation response of `crearArticulo` seen from outside: status 400 and
no statement issued. -/
def rechazadoSinConsulta (r : Store × Salida) : Prop :=
  r.2.respuesta.status = 400 ∧ r.2.consultas = []

/-- A create-article body fails validation, relative to a list of label types:
one of sku, descripcion, categoria, tipo_etiqueta is missing or empty, or
tipo_etiqueta is not in the list. -/
def invalidoSegun (tipos : List String) (body : ArticuloBody) : Prop :=
  Campo.truthy body.sku = false ∨ Campo.truthy body.descripcion = false
    ∨ Campo.truthy body.categoria = false ∨ Campo.truthy body.tipo_etiqueta = false
    ∨ body.tipo_etiqueta.getD "" ∉ tipos

/-- The assignments of an update body as the contract lists them: the supplied
fields among username, email, nombre, apellido, rol_id, activo, password_hash, in
that order, each with the value it is given; `activo` as the boolean "is `true`
or the string `true`", `password_hash` as the hash of the supplied password. A
text field or `rol_id` is supplied when it is truthy, `activo` when it is given
at all. -/
def usuarioAsignaciones (c : Cripto) (body : UsuarioBody) : List (String × JsVal) :=
  (if Campo.truthy body.username then [("username", Campo.val body.username)] else [])
    ++ (if Campo.truthy body.email then [("email", Campo.val body.email)] else [])
    ++ (if Campo.truthy body.nombre then [("nombre", Campo.val body.nombre)] else [])
    ++ (if Campo.truthy body.apellido then [("apellido", Campo.val body.apellido)] else [])
    ++ (if body.rol_id.truthy then [("rol_id", body.rol_id)] else [])
    ++ (if body.activo ≠ .undefined then
        [("activo", .bool (body.activo == .bool true || body.activo == .str "true"))] else [])
    ++ (if Campo.truthy body.password then
        [("password_hash", .str (c.hash (body.password.getD "")))] else [])

/-- A SET list written with its values in place: each assignment followed by a
comma, then the assignment of `updated_at`. -/
def setDirecto (asig : List (String × JsVal)) : List Pieza :=
  (asig.flatMap fun cv => [.texto (cv.1 ++ " = "), .valor cv.2, .texto ", "])
    ++ [.texto "updated_at = CURRENT_TIMESTAMP"]

/-- The assignments of a SET list written with consecutive placeholders from
`k` on. -/
def camposNumerados : List (String × JsVal) → Nat → List Sql
  | [], _ => []
  | cv :: r, k => [.texto (cv.1 ++ " = "), .ph k] :: camposNumerados r (k + 1)

/-- The accumulators of `actualizarUsuario` agree with a list of assignments:
the fields are its assignments numbered from one, the parameters are its values,
and `paramCount` is the next free number. -/
def Campos.Concuerda (b : Campos) (asig : List (String × JsVal)) : Prop :=
  b.fields = camposNumerados asig 1 ∧ b.params = asig.map Prod.snd
    ∧ b.paramCount = asig.length + 1

/-- The update statement of `actualizarUsuario` with the contract's parameter
list: the assigned values, then the id. -/
def usuarioUpdateEsperado (c : Cripto) (id : String) (body : UsuarioBody) : Consulta :=
  ⟨usuarioUpdateSql (usuarioCampos c body).fields (usuarioCampos c body).paramCount,
    (usuarioAsignaciones c body).map Prod.snd ++ [.str id]⟩

/-- The label types as the specification names them. -/
def tiposEtiquetaSpec : List String := ["qr", "barcode", "shipping"]

/-! ## Sample data -/

namespace Ejemplo

/-- A user row: `ana`, active, administrator. -/
def ana : Usuario :=
  { id := 1, uuid := "u-1", username := "ana", email := "ana@dbx.mx",
    password_hash := "hash-de-secreta", nombre := "Ana", apellido := "Ruiz",
    rol_id := 1, activo := true, ultimo_acceso := none, created_at := 10, updated_at := 10 }

/-- A user row: `beto`, deactivated, supervisor. -/
def beto : Usuario :=
  { id := 2, uuid := "u-2", username := "beto", email := "beto@dbx.mx",
    password_hash := "hash-de-clave", nombre := "Beto", apellido := "Paz",
    rol_id := 2, activo := false, ultimo_acceso := none, created_at := 11, updated_at := 11 }

/-- A store with two users, two roles and no article; every statement is answered. -/
def store : Store :=
  { usuarios := [ana, beto],
    roles := [⟨1, "Administrador"⟩, ⟨2, "Supervisor"⟩],
    articulos := [], ahora := 100, fallos := [] }

/-- Primitives for the samples: a password verifies when the hash is
`hash-de-` followed by it; the tokens `t1`, `t2`, `t9` decode to the user ids
1, 2, 9, `viejo` is expired, everything else is invalid. -/
def cripto : Cripto :=
  { compare := fun password hash => hash == "hash-de-" ++ password,
    hash := fun password => "hash-de-" ++ password,
    sign := fun p => "token-de-" ++ p.username,
    verify := fun t =>
      if t = "t1" then .valido 1 else if t = "t2" then .valido 2
      else if t = "t9" then .valido 9 else if t = "viejo" then .expirado else .invalido }

/-- A login with the right username and a wrong password. -/
def loginMalPassword : LoginBody := ⟨some "ana", some "equivocada"⟩

/-- A request carrying the identity of a supervisor. -/
def reqSupervisor : Req :=
  ⟨some "Bearer t1", some (identidadDe ana "Supervisor")⟩

/-- Whether a statement is a count statement. -/
def esConteo (q : Sql) : Bool :=
  match q with
  | .texto s :: _ => "SELECT COUNT(*)".toList.isPrefixOf s.toList
  | _ => false

/-- A store oracle that answers every count statement with one row holding the
count under the column `col`, and every other statement with `filas`. -/
def db (col : String) (conteo : String) (filas : List Fila) : Db :=
  fun c => if esConteo c.sql then .ok [[(col, .str conteo)]] else .ok filas

/-- Two article rows as the page statement returns them. -/
def dosFilas : List Fila :=
  [[("id", .num (.int 5)), ("sku", .str "X5")], [("id", .num (.int 4)), ("sku", .str "X4")]]

/-- The article query `?limit=2`. -/
def limiteDos : ArticulosQuery := ⟨none, none, none, none, .undefined, .str "2"⟩

/-- The article query `?categoria=crocs&activo=true&search=X`. -/
def tresFiltros : ArticulosQuery :=
  ⟨some "crocs", none, some "true", some "X", .undefined, .undefined⟩

/-- The user query `?rol_id=2`. -/
def porRol : UsuariosQuery := ⟨some "2", none, none, .undefined, .undefined⟩

/-- The user query `?activo=true&search=ana`. -/
def activosAna : UsuariosQuery := ⟨none, some "true", some "ana", .undefined, .undefined⟩

/-- A row that fails `activo = $1` and matches only `username ILIKE $2`. -/
def filaInactiva : String → Op → Nat → Bool :=
  fun col op k => col == "username" && op == .ilike && k == 2

/-- A complete article body whose label type is `shipping`. -/
def cuerpoShipping : ArticuloBody :=
  ⟨some "X1", some "Tag", some "crocs", none, none, some "shipping", none, none⟩

/-- A complete article body whose label type is `envio`. -/
def cuerpoEnvio : ArticuloBody :=
  ⟨some "X1", some "Tag", some "crocs", none, none, some "envio", none, none⟩

/-- An article row with sku `A-1`. -/
def artA : Articulo :=
  { id := 1, sku := "A-1", descripcion := "Clog", categoria := "crocs", color := some "rojo",
    size := none, tipo_etiqueta := "qr", codigo_barras := none, imagen_url := none,
    activo := true, created_at := 20, updated_at := 20 }

/-- An article row with sku `B-1`. -/
def artB : Articulo :=
  { id := 2, sku := "B-1", descripcion := "Sandalia", categoria := "crocs", color := none,
    size := some "M7", tipo_etiqueta := "barcode", codigo_barras := some "750123",
    imagen_url := none, activo := true, created_at := 21, updated_at := 21 }

/-- A store holding the two articles; every statement is answered. -/
def almacen : Store :=
  { usuarios := [ana, beto], roles := [⟨1, "Administrador"⟩, ⟨2, "Supervisor"⟩],
    articulos := [artA, artB], ahora := 100, fallos := [] }

/-- An update body that supplies nothing. -/
def cuerpoVacio : ArticuloBody := ⟨none, none, none, none, none, none, none, none⟩

/-- The update body `{ sku: "" }`. -/
def cuerpoSkuVacio : ArticuloBody := { cuerpoVacio with sku := some "" }

/-- The update body `{ tipo_etiqueta: "pdf" }`. -/
def cuerpoTipoPdf : ArticuloBody := { cuerpoVacio with tipo_etiqueta := some "pdf" }

/-- The update body `{ descripcion: "Clog clásico" }`. -/
def cuerpoDescripcion : ArticuloBody := { cuerpoVacio with descripcion := some "Clog clásico" }

/-- The article query `?activo=true`. -/
def soloActivos : ArticulosQuery := ⟨none, none, some "true", none, .undefined, .undefined⟩

/-- A change of password with the right current password and a new one of eight
characters. -/
def cambioBueno : PasswordBody := ⟨some "secreta", some "nueva-clave"⟩

/-- A change of password with a wrong current password. -/
def cambioMalActual : PasswordBody := ⟨some "equivocada", some "nueva-clave"⟩

/-- A change of password whose new password has five characters. -/
def cambioCorto : PasswordBody := ⟨some "secreta", some "cinco"⟩

/-- An error with its own status and a stack. -/
def errorConStatus : ErrorJs :=
  ⟨"Error", some "Payload Too Large", some 413, some "Error: Payload Too Large at ...", .undefined⟩

/-- An expired-token error as thrown by `jsonwebtoken`. -/
def errorExpirado : ErrorJs :=
  ⟨"TokenExpiredError", some "jwt expired", none, some "TokenExpiredError: jwt expired", .undefined⟩

/-- A transaction in which everything succeeds within five seconds. -/
def entornoOk : Entorno Nat := ⟨.ok (), .ok (), .ok 7, .ok (), .ok (), none⟩

/-- A transaction in which everything succeeds but the callback takes longer
than five seconds. -/
def entornoLento : Entorno Nat := ⟨.ok (), .ok (), .ok 7, .ok (), .ok (), some .callback⟩

/-- A transaction whose callback throws and whose ROLLBACK fails too. -/
def entornoRollbackFalla : Entorno Nat :=
  ⟨.ok (), .ok (), .error "callback", .ok (), .error "rollback", none⟩

/-- An update body for a user that supplies nothing. -/
def usuarioVacio : UsuarioBody := ⟨none, none, none, none, .undefined, .undefined, none⟩

/-- The update body `{ email: "b@dbx.mx", activo: "true", password: "clave-2" }`. -/
def usuarioTres : UsuarioBody :=
  ⟨none, some "b@dbx.mx", none, none, .undefined, .str "true", some "clave-2"⟩

/-- A store oracle that answers every statement with one row for user 2. -/
def dbUsuario : Db := fun _ => .ok [[("id", .num (.int 2)), ("username", .str "beto")]]

end Ejemplo

/-! ## Theorems -/

/-! ### C1: login with a wrong password -/

/-- C1 (what the code does instead): when the username belongs to an active user,
the store answers, and `bcrypt.compare` yields `false`, `login` still issues the
UPDATE of `ultimo_acceso`, stores the access time, and responds 200 with
`success = true` and a signed token. The claimed behaviour (401, no token, no
UPDATE) does not occur. -/
theorem login_password_incorrecto_emite_token (c : Cripto) (st : Store) (body : LoginBody)
    (username password : String) (u : Usuario) (rol : String)
    (resto : List (Usuario × String))
    (hu : body.username = some username) (hune : username ≠ "")
    (hp : body.password = some password) (hpne : password ≠ "")
    (hst : st.fallos = [])
    (hfila : (st.usuariosConRol.filter fun ur => ur.1.username = username) = (u, rol) :: resto)
    (hact : u.activo = true)
    (_hcmp : c.compare password u.password_hash = false) :
    (login c st body).2.respuesta.status = 200
      ∧ (login c st body).2.respuesta.success = true
      ∧ (∃ perfil, (login c st body).2.respuesta.datos
            = .sesion (c.sign ⟨u.id, u.username, rol⟩) perfil)
      ∧ (login c st body).2.consultas
          = [⟨sqlLoginSelect, [.str username]⟩, ⟨sqlUpdateUltimoAcceso, [idParam u.id]⟩]
      ∧ (login c st body).1 = st.marcarAcceso u.id := by
  have hpaso : st.paso = (true, st) := by simp [Store.paso, hst]
  simp [login, Campo.truthy, Campo.val, JsVal.truthy, hu, hp, hune, hpne, hpaso, hfila, hact]

/-- C1, at a concrete request: user `ana` is active, the password `equivocada`
does not verify, and the response is a 200 carrying a token, with
`ultimo_acceso` overwritten. -/
theorem login_password_incorrecto_emite_token_witness :
    Ejemplo.cripto.compare "equivocada" Ejemplo.ana.password_hash = false
      ∧ (login Ejemplo.cripto Ejemplo.store Ejemplo.loginMalPassword).2.respuesta.status = 200
      ∧ (login Ejemplo.cripto Ejemplo.store Ejemplo.loginMalPassword).2.respuesta.success = true
      ∧ (∃ perfil, (login Ejemplo.cripto Ejemplo.store Ejemplo.loginMalPassword).2.respuesta.datos
            = .sesion (Ejemplo.cripto.sign ⟨1, "ana", "Administrador"⟩) perfil)
      ∧ (login Ejemplo.cripto Ejemplo.store Ejemplo.loginMalPassword).2.consultas
          = [⟨sqlLoginSelect, [.str "ana"]⟩, ⟨sqlUpdateUltimoAcceso, [idParam 1]⟩]
      ∧ (login Ejemplo.cripto Ejemplo.store Ejemplo.loginMalPassword).1
          = Ejemplo.store.marcarAcceso 1 :=
  ⟨by decide,
   login_password_incorrecto_emite_token Ejemplo.cripto Ejemplo.store Ejemplo.loginMalPassword
     "ana" "equivocada" Ejemplo.ana "Administrador" [] rfl (by decide) rfl (by decide) rfl
     (by decide) rfl (by decide)⟩

/-! ### C2: the role gate -/

/-- C2: for every allow-list and request, `verificarRol` answers 401 when no
identity is attached; answers 403 echoing the allow-list as `rolRequerido` and the
caller's role as `tuRol` when the attached role is not in the list; and calls
`next` (once, sending nothing) exactly when the attached role is in the list. -/
theorem verificarRol_contrato (rolesPermitidos : List String) (req : Req) :
    (req.user = none →
        (verificarRol rolesPermitidos req).respuesta = some (fallo 401 "Usuario no autenticado")
          ∧ (verificarRol rolesPermitidos req).next = 0)
      ∧ (∀ u, req.user = some u → u.rol ∉ rolesPermitidos →
          (verificarRol rolesPermitidos req).respuesta
              = some ⟨403, false, some "No tienes permisos para acceder a este recurso",
                  .roles rolesPermitidos u.rol⟩
            ∧ (verificarRol rolesPermitidos req).next = 0)
      ∧ (((verificarRol rolesPermitidos req).next = 1
            ∧ (verificarRol rolesPermitidos req).respuesta = none)
          ↔ ∃ u, req.user = some u ∧ u.rol ∈ rolesPermitidos)
      ∧ ((verificarRol rolesPermitidos req).next ≠ 0
          ↔ ∃ u, req.user = some u ∧ u.rol ∈ rolesPermitidos) := by
  cases hreq : req.user with
  | none => simp [verificarRol, hreq, rechazo]
  | some u =>
    by_cases hm : u.rol ∈ rolesPermitidos
    · simp [verificarRol, hreq, rechazo, hm]
    · simp [verificarRol, hreq, rechazo, hm]

/-- C2, the scenario of the specification: allow-list `["Administrador"]`,
caller role `Supervisor`. -/
theorem verificarRol_contrato_witness :
    (verificarRol ["Administrador"] Ejemplo.reqSupervisor).respuesta
        = some ⟨403, false, some "No tienes permisos para acceder a este recurso",
            .roles ["Administrador"] "Supervisor"⟩
      ∧ (verificarRol ["Administrador"] Ejemplo.reqSupervisor).next = 0 :=
  (verificarRol_contrato ["Administrador"] Ejemplo.reqSupervisor).2.1
    (identidadDe Ejemplo.ana "Supervisor") rfl (by decide)

/-! ### C3: the authentication middleware -/

/-- Issuing a statement does not change which users are active. -/
theorem Store.paso_activosPorId (st : Store) (uid : Nat) :
    st.paso.2.activosPorId uid = st.activosPorId uid := by
  unfold Store.paso
  cases st.fallos <;> rfl

/-- A statement is answered unless the schedule says it fails. -/
theorem Store.paso_ok (st : Store) (h : st.fallos.head? ≠ some true) : st.paso.1 = true := by
  unfold Store.paso
  cases hf : st.fallos with
  | nil => rfl
  | cons f fs => cases f <;> simp_all

/-- Every row of the lookup is an active user with the given id, paired with the
name of its role. -/
theorem Store.mem_activosPorId (st : Store) (uid : Nat) (u : Usuario) (rol : String)
    (h : (u, rol) ∈ st.activosPorId uid) :
    u ∈ st.usuarios ∧ u.id = uid ∧ u.activo = true
      ∧ ∃ r ∈ st.roles, r.id = u.rol_id ∧ r.nombre = rol := by
  simp only [Store.activosPorId, Store.usuariosConRol, List.mem_filter, List.mem_flatMap,
    List.mem_map, Bool.and_eq_true, decide_eq_true_eq] at h
  obtain ⟨⟨u', hu', r, ⟨hr, hrid⟩, heq⟩, hid, hact⟩ := h
  simp only [Prod.mk.injEq] at heq
  obtain ⟨rfl, rfl⟩ := heq
  exact ⟨hu', hid, hact, r, hr, hrid, rfl⟩

/-- The lookup is empty when the id belongs to no user or only to inactive users. -/
theorem Store.activosPorId_nil (st : Store) (uid : Nat)
    (h : ∀ u ∈ st.usuarios, u.id = uid → u.activo = false) : st.activosPorId uid = [] := by
  cases hl : st.activosPorId uid with
  | nil => rfl
  | cons ur rest =>
    have hm : (ur.1, ur.2) ∈ st.activosPorId uid := by rw [hl]; simp
    obtain ⟨hu, hid, hact, _⟩ := st.mem_activosPorId uid ur.1 ur.2 hm
    have := h ur.1 hu hid
    simp_all

/-- C3: `verificarToken` answers 401 and does not call `next` when the
Authorization header is missing (or empty), when it has no token segment, when
verification raises an expired-signature error (`Token expirado`) or an
invalid-token error (`Token inválido`), and when the token verifies but, the store
answering the lookup, its user id belongs to no user or only to inactive users.
Whenever `next` is called, the token verified, its user exists and is active, the
response is empty, `next` was called once and `req.user` is the normalized identity
(id, uuid, username, email, nombre, apellido, rolId, rol) of that user. -/
theorem verificarToken_contrato (c : Cripto) (st : Store) (req : Req) :
    (Campo.truthy req.authorization = false →
        (verificarToken c st req).2.respuesta
            = some (fallo 401 "No se proporcionó token de autenticación")
          ∧ (verificarToken c st req).2.next = 0)
      ∧ (∀ h, req.authorization = some h → h ≠ "" →
          Campo.truthy (segundoSegmento h) = false →
          (verificarToken c st req).2.respuesta = some (fallo 401 "Formato de token inválido")
            ∧ (verificarToken c st req).2.next = 0)
      ∧ (∀ h t, req.authorization = some h → h ≠ "" → segundoSegmento h = some t → t ≠ "" →
          (c.verify t = .expirado →
              (verificarToken c st req).2.respuesta = some (fallo 401 "Token expirado")
                ∧ (verificarToken c st req).2.next = 0)
            ∧ (c.verify t = .invalido →
              (verificarToken c st req).2.respuesta = some (fallo 401 "Token inválido")
                ∧ (verificarToken c st req).2.next = 0)
            ∧ (∀ uid, c.verify t = .valido uid → st.fallos.head? ≠ some true →
                (∀ u ∈ st.usuarios, u.id = uid → u.activo = false) →
                (verificarToken c st req).2.respuesta
                    = some (fallo 401 "Usuario no encontrado o inactivo")
                  ∧ (verificarToken c st req).2.next = 0))
      ∧ ((verificarToken c st req).2.next ≠ 0 →
          ∃ h t uid u rol, req.authorization = some h ∧ segundoSegmento h = some t
            ∧ c.verify t = .valido uid
            ∧ u ∈ st.usuarios ∧ u.id = uid ∧ u.activo = true
            ∧ (∃ r ∈ st.roles, r.id = u.rol_id ∧ r.nombre = rol)
            ∧ (verificarToken c st req).2.user
                = some ⟨u.id, u.uuid, u.username, u.email, u.nombre, u.apellido, u.rol_id, rol⟩
            ∧ (verificarToken c st req).2.respuesta = none
            ∧ (verificarToken c st req).2.next = 1) := by
  refine ⟨?_, ?_, ?_, ?_⟩
  · intro h
    simp [verificarToken, h, rechazo]
  · intro h hh hne hseg
    have : Campo.truthy (some h) = true := by simp [Campo.truthy, Campo.val, JsVal.truthy, hne]
    simp [verificarToken, hh, this, hseg, rechazo]
  · intro h t hh hne hseg htne
    have h1 : Campo.truthy (some h) = true := by simp [Campo.truthy, Campo.val, JsVal.truthy, hne]
    have h2 : Campo.truthy (some t) = true := by simp [Campo.truthy, Campo.val, JsVal.truthy, htne]
    refine ⟨?_, ?_, ?_⟩
    · intro hv
      simp [verificarToken, hh, h1, hseg, h2, hv, rechazo]
    · intro hv
      simp [verificarToken, hh, h1, hseg, h2, hv, rechazo]
    · intro uid hv hok hnone
      have hp := st.paso_ok hok
      have hn := st.activosPorId_nil uid hnone
      have hn' := (st.paso_activosPorId uid).trans hn
      simp [verificarToken, hh, h1, hseg, h2, hv, rechazo, hp, hn']
  · intro hnext
    cases hh : req.authorization with
    | none => simp [verificarToken, hh, Campo.truthy, Campo.val, JsVal.truthy, rechazo] at hnext
    | some h =>
      by_cases hne : h = ""
      · simp [verificarToken, hh, hne, Campo.truthy, Campo.val, JsVal.truthy, rechazo] at hnext
      · have h1 : Campo.truthy (some h) = true := by
          simp [Campo.truthy, Campo.val, JsVal.truthy, hne]
        cases hseg : segundoSegmento h with
        | none =>
          have hN : Campo.truthy (none : Campo) = false := rfl
          simp [verificarToken, hh, h1, hseg, hN, rechazo] at hnext
        | some t =>
          by_cases htne : t = ""
          · have hE : Campo.truthy (some "") = false := by decide
            simp [verificarToken, hh, h1, hseg, htne, hE, rechazo] at hnext
          · have h2 : Campo.truthy (some t) = true := by
              simp [Campo.truthy, Campo.val, JsVal.truthy, htne]
            cases hv : c.verify t with
            | expirado => simp [verificarToken, hh, h1, hseg, h2, hv, rechazo] at hnext
            | invalido => simp [verificarToken, hh, h1, hseg, h2, hv, rechazo] at hnext
            | otro => simp [verificarToken, hh, h1, hseg, h2, hv, rechazo] at hnext
            | valido uid =>
              cases hp : st.paso.1 with
              | false => simp [verificarToken, hh, h1, hseg, h2, hv, rechazo, hp] at hnext
              | true =>
                cases hl : st.paso.2.activosPorId uid with
                | nil => simp [verificarToken, hh, h1, hseg, h2, hv, rechazo, hp, hl] at hnext
                | cons ur rest =>
                  have hm : (ur.1, ur.2) ∈ st.activosPorId uid := by
                    rw [← st.paso_activosPorId uid, hl]; simp
                  obtain ⟨hu, hid, hact, hr⟩ := st.mem_activosPorId uid ur.1 ur.2 hm
                  refine ⟨h, t, uid, ur.1, ur.2, rfl, hseg, hv, hu, hid, hact, hr, ?_, ?_, ?_⟩
                  all_goals
                    simp [verificarToken, hh, h1, hseg, h2, hv, hp, hl, identidadDe]
/-- C3 at concrete requests: the token of the deactivated user `beto` is
rejected with 401 although it verifies, and the token of the active user `ana`
passes with her identity attached. -/
theorem verificarToken_contrato_witness :
    ((verificarToken Ejemplo.cripto Ejemplo.store ⟨some "Bearer t2", none⟩).2.respuesta
          = some (fallo 401 "Usuario no encontrado o inactivo")
        ∧ (verificarToken Ejemplo.cripto Ejemplo.store ⟨some "Bearer t2", none⟩).2.next = 0)
      ∧ (verificarToken Ejemplo.cripto Ejemplo.store ⟨some "Bearer t1", none⟩).2
          = ⟨none, 1, some (identidadDe Ejemplo.ana "Administrador"),
              [⟨sqlTokenSelect, [idParam 1]⟩]⟩ :=
  ⟨((verificarToken_contrato Ejemplo.cripto Ejemplo.store ⟨some "Bearer t2", none⟩).2.2.1
      "Bearer t2" "t2" rfl (by decide) (by decide) (by decide)).2.2 2 (by decide) (by decide)
      (by decide),
   rfl⟩

/-! ### C4: the optional variant -/

/-- C4: `verificarTokenOpcional` never sends a response and calls `next` exactly
once. When `verificarToken` succeeds on the same request and store, it attaches
the same identity; in every other case (missing header, bad or expired token,
missing or inactive user, failing store) it leaves `req.user` as it was, so a
request that arrives without identity gets one exactly when `verificarToken`
succeeds. Both middlewares leave the store in the same state. -/
theorem verificarTokenOpcional_contrato (c : Cripto) (st : Store) (req : Req) :
    (verificarTokenOpcional c st req).2.respuesta = none
      ∧ (verificarTokenOpcional c st req).2.next = 1
      ∧ ((verificarToken c st req).2.next = 1 →
          (verificarToken c st req).2.respuesta = none
            ∧ (verificarTokenOpcional c st req).2.user = (verificarToken c st req).2.user
            ∧ ((verificarTokenOpcional c st req).2.user).isSome = true)
      ∧ ((verificarToken c st req).2.next ≠ 1 →
          (verificarTokenOpcional c st req).2.user = req.user)
      ∧ (req.user = none →
          (((verificarTokenOpcional c st req).2.user).isSome = true
            ↔ (verificarToken c st req).2.next = 1))
      ∧ (verificarTokenOpcional c st req).1 = (verificarToken c st req).1 := by
  have hN : Campo.truthy (none : Campo) = false := rfl
  have hE : Campo.truthy (some "") = false := by decide
  cases hh : req.authorization with
  | none => simp [verificarTokenOpcional, verificarToken, hh, hN, rechazo]
  | some h =>
    by_cases hne : h = ""
    · simp [verificarTokenOpcional, verificarToken, hh, hne, hE, rechazo]
    · have h1 : Campo.truthy (some h) = true := by
        simp [Campo.truthy, Campo.val, JsVal.truthy, hne]
      cases hseg : segundoSegmento h with
      | none => simp [verificarTokenOpcional, verificarToken, hh, h1, hseg, hN, rechazo]
      | some t =>
        by_cases htne : t = ""
        · simp [verificarTokenOpcional, verificarToken, hh, h1, hseg, htne, hE, rechazo]
        · have h2 : Campo.truthy (some t) = true := by
            simp [Campo.truthy, Campo.val, JsVal.truthy, htne]
          cases hv : c.verify t with
          | expirado => simp [verificarTokenOpcional, verificarToken, hh, h1, hseg, h2, hv, rechazo]
          | invalido => simp [verificarTokenOpcional, verificarToken, hh, h1, hseg, h2, hv, rechazo]
          | otro => simp [verificarTokenOpcional, verificarToken, hh, h1, hseg, h2, hv, rechazo]
          | valido uid =>
            cases hp : st.paso.1 with
            | false =>
              simp [verificarTokenOpcional, verificarToken, hh, h1, hseg, h2, hv, rechazo, hp]
            | true =>
              cases hl : st.paso.2.activosPorId uid with
              | nil =>
                simp [verificarTokenOpcional, verificarToken, hh, h1, hseg, h2, hv, rechazo,
                  hp, hl]
              | cons ur rest =>
                simp [verificarTokenOpcional, verificarToken, hh, h1, hseg, h2, hv, rechazo,
                  hp, hl]

/-- C4 at concrete requests without identity: with the token of the active user
`ana` the optional middleware attaches her identity; with an expired token, and
with a store whose lookup fails, it attaches nothing and still calls `next`. -/
theorem verificarTokenOpcional_contrato_witness :
    (verificarTokenOpcional Ejemplo.cripto Ejemplo.store ⟨some "Bearer t1", none⟩).2.user
        = some (identidadDe Ejemplo.ana "Administrador")
      ∧ (verificarTokenOpcional Ejemplo.cripto Ejemplo.store ⟨some "Bearer viejo", none⟩).2.user
        = none
      ∧ (verificarTokenOpcional Ejemplo.cripto { Ejemplo.store with fallos := [true] }
          ⟨some "Bearer t1", none⟩).2 = ⟨none, 1, none, [⟨sqlTokenOpcionalSelect, [idParam 1]⟩]⟩ :=
  ⟨((verificarTokenOpcional_contrato Ejemplo.cripto Ejemplo.store
        ⟨some "Bearer t1", none⟩).2.2.1 (by decide)).2.1.trans (by decide),
   (verificarTokenOpcional_contrato Ejemplo.cripto Ejemplo.store
        ⟨some "Bearer viejo", none⟩).2.2.2.1 (by decide),
   rfl⟩

/-! ### C5: parameters and placeholders of the article listing -/

/-- The comparison `activo === "true"` holds exactly for the string `true`. -/
theorem beq_texto_decide (a b : String) : (a == b) = decide (a = b) := by
  by_cases h : a = b <;> simp [h]

/-- The builder's parameter list is the list of present filter values. -/
theorem articulosFiltros_params (q : ArticulosQuery) :
    (articulosFiltros q).params = articulosValores q := by
  rcases q with ⟨cat, tipo, act, srch, page, limit⟩
  cases hc : Campo.truthy cat <;> cases ht : Campo.truthy tipo <;> cases act
    <;> cases hs : Campo.truthy srch
    <;> simp [articulosFiltros, articulosValores, Filtros.push, hc, ht, hs, beq_texto_decide]

/-- After the filter steps `paramCount` is one more than the number of parameters. -/
theorem articulosFiltros_paramCount (q : ArticulosQuery) :
    (articulosFiltros q).paramCount = (articulosValores q).length + 1 := by
  rcases q with ⟨cat, tipo, act, srch, page, limit⟩
  cases hc : Campo.truthy cat <;> cases ht : Campo.truthy tipo <;> cases act
    <;> cases hs : Campo.truthy srch
    <;> simp [articulosFiltros, articulosValores, Filtros.push, hc, ht, hs, beq_texto_decide]

theorem articulos_instanciar_page (q : ArticulosQuery) (l o : JsVal) :
    instanciar (articulosValores q ++ [l, o])
        (articulosPageSql (whereClause (articulosFiltros q).whereConditions)
          (articulosFiltros q).paramCount)
      = some (.texto "SELECT id, sku, descripcion, categoria, color, size, tipo_etiqueta, codigo_barras, imagen_url, activo, created_at, updated_at FROM articulos "
          :: whereDirecto (articulosPredicadosDirectos q)
          ++ [.texto " ORDER BY created_at DESC LIMIT ", .valor l, .texto " OFFSET ", .valor o]) := by
  rcases q with ⟨cat, tipo, act, srch, page, limit⟩
  cases hc : Campo.truthy cat <;> cases ht : Campo.truthy tipo <;> cases act
    <;> cases hs : Campo.truthy srch
    <;> simp [articulosFiltros, articulosValores, Filtros.push, hc, ht, hs, whereClause, joinSql,
      articulosPageSql, instanciar, whereDirecto, articulosPredicadosDirectos, beq_texto_decide]

/-- A decimal digit has a code between 48 and 57. -/
theorem digito_rango (c : Char) (h : c.isDigit = true) : 48 ≤ c.toNat ∧ c.toNat ≤ 57 := by
  simp only [Char.isDigit, Bool.and_eq_true, decide_eq_true_eq] at h
  obtain ⟨h1, h2⟩ := h
  have h1' : (48 : UInt32).toNat ≤ c.val.toNat := h1
  have h2' : c.val.toNat ≤ (57 : UInt32).toNat := h2
  exact ⟨h1', h2'⟩

/-- A decimal digit is not white space. -/
theorem esEspacioJs_digito (c : Char) (h : c.isDigit = true) : esEspacioJs c = false := by
  obtain ⟨h1, h2⟩ := digito_rango c h
  simp [esEspacioJs]
  omega

/-- Skipping white space leaves a run of digits unchanged. -/
theorem dropWhile_digitos (cs : List Char) (h : cs.all Char.isDigit = true) :
    cs.dropWhile esEspacioJs = cs := by
  cases cs with
  | nil => rfl
  | cons c r =>
    have hc : c.isDigit = true := by simp at h; exact h.1
    simp [List.dropWhile, esEspacioJs_digito c hc]

/-- Trimming leaves a run of digits unchanged. -/
theorem recortar_digitos (cs : List Char) (h : cs.all Char.isDigit = true) :
    recortarCon esEspacioJs cs = cs := by
  unfold recortarCon
  rw [dropWhile_digitos cs h, dropWhile_digitos cs.reverse (by simpa using h)]
  simp

/-- A decimal digit differs from every character that is not one. -/
theorem digito_no_es (c : Char) (h : c.isDigit = true) (d : Char) (hd : d.isDigit = false) :
    c ≠ d := by
  intro hcd; subst hcd; simp [h] at hd

/-- A run of decimal digits is not a hexadecimal, octal or binary literal. -/
theorem literalNoDecimal_digitos (cs : List Char) (h : cs.all Char.isDigit = true) :
    literalNoDecimal cs = none := by
  unfold literalNoDecimal
  split
  · rename_i x r
    have hx : x.isDigit = true := by simp at h; exact h.1
    have h1 := digito_no_es x hx 'x' (by decide)
    have h2 := digito_no_es x hx 'X' (by decide)
    have h3 := digito_no_es x hx 'o' (by decide)
    have h4 := digito_no_es x hx 'O' (by decide)
    have h5 := digito_no_es x hx 'b' (by decide)
    have h6 := digito_no_es x hx 'B' (by decide)
    simp [h1, h2, h3, h4, h5, h6]
  · rfl

/-- The conversion `ToNumber` reads a decimal string as its value. -/
theorem strToNumber_decimal (cs : List Char) (h : esDecimal cs = true) :
    strToNumber cs = .deEntero (valorDigitos cs) := by
  have hall : cs.all Char.isDigit = true := by
    simp only [esDecimal, Bool.and_eq_true] at h; exact h.2
  cases cs with
  | nil => simp [esDecimal] at h
  | cons c r =>
    have hc : c.isDigit = true := by simp at hall; exact hall.1
    have hm := digito_no_es c hc '-' (by decide)
    have hp := digito_no_es c hc '+' (by decide)
    have hi := digito_no_es c hc 'I' (by decide)
    have hneg : (match c :: r with
        | '-' :: _ => true
        | _ => false) = false := by
      split
      · rename_i heq; cases heq; exact absurd rfl hm
      · rfl
    have hu : (match c :: r with
        | '-' :: r => r
        | '+' :: r => r
        | r => r) = c :: r := by
      split
      · rename_i heq; cases heq; exact absurd rfl hm
      · rename_i heq; cases heq; exact absurd rfl hp
      · rfl
    have hinf : c :: r ≠ "Infinity".toList := by
      intro heq
      have : c = 'I' := by
        have := congrArg List.head? heq
        simpa using this
      exact hi this
    simp only [strToNumber, recortar_digitos _ hall, literalNoDecimal_digitos _ hall,
      List.isEmpty_cons, Bool.false_eq_true, if_false, hneg, hu, hinf, h, if_true]

/-- The decimal prefix of a run of digits is the whole run. -/
theorem prefijoDecimal_digitos (cs : List Char) (h : esDecimal cs = true) :
    prefijoDecimal cs = some (valorDigitos cs) := by
  have hall : cs.all Char.isDigit = true := by
    simp only [esDecimal, Bool.and_eq_true] at h; exact h.2
  have htw : cs.takeWhile Char.isDigit = cs :=
    List.takeWhile_eq_self_iff.mpr (by simpa using hall)
  cases cs with
  | nil => simp [esDecimal] at h
  | cons c r => simp [prefijoDecimal, htw]

/-- The builtin `parseInt` reads a run of decimal digits in base ten. -/
theorem parseIntMagnitud_digitos (cs : List Char) (h : esDecimal cs = true) :
    parseIntMagnitud cs = some (valorDigitos cs) := by
  have hall : cs.all Char.isDigit = true := by
    simp only [esDecimal, Bool.and_eq_true] at h; exact h.2
  unfold parseIntMagnitud
  split
  · rename_i x r
    have hx : x.isDigit = true := by simp at hall; exact hall.1
    have h1 := digito_no_es x hx 'x' (by decide)
    have h2 := digito_no_es x hx 'X' (by decide)
    simp [h1, h2, prefijoDecimal_digitos _ h]
  · exact prefijoDecimal_digitos _ h

/-- The builtin `parseInt` reads a decimal string as its value. -/
theorem parseInt_decimal (s : String) (h : esDecimal s.toList = true) :
    parseInt (.str s) = .deEntero (valorDigitos s.toList) := by
  have hall : s.toList.all Char.isDigit = true := by
    simp only [esDecimal, Bool.and_eq_true] at h; exact h.2
  simp only [parseInt]
  rw [dropWhile_digitos _ hall]
  have hmag := parseIntMagnitud_digitos _ h
  cases hcs : s.toList with
  | nil => rw [hcs] at h; simp [esDecimal] at h
  | cons c r =>
    rw [hcs] at hall hmag
    have hc : c.isDigit = true := by simp at hall; exact hall.1
    have hm := digito_no_es c hc '-' (by decide)
    have hp := digito_no_es c hc '+' (by decide)
    unfold parseIntChars
    split
    · rename_i heq; cases heq; exact absurd rfl hm
    · rename_i heq; cases heq; exact absurd rfl hp
    · simp [hmag]

/-- An integer of the safe range is tracked. -/
theorem deEntero_seguro (n : Int) (h : JsNum.seguro n = true) : JsNum.deEntero n = .int n := by
  simp [JsNum.deEntero, h]

/-- Both conversions agree on a value denoting an integer of the safe range. -/
theorem esEntero_conversiones (v : JsVal) (n : Int) (h : esEntero v n)
    (hs : JsNum.seguro n = true) :
    v.toNumber = .int n ∧ parseInt v = .int n := by
  rcases h with rfl | ⟨s, rfl, hd, hv⟩
  · exact ⟨rfl, by simp [parseInt, deEntero_seguro n hs]⟩
  · refine ⟨?_, ?_⟩
    · show strToNumber s.toList = _
      rw [strToNumber_decimal _ hd, hv, deEntero_seguro n hs]
    · rw [parseInt_decimal s hd, hv, deEntero_seguro n hs]

/-- The safe range, spelled out. -/
theorem seguro_iff (n : Int) : JsNum.seguro n = true ↔ -maxSeguro ≤ n ∧ n ≤ maxSeguro := by
  simp [JsNum.seguro]

/-- The expression `Math.ceil(a / b)` on integers of the safe range with a
non-zero divisor is the ceiling of the rational quotient. -/
theorem ceilDiv_int (a b : Int) (ha : JsNum.seguro a = true) (hb' : JsNum.seguro b = true)
    (hb : b ≠ 0) :
    JsNum.ceilDiv (.int a) (.int b) = .int ⌈(a : ℚ) / (b : ℚ)⌉ := by
  have hpos : ∀ (x : Int) (d : Nat), ⌈(x : ℚ) / (d : ℚ)⌉ = -((-x) / (d : Int)) := by
    intro x d
    have h1 : (x : ℚ) / (d : ℚ) = -(((-x : Int) : ℚ) / (d : ℚ)) := by
      push_cast; ring
    rw [h1, Int.ceil_neg, Rat.floor_intCast_div_natCast]
  rcases lt_or_gt_of_ne hb with hneg | hpos'
  · have hb'' : ¬ (0 < b) := not_lt.mpr hneg.le
    obtain ⟨d, hd⟩ := Int.eq_ofNat_of_zero_le (show (0 : Int) ≤ -b by omega)
    have h2 : (a : ℚ) / (b : ℚ) = ((-a : Int) : ℚ) / (d : ℚ) := by
      have : (b : ℚ) = -((d : Int) : ℚ) := by rw [← hd]; push_cast; ring
      rw [this]; push_cast; rw [div_neg, neg_div]
    have hbd : b = -(d : Int) := by omega
    simp only [JsNum.ceilDiv, ha, hb', hb, hb'', if_false, Bool.and_self, Bool.not_true,
      Bool.false_eq_true]
    rw [h2, hpos, neg_neg, hbd, Int.ediv_neg]
  · obtain ⟨d, hd⟩ := Int.eq_ofNat_of_zero_le hpos'.le
    simp only [JsNum.ceilDiv, ha, hb', hb, hpos', if_false, if_true, Bool.and_self,
      Bool.not_true, Bool.false_eq_true]
    rw [hd, ← hpos]
    norm_cast

/-- A statement whose placeholders can all be replaced refers only to positions
of the parameter list. -/
theorem instanciar_placeholders (params : List JsVal) (q : Sql) (ps : List Pieza)
    (h : instanciar params q = some ps) :
    ∀ k ∈ placeholders q, 1 ≤ k ∧ k ≤ params.length := by
  induction q generalizing ps with
  | nil => intro k hk; simp [placeholders] at hk
  | cons f r ih =>
    cases f with
    | texto s =>
      simp only [instanciar, Option.map_eq_some'] at h
      obtain ⟨ps', hps', _⟩ := h
      intro k hk
      have : k ∈ placeholders r := by simpa [placeholders] using hk
      exact ih ps' hps' k this
    | ph j =>
      by_cases hj : j = 0
      · simp [instanciar, hj] at h
      · cases hg : params[j - 1]? with
        | none => simp [instanciar, hj, hg] at h
        | some v =>
          simp only [instanciar, hj, if_false, List.get?_eq_getElem?, hg,
            Option.map_eq_some'] at h
          obtain ⟨ps', hps', _⟩ := h
          intro k hk
          have hk' : k = j ∨ k ∈ placeholders r := by simpa [placeholders] using hk
          rcases hk' with rfl | hk'
          · have hlt : k - 1 < params.length := by
              by_contra hge
              have := List.getElem?_eq_none (not_lt.mp hge)
              simp [this] at hg
            omega
          · exact ih ps' hps' k hk'

/-- The count statement, with placeholders replaced, is the count over the
predicates of the present filters. -/
theorem articulos_instanciar_count (q : ArticulosQuery) :
    instanciar (articulosValores q)
        (articulosCountSql (whereClause (articulosFiltros q).whereConditions))
      = some (.texto "SELECT COUNT(*) as total FROM articulos "
          :: whereDirecto (articulosPredicadosDirectos q)) := by
  rcases q with ⟨cat, tipo, act, srch, page, limit⟩
  cases hc : Campo.truthy cat <;> cases ht : Campo.truthy tipo <;> cases act
    <;> cases hs : Campo.truthy srch
    <;> simp [articulosFiltros, articulosValores, Filtros.push, hc, ht, hs, whereClause, joinSql,
      articulosCountSql, instanciar, whereDirecto, articulosPredicadosDirectos, beq_texto_decide]

/-- The statements issued by `listarArticulos`: the count statement, followed by
the page statement when the count is answered with a row. -/
theorem listarArticulos_consultas (db : Db) (q : ArticulosQuery) :
    ((listarArticulos db q).consultas = [articulosConteoEsperado q]
        ∨ (listarArticulos db q).consultas
            = [articulosConteoEsperado q, articulosPaginaEsperada q])
      ∧ (∀ r rs, db (articulosConteoEsperado q) = .ok (r :: rs) →
          (listarArticulos db q).consultas
            = [articulosConteoEsperado q, articulosPaginaEsperada q]) := by
  simp only [listarArticulos, articulosConteoEsperado, articulosPaginaEsperada,
    articulosFiltros_params]
  constructor
  · split
    · simp
    · simp
    · split <;> simp
  · intro r rs h
    simp only [h]
    split <;> simp

/-- C5: for every article-list query, the page statement receives the values of
the present filters (categoria, tipo_etiqueta, activo as the boolean "is the
string true", search wrapped in percent signs, in that order) followed by limit
and by the offset `(page - 1) * limit` as the last two entries (the number
`(p - 1) * l` when page and limit denote the integers `p` and `l` and all of them
stay within the safe-integer range); replacing every
placeholder of the page statement and of the count statement by the entry of that
number gives the statement over the present filters' own values, so every
placeholder refers to an existing entry; and the count statement receives the same
list without the last two entries. -/
theorem listarArticulos_parametros (db : Db) (q : ArticulosQuery) :
    ((listarArticulos db q).consultas = [articulosConteoEsperado q]
        ∨ (listarArticulos db q).consultas
            = [articulosConteoEsperado q, articulosPaginaEsperada q])
      ∧ (∀ r rs, db (articulosConteoEsperado q) = .ok (r :: rs) →
          (listarArticulos db q).consultas
            = [articulosConteoEsperado q, articulosPaginaEsperada q])
      ∧ instanciar (articulosPaginaEsperada q).params (articulosPaginaEsperada q).sql
          = some (.texto "SELECT id, sku, descripcion, categoria, color, size, tipo_etiqueta, codigo_barras, imagen_url, activo, created_at, updated_at FROM articulos "
              :: whereDirecto (articulosPredicadosDirectos q)
              ++ [.texto " ORDER BY created_at DESC LIMIT ", .valor (porDefecto q.limit 50),
                  .texto " OFFSET ",
                  .valor (.num (calcOffset (porDefecto q.page 1) (porDefecto q.limit 50)))])
      ∧ instanciar (articulosConteoEsperado q).params (articulosConteoEsperado q).sql
          = some (.texto "SELECT COUNT(*) as total FROM articulos "
              :: whereDirecto (articulosPredicadosDirectos q))
      ∧ (∀ k ∈ placeholders (articulosPaginaEsperada q).sql,
          1 ≤ k ∧ k ≤ (articulosPaginaEsperada q).params.length)
      ∧ (∀ k ∈ placeholders (articulosConteoEsperado q).sql,
          1 ≤ k ∧ k ≤ (articulosConteoEsperado q).params.length)
      ∧ (articulosPaginaEsperada q).params
          = (articulosConteoEsperado q).params
            ++ [porDefecto q.limit 50,
                .num (calcOffset (porDefecto q.page 1) (porDefecto q.limit 50))]
      ∧ (∀ p l, esEntero (porDefecto q.page 1) p → esEntero (porDefecto q.limit 50) l →
          JsNum.seguro p = true → JsNum.seguro l = true → JsNum.seguro (p - 1) = true →
          JsNum.seguro ((p - 1) * l) = true →
          calcOffset (porDefecto q.page 1) (porDefecto q.limit 50) = .int ((p - 1) * l)) := by
  have hp := articulos_instanciar_page q (porDefecto q.limit 50)
    (.num (calcOffset (porDefecto q.page 1) (porDefecto q.limit 50)))
  have hc := articulos_instanciar_count q
  refine ⟨(listarArticulos_consultas db q).1, (listarArticulos_consultas db q).2, hp, hc,
    instanciar_placeholders _ _ _ hp, instanciar_placeholders _ _ _ hc, rfl, ?_⟩
  intro p l hpg hl hsp hsl hsp1 hso
  have h1 : JsNum.seguro 1 = true := by decide
  simp [calcOffset, (esEntero_conversiones _ _ hpg hsp).1, (esEntero_conversiones _ _ hl hsl).1,
    JsNum.sub, JsNum.mul, JsNum.deEntero, hsp, hsl, hsp1, hso, h1]

/-- C5 at the query `?categoria=crocs&activo=true&search=X` with a store that
answers: the count statement gets the three filter values, the page statement gets
them followed by the default limit 50 and the offset 0, and the page statement,
after its column list, reads as shown. -/
theorem listarArticulos_parametros_witness :
    (listarArticulos (Ejemplo.db "total" "5" Ejemplo.dosFilas) Ejemplo.tresFiltros).consultas.map
        (fun c => c.params)
      = [[.str "crocs", .bool true, .str "%X%"],
         [.str "crocs", .bool true, .str "%X%", .num (.int 50), .num (.int 0)]]
    ∧ renderSql ((articulosPaginaEsperada Ejemplo.tresFiltros).sql.drop 1)
      = "WHERE categoria = $1 AND activo = $2 AND (sku ILIKE $3 OR descripcion ILIKE $3) ORDER BY created_at DESC LIMIT $4 OFFSET $5" :=
  ⟨by
    rw [(listarArticulos_parametros (Ejemplo.db "total" "5" Ejemplo.dosFilas)
      Ejemplo.tresFiltros).2.1 [("total", .str "5")] [] rfl]
    rfl,
   by decide⟩

/-! ### C6: the WHERE fragment of the article listing -/

/-- A non-empty list of conditions has a conjunction. -/
theorem conjuncion_cons (d : Cond) (r : List Cond) : ∃ e, conjuncion (d :: r) = some e := by
  induction r generalizing d with
  | nil => exact ⟨d, rfl⟩
  | cons d' r' ih =>
    obtain ⟨e, he⟩ := ih d'
    exact ⟨.and d e, by simp [conjuncion, he]⟩

/-- A conjunction holds on a row exactly when each of its conditions does; the
empty conjunction restricts nothing. -/
theorem conjuncion_eval (sat : String → Op → Nat → Bool) (cs : List Cond) :
    (match conjuncion cs with
      | none => true
      | some e => e.eval sat) = cs.all fun c => c.eval sat := by
  induction cs with
  | nil => rfl
  | cons c r ih =>
    cases r with
    | nil => simp [conjuncion]
    | cons d r' =>
      obtain ⟨e, hcj⟩ := conjuncion_cons d r'
      rw [hcj] at ih
      simp only [conjuncion, hcj, Option.map_some', Cond.eval]
      have ih' : e.eval sat = (d :: r').all fun c => c.eval sat := ih
      rw [ih']
      simp

/-- The fragment of the article listing reads as the conjunction of the
predicates of the present filters, numbered from one. -/
theorem articulos_parseWhere (q : ArticulosQuery) :
    parseWhere (whereClause (articulosFiltros q).whereConditions)
      = some (conjuncion (numerar (articulosPredicados q) 1)) := by
  rcases q with ⟨cat, tipo, act, srch, page, limit⟩
  cases hc : Campo.truthy cat <;> cases ht : Campo.truthy tipo <;> cases act
    <;> cases hs : Campo.truthy srch
    <;> simp only [articulosFiltros, articulosPredicados, hc, ht, hs, Option.isSome,
      if_true, if_false, Bool.false_eq_true]
    <;> rfl

/-- A row is selected by the fragment of the article listing exactly when it
satisfies the predicate of every present filter. -/
theorem articulos_selecciona (q : ArticulosQuery) (sat : String → Op → Nat → Bool) :
    selecciona (whereClause (articulosFiltros q).whereConditions) sat
      = some ((numerar (articulosPredicados q) 1).all fun c => c.eval sat) := by
  simp only [selecciona, articulos_parseWhere, Option.map_some']
  rw [conjuncion_eval]

/-- C6: for every article-list query, the WHERE fragment reads, with SQL operator
precedence, as the conjunction of one predicate for each present filter and none
for an absent one, the search predicate being one OR over `sku` and `descripcion`
nested under the ANDs; a row is selected exactly when it satisfies every one of
these predicates; when no filter is present the fragment is empty (it renders as
the empty string); and every statement the handler issues is the count statement
or the page statement built around this one fragment. -/
theorem listarArticulos_where (db : Db) (q : ArticulosQuery) :
    parseWhere (whereClause (articulosFiltros q).whereConditions)
        = some (conjuncion (numerar (articulosPredicados q) 1))
      ∧ (∀ sat, selecciona (whereClause (articulosFiltros q).whereConditions) sat
          = some ((numerar (articulosPredicados q) 1).all fun c => c.eval sat))
      ∧ (Campo.truthy q.categoria = false → Campo.truthy q.tipo_etiqueta = false →
          q.activo = none → Campo.truthy q.search = false →
          whereClause (articulosFiltros q).whereConditions = []
            ∧ renderSql (whereClause (articulosFiltros q).whereConditions) = "")
      ∧ (∀ c ∈ (listarArticulos db q).consultas,
          c.sql = articulosCountSql (whereClause (articulosFiltros q).whereConditions)
            ∨ c.sql = articulosPageSql (whereClause (articulosFiltros q).whereConditions)
                (articulosFiltros q).paramCount) := by
  refine ⟨articulos_parseWhere q, articulos_selecciona q, ?_, ?_⟩
  · intro hc ht ha hs
    simp [articulosFiltros, hc, ht, ha, hs, whereClause, renderSql]
    rfl
  · intro c hc
    rcases (listarArticulos_consultas db q).1 with h | h
    · rw [h] at hc
      simp only [List.mem_singleton] at hc
      left; rw [hc]; rfl
    · rw [h] at hc
      simp only [List.mem_cons, List.mem_singleton, List.not_mem_nil, or_false] at hc
      rcases hc with hc | hc
      · left; rw [hc]; rfl
      · right; rw [hc]; rfl

/-- C6 at the query `?categoria=crocs&activo=true&search=X`: the fragment as
text, and how it reads. -/
theorem listarArticulos_where_witness :
    renderSql (whereClause (articulosFiltros Ejemplo.tresFiltros).whereConditions)
        = "WHERE categoria = $1 AND activo = $2 AND (sku ILIKE $3 OR descripcion ILIKE $3)"
      ∧ parseWhere (whereClause (articulosFiltros Ejemplo.tresFiltros).whereConditions)
        = some (some (.and (.pred "categoria" .eq 1)
            (.and (.pred "activo" .eq 2)
              (.or (.pred "sku" .ilike 3) (.pred "descripcion" .ilike 3))))) :=
  ⟨by decide,
   (listarArticulos_where (Ejemplo.db "total" "5" Ejemplo.dosFilas) Ejemplo.tresFiltros).1.trans
     (by decide)⟩

/-! ### C7: the user listing -/

/-- C7 (what the code does instead): whenever `rol_id` is present, `listarUsuarios`
responds with the 500 failure and issues no statement, whatever the store
answers: the predicate for `rol_id` interpolates the undeclared identifier
`paramCounter`, and the resulting `ReferenceError` lands in the `catch` branch. -/
theorem listarUsuarios_rol_id_falla (db : Db) (q : UsuariosQuery)
    (h : Campo.truthy q.rol_id = true) :
    listarUsuarios db q = ⟨[], fallo 500 "Error al listar usuarios"⟩ := by
  simp [listarUsuarios, usuariosFiltros, h]

/-- C7 at the query `?rol_id=2` against a store that answers every statement. -/
theorem listarUsuarios_rol_id_falla_witness :
    (listarUsuarios (Ejemplo.db "count" "7" []) Ejemplo.porRol).respuesta.status = 500
      ∧ (listarUsuarios (Ejemplo.db "count" "7" []) Ejemplo.porRol).respuesta.success = false
      ∧ (listarUsuarios (Ejemplo.db "count" "7" []) Ejemplo.porRol).consultas = [] := by
  rw [listarUsuarios_rol_id_falla (Ejemplo.db "count" "7" []) Ejemplo.porRol (by decide)]
  exact ⟨rfl, rfl, rfl⟩

/-- The count statement of `listarUsuarios` gives its column no alias, and the
handler reads the column `total`: when the store answers with the count under
another column name (PostgreSQL names it `count`), the reported total is `NaN` and
so is `totalPages`, while the response is a success. -/
theorem listarUsuarios_total_nan (db : Db) (q : UsuariosQuery) (b : Filtros)
    (r0 : Fila) (rs rows : List Fila)
    (hb : usuariosFiltros q = .ok b)
    (hcount : db ⟨usuariosCountSql (whereClause b.whereConditions), b.params⟩ = .ok (r0 :: rs))
    (hcol : r0.lookup "total" = none)
    (hpage : db ⟨usuariosPageSql (whereClause b.whereConditions) b.paramCount,
        b.params ++ [porDefecto q.limit 50,
          .num (calcOffset (porDefecto q.page 1) (porDefecto q.limit 50))]⟩ = .ok rows) :
    (listarUsuarios db q).respuesta
      = ⟨200, true, none,
          .listado rows ⟨parseInt (porDefecto q.page 1), parseInt (porDefecto q.limit 50),
            .nan, .nan⟩⟩ := by
  simp [listarUsuarios, hb, hcount, hpage, campo, hcol, parseInt, JsNum.ceilDiv]

/-- The user listing at `?activo=true&search=ana`, the store holding 7 matching
rows: the total is reported as `NaN`. -/
theorem listarUsuarios_total_nan_witness :
    (listarUsuarios (Ejemplo.db "count" "7" []) Ejemplo.activosAna).respuesta
      = ⟨200, true, none, .listado [] ⟨.int 1, .int 50, .nan, .nan⟩⟩ :=
  listarUsuarios_total_nan (Ejemplo.db "count" "7" []) Ejemplo.activosAna
    ⟨[[.texto "activo = ", .ph 1],
      [.texto "(nombre ILIKE ", .ph 2, .texto " OR email ILIKE ", .ph 2,
       .texto ") OR username ILIKE ", .ph 2]],
     [.bool true, .str "%ana%"], 3⟩
    [("count", .str "7")] [] [] rfl rfl rfl rfl

/-! ### C8: how the WHERE fragment of the user listing reads -/

/-- C8 (what the code does instead): for every user-list query with an `activo`
filter and a search term (and no `rol_id`), the fragment is
`WHERE activo = $1 AND (nombre ILIKE $2 OR email ILIKE $2) OR username ILIKE $2`;
with AND binding tighter than OR it reads as
`(activo AND (nombre OR email)) OR username`, so every row whose username matches
is selected, whether or not it satisfies the `activo` filter. -/
theorem listarUsuarios_where_username_sin_filtro (q : UsuariosQuery) (a : String)
    (sat : String → Op → Nat → Bool)
    (hr : Campo.truthy q.rol_id = false) (ha : q.activo = some a)
    (hs : Campo.truthy q.search = true) (hu : sat "username" .ilike 2 = true) :
    ∃ b, usuariosFiltros q = .ok b
      ∧ renderSql (whereClause b.whereConditions)
          = "WHERE activo = $1 AND (nombre ILIKE $2 OR email ILIKE $2) OR username ILIKE $2"
      ∧ parseWhere (whereClause b.whereConditions)
          = some (some (.or
              (.and (.pred "activo" .eq 1)
                (.or (.pred "nombre" .ilike 2) (.pred "email" .ilike 2)))
              (.pred "username" .ilike 2)))
      ∧ selecciona (whereClause b.whereConditions) sat = some true := by
  refine ⟨⟨[[.texto "activo = ", .ph 1],
      [.texto "(nombre ILIKE ", .ph 2, .texto " OR email ILIKE ", .ph 2,
       .texto ") OR username ILIKE ", .ph 2]],
     [.bool (q.activo == some "true"), .str ("%" ++ q.search.getD "" ++ "%")], 3⟩, ?_, ?_, ?_, ?_⟩
  · simp [usuariosFiltros, hr, ha, hs, Filtros.push]
  · show renderSql (whereClause [[.texto "activo = ", .ph 1],
        [.texto "(nombre ILIKE ", .ph 2, .texto " OR email ILIKE ", .ph 2,
         .texto ") OR username ILIKE ", .ph 2]]) = _
    decide
  · show parseWhere (whereClause [[.texto "activo = ", .ph 1],
        [.texto "(nombre ILIKE ", .ph 2, .texto " OR email ILIKE ", .ph 2,
         .texto ") OR username ILIKE ", .ph 2]]) = _
    decide
  · have hp : parseWhere (whereClause [[.texto "activo = ", .ph 1],
        [.texto "(nombre ILIKE ", .ph 2, .texto " OR email ILIKE ", .ph 2,
         .texto ") OR username ILIKE ", .ph 2]])
        = some (some (.or
              (.and (.pred "activo" .eq 1)
                (.or (.pred "nombre" .ilike 2) (.pred "email" .ilike 2)))
              (.pred "username" .ilike 2))) := by decide
    simp [selecciona, hp, Cond.eval, hu]

/-- C8 at the query `?activo=true&search=ana` and a row that is not active, whose
nombre and email do not match and whose username does: the row is selected. -/
theorem listarUsuarios_where_username_sin_filtro_witness :
    Ejemplo.filaInactiva "activo" .eq 1 = false
      ∧ ∃ b, usuariosFiltros Ejemplo.activosAna = .ok b
        ∧ renderSql (whereClause b.whereConditions)
            = "WHERE activo = $1 AND (nombre ILIKE $2 OR email ILIKE $2) OR username ILIKE $2"
        ∧ parseWhere (whereClause b.whereConditions)
            = some (some (.or
                (.and (.pred "activo" .eq 1)
                  (.or (.pred "nombre" .ilike 2) (.pred "email" .ilike 2)))
                (.pred "username" .ilike 2)))
        ∧ selecciona (whereClause b.whereConditions) Ejemplo.filaInactiva = some true :=
  ⟨by decide,
   listarUsuarios_where_username_sin_filtro Ejemplo.activosAna "true" Ejemplo.filaInactiva
     (by decide) rfl (by decide) (by decide)⟩

/-! ### C9: pagination metadata of the article listing -/

/-- C9: when the count statement is answered with a row whose `total` denotes
the integer `total ≥ 0`, the limit denotes a positive integer `l` (a number, a
decimal string, or the default 50), the page denotes an integer `p`, all three
within the safe-integer range (magnitude at most `2^53`, where doubles hold
integers exactly), and the page statement is answered, `listarArticulos` responds
200 with `pagination.total = total`, `pagination.totalPages = ⌈total / l⌉`, and
page and limit echoed as the integers `p` and `l`. -/
theorem listarArticulos_paginacion (db : Db) (q : ArticulosQuery) (total l p : Int)
    (r0 : Fila) (rs rows : List Fila)
    (hlim : esEntero (porDefecto q.limit 50) l) (hl : 0 < l) (hsl : l ≤ maxSeguro)
    (hpage : esEntero (porDefecto q.page 1) p) (hsp : -maxSeguro ≤ p ∧ p ≤ maxSeguro)
    (hcount : db (articulosConteoEsperado q) = .ok (r0 :: rs))
    (htotal : esEntero (campo r0 "total") total) (h0 : 0 ≤ total) (hst : total ≤ maxSeguro)
    (hrows : db (articulosPaginaEsperada q) = .ok rows) :
    (listarArticulos db q).respuesta
      = ⟨200, true, none,
          .listado rows ⟨.int p, .int l, .int total, .int ⌈(total : ℚ) / (l : ℚ)⌉⟩⟩ := by
  simp only [articulosConteoEsperado, articulosPaginaEsperada,
    ← articulosFiltros_params] at hcount hrows
  have hm : (0 : Int) ≤ maxSeguro := by decide
  have sl : JsNum.seguro l = true := (seguro_iff l).mpr ⟨by omega, hsl⟩
  have sp : JsNum.seguro p = true := (seguro_iff p).mpr hsp
  have st : JsNum.seguro total = true := (seguro_iff total).mpr ⟨by omega, hst⟩
  simp only [listarArticulos, hcount, hrows, (esEntero_conversiones _ _ hlim sl).1,
    (esEntero_conversiones _ _ hlim sl).2, (esEntero_conversiones _ _ hpage sp).2,
    (esEntero_conversiones _ _ htotal st).2, ceilDiv_int total l st sl (ne_of_gt hl)]

/-- C9, the scenario of the specification: 5 matching rows, `?limit=2`, first
page: two rows come back and `totalPages` is 3. -/
theorem listarArticulos_paginacion_witness :
    (listarArticulos (Ejemplo.db "total" "5" Ejemplo.dosFilas) Ejemplo.limiteDos).respuesta
      = ⟨200, true, none, .listado Ejemplo.dosFilas ⟨.int 1, .int 2, .int 5, .int 3⟩⟩ :=
  (listarArticulos_paginacion (Ejemplo.db "total" "5" Ejemplo.dosFilas) Ejemplo.limiteDos
      5 2 1 [("total", .str "5")] [] Ejemplo.dosFilas
      (Or.inr ⟨"2", rfl, by decide, by decide⟩) (by decide) (by decide) (Or.inl rfl)
      (by decide) rfl
      (Or.inr ⟨"5", rfl, by decide, by decide⟩) (by decide) (by decide) rfl).trans
    (by
      have h : ⌈((5 : Int) : ℚ) / ((2 : Int) : ℚ)⌉ = 3 := by
        rw [Int.ceil_eq_iff]; norm_num
      rw [h])

/-! ### C10: validation in `crearArticulo` -/

/-- C10 (as stated, at a concrete body): a body with sku, descripcion and
categoria present and `tipo_etiqueta = "shipping"` is answered with 400 and no
statement, although nothing is missing and `shipping` is in the claimed set. -/
theorem crearArticulo_shipping_rechazado :
    ¬ (rechazadoSinConsulta (crearArticulo Ejemplo.store Ejemplo.cuerpoShipping)
        ↔ invalidoSegun ["qr", "barcode", "shipping"] Ejemplo.cuerpoShipping) := by
  intro h
  have h1 : rechazadoSinConsulta (crearArticulo Ejemplo.store Ejemplo.cuerpoShipping) :=
    ⟨by decide, by decide⟩
  have h2 := h.mp h1
  revert h2
  simp [invalidoSegun, Ejemplo.cuerpoShipping, Campo.truthy, Campo.val, JsVal.truthy]

/-- C10 (amended): for every store and body, `crearArticulo` responds 400 without
issuing any statement exactly when one of sku, descripcion, categoria,
tipo_etiqueta is missing or empty, or tipo_etiqueta is not one of `qr`, `barcode`,
`envio`; a body with all four present and such a label type gets past validation:
the duplicate check on the sku is issued. -/
theorem crearArticulo_validacion (st : Store) (body : ArticuloBody) :
    (rechazadoSinConsulta (crearArticulo st body)
        ↔ invalidoSegun ["qr", "barcode", "envio"] body)
      ∧ (¬ invalidoSegun ["qr", "barcode", "envio"] body →
          (crearArticulo st body).2.consultas.head?
            = some ⟨sqlSkuSelect, [.str (body.sku.getD "")]⟩) := by
  cases h1 : Campo.truthy body.sku <;> cases h2 : Campo.truthy body.descripcion
    <;> cases h3 : Campo.truthy body.categoria <;> cases h4 : Campo.truthy body.tipo_etiqueta
    <;> try (simp [crearArticulo, h1, h2, h3, h4, rechazadoSinConsulta, invalidoSegun, fallo]; done)
  by_cases hm : body.tipo_etiqueta.getD "" ∈ ["qr", "barcode", "envio"]
  · have hc : body.tipo_etiqueta.getD "" ∈ tiposEtiqueta := hm
    have hinv : ¬ invalidoSegun ["qr", "barcode", "envio"] body := by
      simp [invalidoSegun, h1, h2, h3, h4, hm]
    cases hp1 : st.paso.1 <;> cases hp2 : st.paso.2.paso.1
      <;> by_cases hd : (st.paso.2.articulos.filter fun a => a.sku = body.sku.getD "").length > 0
      <;> simp [crearArticulo, h1, h2, h3, h4, hc, hp1, hp2, hd, rechazadoSinConsulta, hinv]
  · have hc : ¬ body.tipo_etiqueta.getD "" ∈ tiposEtiqueta := hm
    have hinv : invalidoSegun ["qr", "barcode", "envio"] body := by
      simp [invalidoSegun, h1, h2, h3, h4, hm]
    simp [crearArticulo, h1, h2, h3, h4, hc, rechazadoSinConsulta, hinv, fallo]

/-- C10 (amended) at the scenario of the specification with label type `envio`:
the body passes validation and the article is created with status 201. -/
theorem crearArticulo_validacion_witness :
    ¬ rechazadoSinConsulta (crearArticulo Ejemplo.store Ejemplo.cuerpoEnvio)
      ∧ (crearArticulo Ejemplo.store Ejemplo.cuerpoEnvio).2.respuesta.status = 201 :=
  ⟨fun h => absurd ((crearArticulo_validacion Ejemplo.store Ejemplo.cuerpoEnvio).1.mp h)
      (by simp [invalidoSegun, Ejemplo.cuerpoEnvio, Campo.truthy, Campo.val, JsVal.truthy]),
   by decide⟩

/-! ### C11: uniqueness of the sku -/

/-- A statement against a store with an empty failure schedule is answered and
leaves the store as it is. -/
theorem Store.paso_sin_fallos (st : Store) (h : st.fallos = []) : st.paso = (true, st) := by
  simp [Store.paso, h]

/-- Issuing a statement does not change the articles. -/
theorem Store.paso_articulos (st : Store) : st.paso.2.articulos = st.articulos := by
  unfold Store.paso; cases st.fallos <;> rfl

/-- Issuing a statement does not change the clock reading. -/
theorem Store.paso_ahora (st : Store) : st.paso.2.ahora = st.ahora := by
  unfold Store.paso; cases st.fallos <;> rfl

/-- Creating an article keeps the skus pairwise distinct: the insert is reached
only when no row carries the new sku. -/
theorem crearArticulo_skus_distintos (st : Store) (body : ArticuloBody)
    (h : (st.articulos.map fun a => a.sku).Nodup) :
    ((crearArticulo st body).1.articulos.map fun a => a.sku).Nodup := by
  by_cases hv : (!Campo.truthy body.sku || !Campo.truthy body.descripcion
      || !Campo.truthy body.categoria || !Campo.truthy body.tipo_etiqueta) = true
  · simpa [crearArticulo, hv] using h
  by_cases hm : body.tipo_etiqueta.getD "" ∈ tiposEtiqueta
  swap
  · simpa [crearArticulo, hv, hm] using h
  cases hp1 : st.paso.1
  · simpa [crearArticulo, hv, hm, hp1, Store.paso_articulos] using h
  by_cases hd : 0 < (st.articulos.filter fun a => a.sku = body.sku.getD "").length
  · simpa [crearArticulo, hv, hm, hp1, hd, Store.paso_articulos] using h
  cases hp2 : st.paso.2.paso.1
  · simpa [crearArticulo, hv, hm, hp1, hd, hp2, Store.paso_articulos] using h
  have hno : ∀ a ∈ st.articulos, a.sku ≠ body.sku.getD "" := by
    intro a ha heq
    apply hd
    exact List.length_pos_of_mem (List.mem_filter.mpr ⟨ha, by simp [heq]⟩)
  have hfin : ∃ n : Articulo, n.sku = body.sku.getD ""
      ∧ (crearArticulo st body).1.articulos = st.articulos ++ [n] :=
    ⟨st.paso.2.paso.2.nuevoArticulo (body.sku.getD "") (body.descripcion.getD "")
        (body.categoria.getD "") (oNull body.color) (oNull body.size)
        (body.tipo_etiqueta.getD "") (oNull body.codigo_barras) (oNull body.imagen_url),
      rfl, by simp [crearArticulo, hv, hm, hp1, hd, hp2, Store.paso_articulos]⟩
  obtain ⟨n, hn, hfin⟩ := hfin
  rw [hfin, List.map_append, List.nodup_append]
  refine ⟨h, List.nodup_singleton _, ?_⟩
  intro x hx hx'
  simp only [List.map_cons, List.map_nil, List.mem_singleton] at hx'
  obtain ⟨a, ha, rfl⟩ := List.mem_map.mp hx
  exact hno a ha (hx'.trans hn)

/-- Creating a second article with the sku `X1` is answered with 400 and the
store keeps its single `X1`. -/
theorem crearArticulo_skus_distintos_witness :
    (((crearArticulo (crearArticulo Ejemplo.store Ejemplo.cuerpoEnvio).1
        Ejemplo.cuerpoEnvio).1.articulos.map fun a => a.sku).Nodup)
      ∧ (crearArticulo (crearArticulo Ejemplo.store Ejemplo.cuerpoEnvio).1
          Ejemplo.cuerpoEnvio).2.respuesta = fallo 400 "El SKU ya existe" :=
  ⟨crearArticulo_skus_distintos _ _
      (crearArticulo_skus_distintos Ejemplo.store Ejemplo.cuerpoEnvio (by decide)),
   by decide⟩

/-- C11 (what the code does instead): the duplicate check of `actualizarArticulo`
runs only for a truthy sku, and the update writes any non-NULL sku. Starting from
two articles with the distinct skus `A-1` and `B-1`, the update `{ sku: "" }` of
article 1 succeeds and leaves the skus distinct (`""` and `B-1`); from that state
the same update of article 2 responds 200, not Conflict, and leaves both rows
with the sku `""`. -/
theorem actualizarArticulo_sku_vacio_duplicado :
    ((actualizarArticulo Ejemplo.almacen 1 Ejemplo.cuerpoSkuVacio).1.articulos.map
        fun a => a.sku) = ["", "B-1"]
      ∧ (actualizarArticulo
          (actualizarArticulo Ejemplo.almacen 1 Ejemplo.cuerpoSkuVacio).1 2
          Ejemplo.cuerpoSkuVacio).2.respuesta.status = 200
      ∧ ((actualizarArticulo
          (actualizarArticulo Ejemplo.almacen 1 Ejemplo.cuerpoSkuVacio).1 2
          Ejemplo.cuerpoSkuVacio).1.articulos.map fun a => a.sku) = ["", ""]
      ∧ ¬ ((actualizarArticulo
          (actualizarArticulo Ejemplo.almacen 1 Ejemplo.cuerpoSkuVacio).1 2
          Ejemplo.cuerpoSkuVacio).1.articulos.map fun a => a.sku).Nodup := by
  refine ⟨by decide, by decide, by decide, ?_⟩
  have h : ((actualizarArticulo
          (actualizarArticulo Ejemplo.almacen 1 Ejemplo.cuerpoSkuVacio).1 2
          Ejemplo.cuerpoSkuVacio).1.articulos.map fun a => a.sku) = ["", ""] := by decide
  rw [h]
  decide

/-! ### C12: the label type of stored articles -/

/-- C12 (what the code does instead): `actualizarArticulo` writes the supplied
`tipo_etiqueta` without checking it against the accepted label types. From a
store whose articles all carry accepted label types, the update
`{ tipo_etiqueta: "pdf" }` of article 1 responds 200 and stores `pdf`. -/
theorem actualizarArticulo_tipo_sin_validar :
    (∀ a ∈ Ejemplo.almacen.articulos, a.tipo_etiqueta ∈ tiposEtiqueta)
      ∧ (actualizarArticulo Ejemplo.almacen 1 Ejemplo.cuerpoTipoPdf).2.respuesta.status = 200
      ∧ ((actualizarArticulo Ejemplo.almacen 1 Ejemplo.cuerpoTipoPdf).1.articulos.map
          fun a => a.tipo_etiqueta) = ["pdf", "barcode"]
      ∧ ¬ (∀ a ∈ (actualizarArticulo Ejemplo.almacen 1 Ejemplo.cuerpoTipoPdf).1.articulos,
          a.tipo_etiqueta ∈ tiposEtiqueta) := by
  refine ⟨by decide, by decide, by decide, ?_⟩
  intro h
  have hm : ({ Ejemplo.artA with tipo_etiqueta := "pdf", updated_at := 100 } : Articulo)
      ∈ (actualizarArticulo Ejemplo.almacen 1 Ejemplo.cuerpoTipoPdf).1.articulos := by decide
  exact absurd (h _ hm) (by decide)

/-! ### C13: partial update of an article -/

/-- The merge written by the update statement: a supplied field takes the
supplied value, a field that is not supplied keeps the stored one, and id,
`activo` and the creation time are not touched. -/
theorem Articulo.fusionar_campos (a : Articulo) (body : ArticuloBody) (t : Nat) :
    (a.fusionar body t).id = a.id ∧ (a.fusionar body t).activo = a.activo
      ∧ (a.fusionar body t).created_at = a.created_at
      ∧ (body.sku = none → (a.fusionar body t).sku = a.sku)
      ∧ (∀ v, body.sku = some v → (a.fusionar body t).sku = v)
      ∧ (body.descripcion = none → (a.fusionar body t).descripcion = a.descripcion)
      ∧ (∀ v, body.descripcion = some v → (a.fusionar body t).descripcion = v)
      ∧ (body.categoria = none → (a.fusionar body t).categoria = a.categoria)
      ∧ (∀ v, body.categoria = some v → (a.fusionar body t).categoria = v)
      ∧ (body.color = none → (a.fusionar body t).color = a.color)
      ∧ (∀ v, body.color = some v → (a.fusionar body t).color = some v)
      ∧ (body.size = none → (a.fusionar body t).size = a.size)
      ∧ (∀ v, body.size = some v → (a.fusionar body t).size = some v)
      ∧ (body.tipo_etiqueta = none → (a.fusionar body t).tipo_etiqueta = a.tipo_etiqueta)
      ∧ (∀ v, body.tipo_etiqueta = some v → (a.fusionar body t).tipo_etiqueta = v)
      ∧ (body.codigo_barras = none → (a.fusionar body t).codigo_barras = a.codigo_barras)
      ∧ (∀ v, body.codigo_barras = some v → (a.fusionar body t).codigo_barras = some v)
      ∧ (body.imagen_url = none → (a.fusionar body t).imagen_url = a.imagen_url)
      ∧ (∀ v, body.imagen_url = some v → (a.fusionar body t).imagen_url = some v) := by
  refine ⟨rfl, rfl, rfl, ?_, ?_, ?_, ?_, ?_, ?_, ?_, ?_, ?_, ?_, ?_, ?_, ?_, ?_, ?_, ?_⟩
    <;> intros <;> simp_all [Articulo.fusionar, coalesce, coalesceNull]

/-- C13: for every store, id and update body, `actualizarArticulo` either leaves
the articles as they are or rewrites exactly the rows with the given id by the
merge (rows with another id are never changed); under the merge each of sku,
descripcion, categoria, color, size, tipo_etiqueta, codigo_barras, imagen_url
keeps its stored value when the body does not supply it and takes the supplied
value when it does; when the id does not exist it responds 404 and writes
nothing; and when the id exists, the store answers and a supplied non-empty sku
belongs to no other row, the merge is written and the response is 200. -/
theorem actualizarArticulo_fusion (st : Store) (id : Nat) (body : ArticuloBody) :
    ((actualizarArticulo st id body).1.articulos = st.articulos
        ∨ (actualizarArticulo st id body).1.articulos
            = st.articulos.map fun a => if a.id = id then a.fusionar body st.ahora else a)
      ∧ (∀ (a : Articulo) (t : Nat),
          (body.sku = none → (a.fusionar body t).sku = a.sku)
          ∧ (∀ v, body.sku = some v → (a.fusionar body t).sku = v)
          ∧ (body.descripcion = none → (a.fusionar body t).descripcion = a.descripcion)
          ∧ (∀ v, body.descripcion = some v → (a.fusionar body t).descripcion = v)
          ∧ (body.categoria = none → (a.fusionar body t).categoria = a.categoria)
          ∧ (∀ v, body.categoria = some v → (a.fusionar body t).categoria = v)
          ∧ (body.color = none → (a.fusionar body t).color = a.color)
          ∧ (∀ v, body.color = some v → (a.fusionar body t).color = some v)
          ∧ (body.size = none → (a.fusionar body t).size = a.size)
          ∧ (∀ v, body.size = some v → (a.fusionar body t).size = some v)
          ∧ (body.tipo_etiqueta = none → (a.fusionar body t).tipo_etiqueta = a.tipo_etiqueta)
          ∧ (∀ v, body.tipo_etiqueta = some v → (a.fusionar body t).tipo_etiqueta = v)
          ∧ (body.codigo_barras = none → (a.fusionar body t).codigo_barras = a.codigo_barras)
          ∧ (∀ v, body.codigo_barras = some v → (a.fusionar body t).codigo_barras = some v)
          ∧ (body.imagen_url = none → (a.fusionar body t).imagen_url = a.imagen_url)
          ∧ (∀ v, body.imagen_url = some v → (a.fusionar body t).imagen_url = some v))
      ∧ ((∀ a ∈ st.articulos, a.id ≠ id) → st.fallos.head? ≠ some true →
          (actualizarArticulo st id body).2.respuesta = fallo 404 "Artículo no encontrado"
            ∧ (actualizarArticulo st id body).1.articulos = st.articulos)
      ∧ ((∃ a ∈ st.articulos, a.id = id) → st.fallos = [] →
          (Campo.truthy body.sku = true →
            ∀ a ∈ st.articulos, a.sku = body.sku.getD "" → a.id = id) →
          (actualizarArticulo st id body).1.articulos
              = (st.articulos.map fun a => if a.id = id then a.fusionar body st.ahora else a)
            ∧ (actualizarArticulo st id body).2.respuesta.status = 200
            ∧ (actualizarArticulo st id body).2.respuesta.success = true) := by
  refine ⟨?_, fun a t => (a.fusionar_campos body t).2.2.2, ?_, ?_⟩
  · cases hp1 : st.paso.1
    · left; simp [actualizarArticulo, hp1, Store.paso_articulos]
    by_cases he : (st.articulos.filter fun a => a.id = id).length = 0
    · left; simp [actualizarArticulo, hp1, he, Store.paso_articulos]
    cases hs : Campo.truthy body.sku
    · cases hp3 : st.paso.2.paso.1
      · left; simp [actualizarArticulo, hp1, he, hs, hp3, Store.paso_articulos]
      · right
        simp [actualizarArticulo, hp1, he, hs, hp3, Store.paso_articulos, Store.paso_ahora]
    · cases hp2 : st.paso.2.paso.1
      · left; simp [actualizarArticulo, hp1, he, hs, hp2, Store.paso_articulos]
      by_cases hd : 0 < (st.articulos.filter
          fun a => a.sku = body.sku.getD "" && a.id != id).length
      · left; simp [actualizarArticulo, hp1, he, hs, hp2, hd, Store.paso_articulos]
      cases hp3 : st.paso.2.paso.2.paso.1
      · left; simp [actualizarArticulo, hp1, he, hs, hp2, hd, hp3, Store.paso_articulos]
      · right
        simp [actualizarArticulo, hp1, he, hs, hp2, hd, hp3, Store.paso_articulos,
          Store.paso_ahora]
  · intro hno hok
    have hp1 := st.paso_ok hok
    have he : (st.articulos.filter fun a => a.id = id).length = 0 := by
      rw [List.length_eq_zero, List.filter_eq_nil_iff]
      intro a ha; simpa using hno a ha
    simp [actualizarArticulo, hp1, he, Store.paso_articulos]
  · intro hex hf hnc
    have hp := st.paso_sin_fallos hf
    have he : ¬ (st.articulos.filter fun a => a.id = id).length = 0 := by
      obtain ⟨a, ha, hid⟩ := hex
      exact Nat.ne_of_gt (List.length_pos_of_mem (List.mem_filter.mpr ⟨ha, by simp [hid]⟩))
    cases hs : Campo.truthy body.sku
    · simp [actualizarArticulo, hp, he, hs]
    · have hd : ¬ 0 < (st.articulos.filter
          fun a => a.sku = body.sku.getD "" && a.id != id).length := by
        intro hpos
        obtain ⟨a, ha⟩ := List.exists_mem_of_length_pos hpos
        simp only [List.mem_filter, Bool.and_eq_true, decide_eq_true_eq, bne_iff_ne] at ha
        exact ha.2.2 (hnc hs a ha.1 ha.2.1)
      simp [actualizarArticulo, hp, he, hs, hd]

/-- C13, the scenario of the specification: updating only `descripcion` of
article 1 responds 200, leaves its sku and categoria (and every other field but
the modification time) as stored, and leaves article 2 untouched. -/
theorem actualizarArticulo_fusion_witness :
    (actualizarArticulo Ejemplo.almacen 1 Ejemplo.cuerpoDescripcion).1.articulos
        = [{ Ejemplo.artA with descripcion := "Clog clásico", updated_at := 100 }, Ejemplo.artB]
      ∧ (actualizarArticulo Ejemplo.almacen 1 Ejemplo.cuerpoDescripcion).2.respuesta.status = 200
      ∧ (actualizarArticulo Ejemplo.almacen 1 Ejemplo.cuerpoDescripcion).2.respuesta.success
          = true :=
  have h := (actualizarArticulo_fusion Ejemplo.almacen 1 Ejemplo.cuerpoDescripcion).2.2.2
    ⟨Ejemplo.artA, by decide, rfl⟩ rfl (fun hs => absurd hs (by decide))
  ⟨h.1.trans (by decide), h.2.1, h.2.2⟩

/-! ### C14: setting the state of an article -/

/-- Rewriting the rows with a given id by a function that keeps the id, and then
selecting the rows with that id, gives the rewritten selection. -/
theorem filter_map_porId (l : List Articulo) (id : Nat) (g : Articulo → Articulo)
    (hg : ∀ a, (g a).id = a.id) :
    ((l.map fun a => if a.id = id then g a else a).filter fun a => a.id = id)
      = (l.filter fun a => a.id = id).map g := by
  induction l with
  | nil => rfl
  | cons a r ih =>
    by_cases h : a.id = id
    · simp [List.filter_cons, h, hg, ih]
    · simp [List.filter_cons, h, ih]

/-- The rows with a given id are none exactly when no row has the id. -/
theorem filter_porId_nil (l : List Articulo) (id : Nat) (h : ∀ a ∈ l, a.id ≠ id) :
    (l.filter fun a => a.id = id) = [] := by
  rw [List.filter_eq_nil_iff]
  intro a ha; simpa using h a ha

/-- Rewriting the rows with a given id changes nothing when no row has the id. -/
theorem map_porId_ausente (l : List Articulo) (id : Nat) (g : Articulo → Articulo)
    (h : ∀ a ∈ l, a.id ≠ id) :
    (l.map fun a => if a.id = id then g a else a) = l := by
  induction l with
  | nil => rfl
  | cons a r ih =>
    have ha : a.id ≠ id := h a (List.mem_cons_self _ _)
    simp [ha, ih (fun b hb => h b (List.mem_cons_of_mem _ hb))]

/-- C14 (as stated, at a concrete request): the body `{ activo: "false" }` carries
no boolean, yet `cambiarEstado` on the existing article 1 does not answer 400: it
issues the UPDATE, the stored flag becomes false and the response is 200. -/
theorem cambiarEstado_texto_no_rechazado :
    (cambiarEstado Ejemplo.almacen 1 (.str "false")).2.respuesta.status = 200
      ∧ ((cambiarEstado Ejemplo.almacen 1 (.str "false")).1.articulos.map fun a => a.activo)
          = [false, true]
      ∧ ¬ (((cambiarEstado Ejemplo.almacen 1 (.str "false")).2.respuesta.status = 400
            ∧ (cambiarEstado Ejemplo.almacen 1 (.str "false")).1 = Ejemplo.almacen)
          ↔ ¬ ∃ b, JsVal.str "false" = JsVal.bool b) := by
  refine ⟨by decide, by decide, ?_⟩
  intro h
  have h400 := (h.mpr (by simp)).1
  exact absurd h400 (by decide)

/-- C14 (amended): `cambiarEstado` responds 400 exactly when the body has no
`activo` field, and then issues no statement and leaves the store as it is; any
other value of `activo`, boolean or not, is passed as it is to the one UPDATE
statement issued, as its first parameter, with the route id as the second; when
`activo` is a boolean `b`, the store answers and the id exists, the flag of the
rows with that id becomes `b` whatever it was, nothing else but their
modification time changes, and the response is 200 with `activo = b` in the
returned row; when `activo` is a boolean, the store answers and the id does not
exist, the response is 404 and no row changes. -/
theorem cambiarEstado_contrato (st : Store) (id : Nat) (activo : JsVal) :
    ((cambiarEstado st id activo).2.respuesta.status = 400 ↔ activo = .undefined)
      ∧ (activo = .undefined →
          (cambiarEstado st id activo).2.consultas = [] ∧ (cambiarEstado st id activo).1 = st)
      ∧ (∀ b, activo = .bool b → st.fallos.head? ≠ some true →
          (∃ a ∈ st.articulos, a.id = id) →
          (cambiarEstado st id activo).1.articulos
              = (st.articulos.map fun a =>
                  if a.id = id then { a with activo := b, updated_at := st.ahora } else a)
            ∧ (∀ a ∈ (cambiarEstado st id activo).1.articulos, a.id = id → a.activo = b)
            ∧ (cambiarEstado st id activo).2.respuesta.status = 200
            ∧ ∃ fila, (cambiarEstado st id activo).2.respuesta.datos = .fila (some fila)
                ∧ campo fila "activo" = .bool b)
      ∧ (∀ b, activo = .bool b → st.fallos.head? ≠ some true →
          (∀ a ∈ st.articulos, a.id ≠ id) →
          (cambiarEstado st id activo).2.respuesta = fallo 404 "Artículo no encontrado"
            ∧ (cambiarEstado st id activo).1.articulos = st.articulos)
      ∧ (activo ≠ .undefined →
          (cambiarEstado st id activo).2.consultas
            = [⟨sqlArticuloEstado, [activo, rutaParam id]⟩]) := by
  by_cases hu : activo = .undefined
  · subst hu
    simp [cambiarEstado, fallo]
  refine ⟨?_, fun h => absurd h hu, ?_, ?_, ?_⟩
  rotate_left 3
  · intro _
    cases hp : st.paso.1
    · simp [cambiarEstado, hu, hp]
    cases hb : paramBooleano activo with
    | none => simp [cambiarEstado, hu, hp, hb]
    | some b =>
      cases hf : ((st.paso.2.articulos.map fun a =>
          if a.id = id then { a with activo := b, updated_at := st.paso.2.ahora } else a).filter
          fun a => a.id = id) with
      | nil => simp [cambiarEstado, hu, hp, hb, hf]
      | cons a r => simp [cambiarEstado, hu, hp, hb, hf]
  · simp only [hu, iff_false]
    cases hp : st.paso.1
    · simp [cambiarEstado, hu, hp, fallo]
    cases hb : paramBooleano activo with
    | none => simp [cambiarEstado, hu, hp, hb, fallo]
    | some b =>
      cases hf : ((st.paso.2.articulos.map fun a =>
          if a.id = id then { a with activo := b, updated_at := st.paso.2.ahora } else a).filter
          fun a => a.id = id) with
      | nil => simp [cambiarEstado, hu, hp, hb, hf, fallo]
      | cons a r => simp [cambiarEstado, hu, hp, hb, hf]
  · intro b hb hok hex
    subst hb
    have hp := st.paso_ok hok
    obtain ⟨a0, ha0, hid0⟩ := hex
    have hfm := filter_map_porId st.articulos id
      (fun a => { a with activo := b, updated_at := st.ahora }) (fun _ => rfl)
    have hne : (st.articulos.filter fun a => a.id = id) ≠ [] :=
      List.ne_nil_of_mem (List.mem_filter.mpr ⟨ha0, by simp [hid0]⟩)
    cases hfl : (st.articulos.filter fun a => a.id = id) with
    | nil => exact absurd hfl hne
    | cons a1 r =>
      rw [hfl] at hfm
      simp only [List.map_cons] at hfm
      refine ⟨?_, ?_, ?_, ?_⟩
      · simp [cambiarEstado, hp, paramBooleano, Store.paso_articulos, Store.paso_ahora, hfm]
      · intro a ha hid
        simp only [cambiarEstado, hp, paramBooleano, Store.paso_articulos, Store.paso_ahora,
          hfm, reduceCtorEq, if_false, Bool.not_true, Bool.false_eq_true] at ha
        obtain ⟨a', _, rfl⟩ := List.mem_map.mp ha
        by_cases h' : a'.id = id
        · simp [h']
        · simp [h'] at hid
      · simp [cambiarEstado, hp, paramBooleano, Store.paso_articulos, Store.paso_ahora, hfm]
      · simp [cambiarEstado, hp, paramBooleano, Store.paso_articulos, Store.paso_ahora, hfm,
          campo, List.lookup]
  · intro b hb hok hno
    subst hb
    have hp := st.paso_ok hok
    have hm := map_porId_ausente st.articulos id
      (fun a => { a with activo := b, updated_at := st.ahora }) hno
    have hf := filter_porId_nil st.articulos id hno
    simp [cambiarEstado, hp, paramBooleano, Store.paso_articulos, Store.paso_ahora, hm, hf]

/-- C14 (amended), the scenario of the specification: `{ activo: false }` on the
existing article 1 gives 200 with `activo = false`; a body without `activo` gives
400; and the text `si` of the body `{ activo: "si" }` is passed to the UPDATE. -/
theorem cambiarEstado_contrato_witness :
    ((cambiarEstado Ejemplo.almacen 1 (.bool false)).2.respuesta.status = 200
        ∧ ∃ fila, (cambiarEstado Ejemplo.almacen 1 (.bool false)).2.respuesta.datos
              = .fila (some fila) ∧ campo fila "activo" = .bool false)
      ∧ (cambiarEstado Ejemplo.almacen 1 .undefined).2.respuesta.status = 400
      ∧ (cambiarEstado Ejemplo.almacen 1 (.str "si")).2.consultas
          = [⟨sqlArticuloEstado, [.str "si", rutaParam 1]⟩] :=
  ⟨((cambiarEstado_contrato Ejemplo.almacen 1 (.bool false)).2.2.1 false rfl (by decide)
      ⟨Ejemplo.artA, by decide, rfl⟩).2.2,
   (cambiarEstado_contrato Ejemplo.almacen 1 .undefined).1.mpr rfl,
   (cambiarEstado_contrato Ejemplo.almacen 1 (.str "si")).2.2.2.2 (by decide)⟩

/-! ### C15: soft delete of an article -/

/-- A deactivated article is not selected by an article listing filtered with
`activo=true`, whatever the other filters are. -/
theorem articulos_activos_excluye (q : ArticulosQuery) (ilike : String → String → Bool)
    (a : Articulo) (hq : q.activo = some "true") (ha : a.activo = false) :
    selecciona (whereClause (articulosFiltros q).whereConditions)
        (satisfaceArticulo ilike (articulosFiltros q).params a) = some false := by
  rw [articulos_selecciona]
  rcases q with ⟨cat, tipo, act, srch, page, limit⟩
  simp only at hq
  subst hq
  cases hc : Campo.truthy cat <;> cases ht : Campo.truthy tipo <;> cases hs : Campo.truthy srch
    <;> simp [articulosFiltros, articulosPredicados, Filtros.push, hc, ht, hs, numerar,
      Cond.eval, satisfaceArticulo, ha]

/-- C15: when the store answers, `eliminarArticulo` rewrites exactly the rows with
the given id, setting `activo` to false and the modification time and nothing
else, and removes no row. On an existing id it responds 200, the row is then
returned by `obtenerArticulo` (deactivated) and is not selected by a listing
filtered with `activo=true`. Applying it again, at any later time, gives the same
articles up to the modification time. On an absent id it responds 404 and leaves
every row as it is. -/
theorem eliminarArticulo_contrato (st : Store) (id : Nat) (hok : st.fallos.head? ≠ some true) :
    (eliminarArticulo st id).1.articulos
        = (st.articulos.map fun a =>
            if a.id = id then { a with activo := false, updated_at := st.ahora } else a)
      ∧ (eliminarArticulo st id).1.articulos.length = st.articulos.length
      ∧ ((∃ a ∈ st.articulos, a.id = id) →
          (eliminarArticulo st id).2.respuesta.status = 200
            ∧ (∀ a ∈ (eliminarArticulo st id).1.articulos, a.id = id → a.activo = false)
            ∧ ((eliminarArticulo st id).1.fallos.head? ≠ some true →
                ∃ a, (obtenerArticulo (eliminarArticulo st id).1 id).2.respuesta
                    = ⟨200, true, none, .articulo a⟩
                  ∧ a.id = id ∧ a.activo = false)
            ∧ (∀ (q : ArticulosQuery) (ilike : String → String → Bool),
                q.activo = some "true" →
                ∀ a ∈ (eliminarArticulo st id).1.articulos, a.id = id →
                  selecciona (whereClause (articulosFiltros q).whereConditions)
                    (satisfaceArticulo ilike (articulosFiltros q).params a) = some false))
      ∧ (∀ st2 : Store, st2.articulos = (eliminarArticulo st id).1.articulos →
          st2.fallos.head? ≠ some true →
          (eliminarArticulo st2 id).1.articulos.map Articulo.sinFecha
            = (eliminarArticulo st id).1.articulos.map Articulo.sinFecha)
      ∧ ((∀ a ∈ st.articulos, a.id ≠ id) →
          (eliminarArticulo st id).2.respuesta = fallo 404 "Artículo no encontrado"
            ∧ (eliminarArticulo st id).1.articulos = st.articulos) := by
  have hart : ∀ s : Store, s.fallos.head? ≠ some true →
      (eliminarArticulo s id).1.articulos
        = (s.articulos.map fun a =>
            if a.id = id then { a with activo := false, updated_at := s.ahora } else a) := by
    intro s hs
    have hp := s.paso_ok hs
    simp only [eliminarArticulo, hp, Bool.not_true, Bool.false_eq_true, if_false,
      Store.paso_articulos, Store.paso_ahora]
    split <;> rfl
  have hact : ∀ a ∈ (eliminarArticulo st id).1.articulos, a.id = id → a.activo = false := by
    intro a ha hid
    rw [hart st hok] at ha
    obtain ⟨a', _, rfl⟩ := List.mem_map.mp ha
    by_cases h' : a'.id = id
    · simp [h']
    · simp [h'] at hid
  refine ⟨hart st hok, by rw [hart st hok, List.length_map], ?_, ?_, ?_⟩
  · intro hex
    obtain ⟨a0, ha0, hid0⟩ := hex
    have hp := st.paso_ok hok
    have hfm := filter_map_porId st.articulos id
      (fun a => { a with activo := false, updated_at := st.ahora }) (fun _ => rfl)
    have hne : (st.articulos.filter fun a => a.id = id) ≠ [] :=
      List.ne_nil_of_mem (List.mem_filter.mpr ⟨ha0, by simp [hid0]⟩)
    refine ⟨?_, hact, ?_, ?_⟩
    · cases hfl : (st.articulos.filter fun a => a.id = id) with
      | nil => exact absurd hfl hne
      | cons a1 r =>
        rw [hfl] at hfm
        simp only [List.map_cons] at hfm
        simp [eliminarArticulo, hp, Store.paso_articulos, Store.paso_ahora, hfm]
    · intro hok2
      have hp2 := (eliminarArticulo st id).1.paso_ok hok2
      cases hfl : ((eliminarArticulo st id).1.articulos.filter fun a => a.id = id) with
      | nil =>
        rw [hart st hok, hfm, List.map_eq_nil_iff] at hfl
        exact absurd hfl hne
      | cons a1 r =>
        have hm : a1 ∈ (eliminarArticulo st id).1.articulos.filter fun a => a.id = id := by
          rw [hfl]; exact List.mem_cons_self _ _
        have hm' := List.mem_filter.mp hm
        refine ⟨a1, ?_, by simpa using hm'.2, hact a1 hm'.1 (by simpa using hm'.2)⟩
        simp [obtenerArticulo, hp2, Store.paso_articulos, hfl]
    · intro q ilike hq a ha hid
      exact articulos_activos_excluye q ilike a hq (hact a ha hid)
  · intro st2 h2 hok2
    rw [hart st2 hok2, h2, hart st hok]
    simp only [List.map_map]
    apply List.map_congr_left
    intro a _
    by_cases h' : a.id = id <;> simp [h', Articulo.sinFecha]
  · intro hno
    have hp := st.paso_ok hok
    have hm := map_porId_ausente st.articulos id
      (fun a => { a with activo := false, updated_at := st.ahora }) hno
    have hf := filter_porId_nil st.articulos id hno
    simp [eliminarArticulo, hp, Store.paso_articulos, Store.paso_ahora, hm, hf]

/-- C15 at the store with two articles: deleting article 1 responds 200 and
clears only its flag; the row is still found by id; deleting again a hundred
ticks later changes nothing but the modification time; deleting article 9
responds 404. -/
theorem eliminarArticulo_contrato_witness :
    (eliminarArticulo Ejemplo.almacen 1).1.articulos
        = [{ Ejemplo.artA with activo := false, updated_at := 100 }, Ejemplo.artB]
      ∧ (eliminarArticulo Ejemplo.almacen 1).2.respuesta.status = 200
      ∧ (obtenerArticulo (eliminarArticulo Ejemplo.almacen 1).1 1).2.respuesta
          = ⟨200, true, none,
              .articulo { Ejemplo.artA with activo := false, updated_at := 100 }⟩
      ∧ (eliminarArticulo { (eliminarArticulo Ejemplo.almacen 1).1 with ahora := 200 } 1).1.articulos.map
            Articulo.sinFecha
          = (eliminarArticulo Ejemplo.almacen 1).1.articulos.map Articulo.sinFecha
      ∧ (eliminarArticulo Ejemplo.almacen 9).2.respuesta = fallo 404 "Artículo no encontrado" :=
  have h := eliminarArticulo_contrato Ejemplo.almacen 1 (by decide)
  ⟨h.1.trans (by decide), (h.2.2.1 ⟨Ejemplo.artA, by decide, rfl⟩).1, by decide,
   h.2.2.2.1 { (eliminarArticulo Ejemplo.almacen 1).1 with ahora := 200 } rfl (by decide),
   by decide⟩

/-! ### C16: change of password -/

/-- Issuing a statement does not change the users. -/
theorem Store.paso_usuarios (st : Store) : st.paso.2.usuarios = st.usuarios := by
  unfold Store.paso; cases st.fallos <;> rfl

/-- C16: `cambiarPassword` responds 400, issues no statement and leaves the store
as it is when `passwordActual` or `passwordNuevo` is missing or empty or
`passwordNuevo` has fewer than 6 characters (its `length`); when the body is
valid, the store answers and `passwordActual` does not verify against the stored
hash, it responds 401 and no user row changes; a success response, or any change
of a user row, occurs only when `passwordActual` verifies against the stored hash
of the user and `passwordNuevo` has at least 6 characters; and in that case, the
store answering, the stored hash becomes the hash of `passwordNuevo` and the
response is the success. -/
theorem cambiarPassword_contrato (c : Cripto) (st : Store) (userId : Nat) (body : PasswordBody) :
    ((Campo.truthy body.passwordActual = false ∨ Campo.truthy body.passwordNuevo = false
          ∨ jsLength (body.passwordNuevo.getD "") < 6) →
        (cambiarPassword c st userId body).2.respuesta.status = 400
          ∧ (cambiarPassword c st userId body).2.consultas = []
          ∧ (cambiarPassword c st userId body).1 = st)
      ∧ (∀ actual nuevo u resto, body.passwordActual = some actual → actual ≠ "" →
          body.passwordNuevo = some nuevo → 6 ≤ jsLength nuevo →
          st.fallos.head? ≠ some true →
          (st.usuarios.filter fun x => x.id = userId) = u :: resto →
          c.compare actual u.password_hash = false →
          (cambiarPassword c st userId body).2.respuesta = fallo 401 "Password actual incorrecto"
            ∧ (cambiarPassword c st userId body).1.usuarios = st.usuarios)
      ∧ (((cambiarPassword c st userId body).2.respuesta.success = true
            ∨ (cambiarPassword c st userId body).1.usuarios ≠ st.usuarios) →
          ∃ actual nuevo u, body.passwordActual = some actual ∧ body.passwordNuevo = some nuevo
            ∧ 6 ≤ jsLength nuevo ∧ u ∈ st.usuarios ∧ u.id = userId
            ∧ c.compare actual u.password_hash = true)
      ∧ (∀ actual nuevo u resto, body.passwordActual = some actual → actual ≠ "" →
          body.passwordNuevo = some nuevo → 6 ≤ jsLength nuevo → st.fallos = [] →
          (st.usuarios.filter fun x => x.id = userId) = u :: resto →
          c.compare actual u.password_hash = true →
          (cambiarPassword c st userId body).2.respuesta
              = ⟨200, true, some "Password actualizado correctamente", .ninguno⟩
            ∧ (cambiarPassword c st userId body).1.usuarios
              = (st.usuarios.map fun x =>
                  if x.id = userId
                  then { x with password_hash := c.hash nuevo, updated_at := st.ahora }
                  else x)) := by
  have hlen : ∀ s : String, 6 ≤ jsLength s → s ≠ "" := by
    intro s h hs; subst hs; simp [jsLength] at h
  refine ⟨?_, ?_, ?_, ?_⟩
  · intro h
    by_cases hv : (!Campo.truthy body.passwordActual || !Campo.truthy body.passwordNuevo) = true
    · simp [cambiarPassword, hv, fallo]
    · have hl : jsLength (body.passwordNuevo.getD "") < 6 := by
        rcases h with h | h | h
        · simp [h] at hv
        · simp [h] at hv
        · exact h
      simp [cambiarPassword, hv, hl, fallo]
  · intro actual nuevo u resto ha hane hn hlen6 hok hfil hcmp
    have hp := st.paso_ok hok
    have hnne := hlen nuevo hlen6
    simp [cambiarPassword, ha, hn, Campo.truthy, Campo.val, JsVal.truthy, hane, hnne,
      Nat.not_lt.mpr hlen6, hp, Store.paso_usuarios, hfil, hcmp]
  · intro h
    by_cases hv : (!Campo.truthy body.passwordActual || !Campo.truthy body.passwordNuevo) = true
    · simp [cambiarPassword, hv, fallo] at h
    by_cases hl : jsLength (body.passwordNuevo.getD "") < 6
    · simp [cambiarPassword, hv, hl, fallo] at h
    cases hp1 : st.paso.1
    · simp [cambiarPassword, hv, hl, hp1, fallo, Store.paso_usuarios] at h
    cases hfil : (st.usuarios.filter fun x => x.id = userId) with
    | nil => simp [cambiarPassword, hv, hl, hp1, fallo, Store.paso_usuarios, hfil] at h
    | cons u resto =>
      cases hcmp : c.compare (body.passwordActual.getD "") u.password_hash
      · simp [cambiarPassword, hv, hl, hp1, fallo, Store.paso_usuarios, hfil, hcmp] at h
      · have hu : u ∈ st.usuarios.filter fun x => x.id = userId := by
          rw [hfil]; exact List.mem_cons_self _ _
        have hu' := List.mem_filter.mp hu
        cases ha : body.passwordActual with
        | none => simp [ha, Campo.truthy, Campo.val, JsVal.truthy] at hv
        | some actual =>
          cases hn : body.passwordNuevo with
          | none => simp [hn, Campo.truthy, Campo.val, JsVal.truthy] at hv
          | some nuevo =>
            refine ⟨actual, nuevo, u, rfl, rfl, ?_, hu'.1, by simpa using hu'.2, ?_⟩
            · simpa [hn] using hl
            · simpa [ha] using hcmp
  · intro actual nuevo u resto ha hane hn hlen6 hf hfil hcmp
    have hp := st.paso_sin_fallos hf
    have hnne := hlen nuevo hlen6
    simp [cambiarPassword, ha, hn, Campo.truthy, Campo.val, JsVal.truthy, hane, hnne,
      Nat.not_lt.mpr hlen6, hp, hfil, hcmp, Store.ponerHash]

/-- C16 at the sample store, for user 1 (`ana`, whose password is `secreta`): a
new password of five characters is refused with 400; a wrong current password is
refused with 401 and the hash stays; the right one replaces the hash. -/
theorem cambiarPassword_contrato_witness :
    (cambiarPassword Ejemplo.cripto Ejemplo.store 1 Ejemplo.cambioCorto).2.respuesta.status = 400
      ∧ ((cambiarPassword Ejemplo.cripto Ejemplo.store 1 Ejemplo.cambioMalActual).2.respuesta
            = fallo 401 "Password actual incorrecto"
          ∧ (cambiarPassword Ejemplo.cripto Ejemplo.store 1 Ejemplo.cambioMalActual).1.usuarios
            = Ejemplo.store.usuarios)
      ∧ ((cambiarPassword Ejemplo.cripto Ejemplo.store 1 Ejemplo.cambioBueno).1.usuarios.map
            fun u => u.password_hash) = ["hash-de-nueva-clave", "hash-de-clave"] :=
  have h := cambiarPassword_contrato Ejemplo.cripto Ejemplo.store 1
  ⟨((h Ejemplo.cambioCorto).1 (Or.inr (Or.inr (by decide)))).1,
   (h Ejemplo.cambioMalActual).2.1 "equivocada" "nueva-clave" Ejemplo.ana []
     rfl (by decide) rfl (by decide) (by decide) (by decide) (by decide),
   by decide⟩

/-! ### C17: the global error handler -/

/-- C17 (as stated, at a concrete error): with `NODE_ENV` set to `test`, which is
not a production configuration, an error with status 413 and a stack is answered
with its status and message as JSON, without a stack trace. -/
theorem manejadorErrores_sin_stack_en_test :
    manejadorErrores (some "test") Ejemplo.errorConStatus
        = .json ⟨413, false, "Payload Too Large", none, none⟩
      ∧ Ejemplo.errorConStatus.stack.isSome = true
      ∧ ¬ (∀ r, manejadorErrores (some "test") Ejemplo.errorConStatus = .json r →
            (r.stack.isSome = true ↔ (some "test" : Campo) ≠ some "production")) := by
  refine ⟨by decide, by decide, ?_⟩
  intro h
  have := (h ⟨413, false, "Payload Too Large", none, none⟩ (by decide)).mpr (by decide)
  exact absurd this (by decide)

/-- C17 (amended): a validation error is answered with status 400, an
invalid-token or expired-token error with status 401, both with `success = false`,
a fixed message and no stack; any other error whose own status (500 when it has none or
has 0) is one that is sent with a body, that is a status from 200 to 999 other
than 204, 205 and 304, is answered with that status, `success = false`, the
error's message, or `Error interno del servidor` when it is missing or empty, and
a stack trace exactly when `NODE_ENV` is `development` and the error has a
stack. -/
theorem manejadorErrores_contrato (nodeEnv : Campo) (err : ErrorJs) :
    (err.name = "ValidationError" →
        ∃ r, manejadorErrores nodeEnv err = .json r ∧ r.status = 400 ∧ r.success = false
          ∧ r.message = "Error de validación" ∧ r.stack = none)
      ∧ (err.name = "JsonWebTokenError" ∨ err.name = "TokenExpiredError" →
          ∃ r, manejadorErrores nodeEnv err = .json r ∧ r.status = 401 ∧ r.success = false
            ∧ r.message
                = (if err.name = "JsonWebTokenError" then "Token inválido" else "Token expirado")
            ∧ r.stack = none)
      ∧ (err.name ≠ "ValidationError" → err.name ≠ "JsonWebTokenError" →
          err.name ≠ "TokenExpiredError" →
          ∀ n : Int, (err.status = some n ∧ n ≠ 0)
              ∨ ((err.status = none ∨ err.status = some 0) ∧ n = 500) →
            200 ≤ n → n ≤ 999 → n ≠ 204 → n ≠ 205 → n ≠ 304 →
            ∃ r, manejadorErrores nodeEnv err = .json r ∧ r.status = n ∧ r.success = false
              ∧ (∀ m, err.message = some m → m ≠ "" → r.message = m)
              ∧ (Campo.truthy err.message = false → r.message = "Error interno del servidor")
              ∧ (r.stack.isSome = true
                  ↔ (nodeEnv = some "development" ∧ err.stack.isSome = true))) := by
  refine ⟨?_, ?_, ?_⟩
  · intro h
    exact ⟨⟨400, false, "Error de validación",
        if err.errors = .undefined then none else some err.errors, none⟩,
      by simp [manejadorErrores, h, enviarJson], rfl, rfl, rfl, rfl⟩
  · intro h
    have hv : err.name ≠ "ValidationError" := by
      rcases h with h | h <;> rw [h] <;> decide
    by_cases hj : err.name = "JsonWebTokenError"
    · exact ⟨⟨401, false, "Token inválido", none, none⟩,
        by simp [manejadorErrores, hj, enviarJson], rfl, rfl, by simp [hj], rfl⟩
    · have ht : err.name = "TokenExpiredError" := h.resolve_left hj
      exact ⟨⟨401, false, "Token expirado", none, none⟩,
        by simp [manejadorErrores, ht, enviarJson], rfl, rfl, by simp [hj], rfl⟩
  · intro h1 h2 h3 n hn l200 l999 h204 h205 h304
    have hst : (match err.status with
        | some n => if n = 0 then 500 else n
        | none => 500) = n := by
      rcases hn with ⟨hs, h0⟩ | ⟨hs | hs, h5⟩
      · simp [hs, h0]
      · simp [hs, h5]
      · simp [hs, h5]
    have hl : ¬ (n < 100 ∨ 999 < n) := by omega
    have hb : ¬ (n < 200 ∨ n = 204 ∨ n = 205 ∨ n = 304) := by omega
    refine ⟨⟨n, false,
        if Campo.truthy err.message then err.message.getD "" else "Error interno del servidor",
        none, if nodeEnv = some "development" then err.stack else none⟩, ?_,
      rfl, rfl, ?_, ?_, ?_⟩
    · simp only [manejadorErrores, h1, h2, h3, if_false, enviarJson, hst, hl, hb]
    · intro m hm hm0
      simp [hm, hm0, Campo.truthy, Campo.val, JsVal.truthy]
    · intro hm
      simp [hm]
    · by_cases hd : nodeEnv = some "development"
      · simp [hd]
      · simp [hd]

/-- C17 (amended) at concrete errors: an error with status 413 keeps it, with its
message, and shows its stack under `development`; an error named
`TokenExpiredError` gets 401. -/
theorem manejadorErrores_contrato_witness :
    (∃ r, manejadorErrores (some "development") Ejemplo.errorConStatus = .json r
        ∧ r.status = 413 ∧ r.message = "Payload Too Large" ∧ r.stack.isSome = true)
      ∧ (∃ r, manejadorErrores none Ejemplo.errorExpirado = .json r ∧ r.status = 401) :=
  have h := manejadorErrores_contrato (some "development") Ejemplo.errorConStatus
  have hg := h.2.2 (by decide) (by decide) (by decide) 413 (Or.inl ⟨rfl, by decide⟩)
    (by decide) (by decide) (by decide) (by decide) (by decide)
  have he := (manejadorErrores_contrato none Ejemplo.errorExpirado).2.1 (Or.inr rfl)
  ⟨hg.elim fun r hr => ⟨r, hr.1, hr.2.1, hr.2.2.2.1 "Payload Too Large" rfl (by decide),
      hr.2.2.2.2.2.mpr ⟨rfl, rfl⟩⟩,
   he.elim fun r hr => ⟨r, hr.1, hr.2.1⟩⟩

/-- Outside the statuses that are sent with a body the handler sends no JSON: an
error whose own status is below 100 or above 999 makes the call throw, and an
informational status, 204, 205 or 304 is sent without the body. -/
theorem manejadorErrores_sin_json (nodeEnv : Campo) (err : ErrorJs) (n : Int)
    (h1 : err.name ≠ "ValidationError") (h2 : err.name ≠ "JsonWebTokenError")
    (h3 : err.name ≠ "TokenExpiredError") (hn : err.status = some n) (hn0 : n ≠ 0) :
    (n < 100 ∨ 999 < n → manejadorErrores nodeEnv err = .lanza)
      ∧ (100 ≤ n → (n < 200 ∨ n = 204 ∨ n = 205 ∨ n = 304) →
          manejadorErrores nodeEnv err = .sinCuerpo n) := by
  constructor
  · intro h
    simp [manejadorErrores, h1, h2, h3, hn, hn0, enviarJson, h]
  · intro h100 h
    have hl : ¬ (n < 100 ∨ 999 < n) := by omega
    simp [manejadorErrores, h1, h2, h3, hn, hn0, enviarJson, hl, h]

/-- An error with status 1000 makes the handler throw, and one with status 204
is answered without a body. -/
theorem manejadorErrores_sin_json_witness :
    manejadorErrores none ⟨"Error", some "x", some 1000, none, .undefined⟩ = .lanza
      ∧ manejadorErrores none ⟨"Error", some "x", some 204, none, .undefined⟩ = .sinCuerpo 204 :=
  ⟨(manejadorErrores_sin_json none ⟨"Error", some "x", some 1000, none, .undefined⟩ 1000
      (by decide) (by decide) (by decide) rfl (by decide)).1 (Or.inr (by decide)),
   (manejadorErrores_sin_json none ⟨"Error", some "x", some 204, none, .undefined⟩ 204
      (by decide) (by decide) (by decide) rfl (by decide)).2 (by decide)
      (Or.inr (Or.inl rfl))⟩

/-! ### C18: the transaction helper -/

/-- C18: a client is obtained, BEGIN, the callback and COMMIT all succeed, but
the callback takes longer than five seconds. The timer of `getClient` releases the
client while the callback is running, COMMIT is issued on the released client, and
the `finally` block releases it a second time: `release` is invoked twice, the
first time before the last statement, and the call ends with the double-release
error of the pool instead of the callback's result. -/
theorem transaction_timer_libera_dos_veces (ρ : Type) (e : Entorno ρ) (r : ρ)
    (hc : e.conecta = .ok ()) (hi : e.inicio = .ok ()) (hcb : e.callback = .ok r)
    (hco : e.commit = .ok ()) (ht : e.timer = some .callback) :
    (transaction e).traza = [.sql "BEGIN", .callback, .release, .sql "COMMIT", .release]
      ∧ (transaction e).traza.count .release = 2
      ∧ (transaction e).resultado
          = .error "Release called on client which has already been released to the pool."
      ∧ (transaction e).resultado ≠ .ok r := by
  rcases e with ⟨con, ini, cb, com, rb, tm⟩
  simp only at hc hi hcb hco ht
  subst hc hi hcb hco ht
  refine ⟨by simp [transaction, transaction.intento, disparo], ?_,
    by simp [transaction, transaction.intento, disparo],
    by simp [transaction, transaction.intento, disparo]⟩
  have ht : (transaction ⟨.ok (), .ok (), .ok r, .ok (), rb, some .callback⟩).traza
      = [.sql "BEGIN", .callback, .release, .sql "COMMIT", .release] := by
    simp [transaction, transaction.intento, disparo]
  rw [ht]
  decide

/-- C18 at the run in which everything succeeds and the callback, which returns
7, takes longer than five seconds: two releases, and the double-release error in
place of 7. -/
theorem transaction_timer_libera_dos_veces_witness :
    (transaction Ejemplo.entornoLento).traza
        = [.sql "BEGIN", .callback, .release, .sql "COMMIT", .release]
      ∧ (transaction Ejemplo.entornoLento).traza.count .release = 2
      ∧ (transaction Ejemplo.entornoLento).resultado
          = .error "Release called on client which has already been released to the pool."
      ∧ (transaction Ejemplo.entornoLento).resultado ≠ .ok 7 :=
  transaction_timer_libera_dos_veces Nat Ejemplo.entornoLento 7 rfl rfl rfl rfl rfl

/-- The transaction helper within the five seconds of `getClient`: once a client
has been obtained and as long as the timer does not fire before the end,
`transaction` issues BEGIN first and
runs the callback only after BEGIN succeeded; when the callback returns it
issues COMMIT, and returns the callback's result when COMMIT succeeds; when BEGIN,
the callback or COMMIT fails it issues ROLLBACK and rethrows that error (or
throws the error of a failing ROLLBACK); and on every one of these paths `release`
is invoked exactly once, as the last event. When no client can be obtained,
nothing is issued and nothing is released. -/
theorem transaction_contrato (ρ : Type) (e : Entorno ρ) :
    (∀ m, e.conecta = .error m →
        (transaction e).traza = [] ∧ (transaction e).resultado = .error m)
      ∧ (e.conecta = .ok () → e.timer = none →
          (∃ resto, (transaction e).traza = .sql "BEGIN" :: resto ++ [.release]
              ∧ Evento.release ∉ resto)
            ∧ (∀ r, e.inicio = .ok () → e.callback = .ok r → e.commit = .ok () →
                (transaction e).traza = [.sql "BEGIN", .callback, .sql "COMMIT", .release]
                  ∧ (transaction e).resultado = .ok r)
            ∧ (∀ m, e.inicio = .error m →
                (transaction e).traza = [.sql "BEGIN", .sql "ROLLBACK", .release])
            ∧ (∀ m, e.inicio = .ok () → e.callback = .error m →
                (transaction e).traza = [.sql "BEGIN", .callback, .sql "ROLLBACK", .release])
            ∧ (∀ r m, e.inicio = .ok () → e.callback = .ok r → e.commit = .error m →
                (transaction e).traza
                  = [.sql "BEGIN", .callback, .sql "COMMIT", .sql "ROLLBACK", .release])
            ∧ (∀ m, (transaction.intento e).2 = .error m → e.rollback = .ok () →
                (transaction e).resultado = .error m)
            ∧ (∀ m m', (transaction.intento e).2 = .error m → e.rollback = .error m' →
                (transaction e).resultado = .error m')) := by
  rcases e with ⟨con, ini, cb, com, rb, tm⟩
  refine ⟨?_, ?_⟩
  · intro m h
    simp only at h
    subst h
    simp [transaction]
  · intro hc ht
    simp only at hc ht
    subst hc ht
    refine ⟨⟨((transaction ⟨.ok (), ini, cb, com, rb, none⟩).traza.drop 1).dropLast, ?_, ?_⟩,
      ?_, ?_, ?_, ?_, ?_, ?_⟩
    all_goals
      cases ini <;> cases cb <;> cases com <;> cases rb
        <;> simp [transaction, transaction.intento, disparo]

/-- The transaction helper at concrete runs within five seconds: the successful run, and
the run whose callback throws and whose ROLLBACK fails as well; in both `release`
comes once, last. -/
theorem transaction_contrato_witness :
    ((transaction Ejemplo.entornoOk).traza
          = [.sql "BEGIN", .callback, .sql "COMMIT", .release]
        ∧ (transaction Ejemplo.entornoOk).resultado = .ok 7)
      ∧ (transaction Ejemplo.entornoRollbackFalla).traza
          = [.sql "BEGIN", .callback, .sql "ROLLBACK", .release]
      ∧ (transaction Ejemplo.entornoRollbackFalla).resultado = .error "rollback" :=
  have h := (transaction_contrato Nat Ejemplo.entornoRollbackFalla).2 rfl rfl
  ⟨((transaction_contrato Nat Ejemplo.entornoOk).2 rfl rfl).2.1 7 rfl rfl rfl,
   h.2.2.2.1 "callback" rfl rfl,
   h.2.2.2.2.2.2 "callback" "rollback" rfl rfl⟩

/-! ### C19: the dynamic UPDATE of `actualizarUsuario` -/

/-- Numbering assignments: appending one assignment appends its field with the
next number. -/
theorem camposNumerados_append (l : List (String × JsVal)) (cv : String × JsVal) (k : Nat) :
    camposNumerados (l ++ [cv]) k
      = camposNumerados l k ++ [[.texto (cv.1 ++ " = "), .ph (k + l.length)]] := by
  induction l generalizing k with
  | nil => simp [camposNumerados]
  | cons a r ih =>
    have hk : k + 1 + r.length = k + (r.length + 1) := by omega
    show [Frag.texto (a.1 ++ " = "), Frag.ph k] :: camposNumerados (r ++ [cv]) (k + 1) = _
    rw [ih, hk]
    rfl

/-- One conditional step of `actualizarUsuario` keeps the accumulators in
agreement with the assignments. -/
theorem Campos.concuerda_paso (b : Campos) (asig : List (String × JsVal)) (p : Prop)
    [Decidable p] (col : String) (v : JsVal) (h : b.Concuerda asig) :
    (if p then b.push col v else b).Concuerda (asig ++ if p then [(col, v)] else []) := by
  by_cases hp : p
  · simp only [hp, if_true]
    obtain ⟨hf, hpar, hc⟩ := h
    refine ⟨?_, ?_, ?_⟩
    · simp [Campos.push, hf, hc, camposNumerados_append, Nat.add_comm]
    · simp [Campos.push, hpar]
    · simp [Campos.push, hc]
  · simpa [hp] using h

/-- After its seven steps, `actualizarUsuario` holds the assignments of the
supplied fields, numbered from one, followed by the assignment of `updated_at`. -/
theorem usuarioCampos_concuerda (c : Cripto) (body : UsuarioBody) :
    (usuarioCampos c body).fields
        = camposNumerados (usuarioAsignaciones c body) 1
          ++ [[.texto "updated_at = CURRENT_TIMESTAMP"]]
      ∧ (usuarioCampos c body).params = (usuarioAsignaciones c body).map Prod.snd
      ∧ (usuarioCampos c body).paramCount = (usuarioAsignaciones c body).length + 1 := by
  have h0 : (⟨[], [], 1⟩ : Campos).Concuerda [] := ⟨rfl, rfl, rfl⟩
  have h1 := Campos.concuerda_paso _ _ (Campo.truthy body.username = true) "username"
    (Campo.val body.username) h0
  have h2 := Campos.concuerda_paso _ _ (Campo.truthy body.email = true) "email"
    (Campo.val body.email) h1
  have h3 := Campos.concuerda_paso _ _ (Campo.truthy body.nombre = true) "nombre"
    (Campo.val body.nombre) h2
  have h4 := Campos.concuerda_paso _ _ (Campo.truthy body.apellido = true) "apellido"
    (Campo.val body.apellido) h3
  have h5 := Campos.concuerda_paso _ _ (body.rol_id.truthy = true) "rol_id" body.rol_id h4
  have h6 := Campos.concuerda_paso _ _ (body.activo ≠ .undefined) "activo"
    (.bool (body.activo == .bool true || body.activo == .str "true")) h5
  have h7 := Campos.concuerda_paso _ _ (Campo.truthy body.password = true) "password_hash"
    (.str (c.hash (body.password.getD ""))) h6
  simp only [List.nil_append] at h7
  obtain ⟨hf, hp, hc⟩ := h7
  exact ⟨by simp only [usuarioCampos]; rw [hf]; rfl, hp, hc⟩

/-- Joining a field with a non-empty rest puts the separator between them. -/
theorem joinSql_cons (sep : String) (x : Sql) (rest : List Sql) (h : rest ≠ []) :
    joinSql sep (x :: rest) = x ++ .texto sep :: joinSql sep rest := by
  cases rest with
  | nil => exact absurd rfl h
  | cons y r => rfl

/-- Replacing the placeholders of a numbered SET list followed by a tail that
mentions the next number: each assignment receives its own value and the tail
receives the entry that follows the values. -/
theorem instanciar_set (pre : List JsVal) (asig : List (String × JsVal)) (idv : JsVal)
    (u w r : String) :
    instanciar (pre ++ asig.map Prod.snd ++ [idv])
        (joinSql ", " (camposNumerados asig (pre.length + 1) ++ [[.texto u]])
          ++ [.texto w, .ph (pre.length + asig.length + 1), .texto r])
      = some ((asig.flatMap fun cv => [.texto (cv.1 ++ " = "), .valor cv.2, .texto ", "])
          ++ [.texto u] ++ [.texto w, .valor idv, .texto r]) := by
  induction asig generalizing pre with
  | nil =>
    have hget : (pre ++ [idv])[pre.length]? = some idv := by simp
    simp [camposNumerados, joinSql, instanciar, hget]
  | cons cv rest ih =>
    have hne : camposNumerados rest (pre.length + 1 + 1) ++ [[Frag.texto u]] ≠ [] := by simp
    have ih' := ih (pre ++ [cv.2])
    simp only [List.length_append, List.length_singleton, List.append_assoc,
      List.singleton_append] at ih'
    have hlen : pre.length + (rest.length + 1) + 1 = pre.length + 1 + rest.length + 1 := by
      omega
    simp only [camposNumerados, List.cons_append, joinSql_cons _ _ _ hne, List.map_cons,
      List.length_cons, hlen, List.append_assoc, List.singleton_append, instanciar,
      Nat.add_sub_cancel, List.get?_eq_getElem?, Nat.succ_ne_zero, if_false,
      List.flatMap_cons]
    have hget' : (pre ++ cv.2 :: (rest.map Prod.snd ++ [idv]))[pre.length]? = some cv.2 := by
      rw [List.getElem?_append_right (le_refl _)]
      simp
    rw [hget']
    simp only [List.append_assoc, List.cons_append, List.nil_append] at ih' ⊢
    rw [ih']
    rfl

/-- The field list of `actualizarUsuario` is never empty when its length is
tested. -/
theorem usuarioCampos_no_vacio (c : Cripto) (body : UsuarioBody) :
    ¬ (usuarioCampos c body).fields.length = 0 := by
  rw [(usuarioCampos_concuerda c body).1]
  simp

/-- The statements issued by `actualizarUsuario` on an existing user: the
existence check and the update with the collected parameters followed by the id. -/
theorem actualizarUsuario_consultas (c : Cripto) (db : Db) (id : String) (body : UsuarioBody)
    (r : Fila) (rs : List Fila) (h : db ⟨sqlUsuarioExiste, [.str id]⟩ = .ok (r :: rs)) :
    (actualizarUsuario c db id body).consultas
      = [⟨sqlUsuarioExiste, [.str id]⟩, usuarioUpdateEsperado c id body] := by
  simp only [actualizarUsuario, h, usuarioCampos_no_vacio, if_false, usuarioUpdateEsperado,
    (usuarioCampos_concuerda c body).2.1]
  split <;> rfl

/-- C19: for every update body, the UPDATE built by `actualizarUsuario` assigns
the supplied fields among username, email, nombre, apellido, rol_id, activo,
password_hash, in that order, then `updated_at`, and no other column;
`password_hash` is assigned exactly when a password is supplied, and then with the
hash computed from it; replacing every placeholder by the entry of its number
gives each assignment its own value and the WHERE clause the id, which is the last
entry, so every placeholder refers to an existing entry; and on an existing user
this is the statement issued after the existence check. -/
theorem actualizarUsuario_update (c : Cripto) (db : Db) (id : String) (body : UsuarioBody) :
    instanciar (usuarioUpdateEsperado c id body).params (usuarioUpdateEsperado c id body).sql
        = some (.texto "UPDATE usuarios SET " :: setDirecto (usuarioAsignaciones c body)
            ++ [.texto " WHERE id = ", .valor (.str id),
                .texto " RETURNING id, uuid, username, email, nombre, apellido, rol_id, activo, ultimo_acceso, created_at, updated_at"])
      ∧ (∀ k ∈ placeholders (usuarioUpdateEsperado c id body).sql,
          1 ≤ k ∧ k ≤ (usuarioUpdateEsperado c id body).params.length)
      ∧ (usuarioUpdateEsperado c id body).params.getLast? = some (.str id)
      ∧ ((usuarioAsignaciones c body).map Prod.fst).Sublist
          ["username", "email", "nombre", "apellido", "rol_id", "activo", "password_hash"]
      ∧ (∀ v, ("password_hash", v) ∈ usuarioAsignaciones c body
          ↔ (Campo.truthy body.password = true ∧ v = .str (c.hash (body.password.getD ""))))
      ∧ (∀ r rs, db ⟨sqlUsuarioExiste, [.str id]⟩ = .ok (r :: rs) →
          (actualizarUsuario c db id body).consultas
            = [⟨sqlUsuarioExiste, [.str id]⟩, usuarioUpdateEsperado c id body]) := by
  have hinst : instanciar (usuarioUpdateEsperado c id body).params
      (usuarioUpdateEsperado c id body).sql
        = some (.texto "UPDATE usuarios SET " :: setDirecto (usuarioAsignaciones c body)
            ++ [.texto " WHERE id = ", .valor (.str id),
                .texto " RETURNING id, uuid, username, email, nombre, apellido, rol_id, activo, ultimo_acceso, created_at, updated_at"]) := by
    have h := instanciar_set [] (usuarioAsignaciones c body) (.str id)
      "updated_at = CURRENT_TIMESTAMP" " WHERE id = "
      " RETURNING id, uuid, username, email, nombre, apellido, rol_id, activo, ultimo_acceso, created_at, updated_at"
    simp only [List.length_nil, Nat.zero_add, List.nil_append] at h
    simp only [usuarioUpdateEsperado, usuarioUpdateSql, (usuarioCampos_concuerda c body).1,
      (usuarioCampos_concuerda c body).2.2, List.cons_append, instanciar]
    change Option.map _ (instanciar _ (joinSql ", " _ ++ _)) = _
    rw [h]
    simp [setDirecto]
  have key : ∀ (p : Prop) [Decidable p] (x : String × JsVal),
      ((if p then [x] else []).map Prod.fst).Sublist [x.1] := by
    intro p _ x
    by_cases hp : p <;> simp [hp]
  refine ⟨hinst, instanciar_placeholders _ _ _ hinst, by simp [usuarioUpdateEsperado], ?_, ?_,
    fun r rs h => actualizarUsuario_consultas c db id body r rs h⟩
  · simp only [usuarioAsignaciones, List.map_append]
    exact ((((((key _ _).append (key _ _)).append (key _ _)).append (key _ _)).append
      (key _ _)).append (key _ _)).append (key _ _)
  · intro v
    simp [usuarioAsignaciones]

/-- C19 at the body `{ email, activo: "true", password }` for the existing user 2:
the statement as text and its parameters. -/
theorem actualizarUsuario_update_witness :
    renderSql ((usuarioUpdateEsperado Ejemplo.cripto "2" Ejemplo.usuarioTres).sql.take 11)
        = "UPDATE usuarios SET email = $1, activo = $2, password_hash = $3, updated_at = CURRENT_TIMESTAMP"
      ∧ placeholders (usuarioUpdateEsperado Ejemplo.cripto "2" Ejemplo.usuarioTres).sql
        = [1, 2, 3, 4]
      ∧ (actualizarUsuario Ejemplo.cripto Ejemplo.dbUsuario "2" Ejemplo.usuarioTres).consultas.map
          (fun q => q.params)
        = [[.str "2"], [.str "b@dbx.mx", .bool true, .str "hash-de-clave-2", .str "2"]] :=
  ⟨by decide, by decide, by
    rw [(actualizarUsuario_update Ejemplo.cripto Ejemplo.dbUsuario "2"
      Ejemplo.usuarioTres).2.2.2.2.2 [("id", .num (.int 2)), ("username", .str "beto")] [] rfl]
    rfl⟩

/-! ### C20: the unreachable "no fields" response -/

/-- C20: `actualizarUsuario` never answers 400: the assignment of `updated_at` is
in the field list when its length is tested, so the list is never empty. On an
existing user, a body that supplies no field issues the UPDATE that assigns only
`updated_at`, with the id as its only parameter, and responds with the success
when the store answers it. -/
theorem actualizarUsuario_sin_campos (c : Cripto) (db : Db) (id : String) (body : UsuarioBody) :
    (actualizarUsuario c db id body).respuesta.status ≠ 400
      ∧ (actualizarUsuario c db id body).respuesta ≠ fallo 400 "No hay campos para actualizar"
      ∧ ([.texto "updated_at = CURRENT_TIMESTAMP"] ∈ (usuarioCampos c body).fields
          ∧ (usuarioCampos c body).fields.length ≠ 0)
      ∧ (∀ r rs rows, db ⟨sqlUsuarioExiste, [.str id]⟩ = .ok (r :: rs) →
          Campo.truthy body.username = false → Campo.truthy body.email = false →
          Campo.truthy body.nombre = false → Campo.truthy body.apellido = false →
          body.rol_id.truthy = false → body.activo = .undefined →
          Campo.truthy body.password = false →
          db ⟨[.texto "UPDATE usuarios SET ", .texto "updated_at = CURRENT_TIMESTAMP",
                .texto " WHERE id = ", .ph 1,
                .texto " RETURNING id, uuid, username, email, nombre, apellido, rol_id, activo, ultimo_acceso, created_at, updated_at"],
              [.str id]⟩ = .ok rows →
          (actualizarUsuario c db id body)
            = ⟨[⟨sqlUsuarioExiste, [.str id]⟩,
                ⟨[.texto "UPDATE usuarios SET ", .texto "updated_at = CURRENT_TIMESTAMP",
                  .texto " WHERE id = ", .ph 1,
                  .texto " RETURNING id, uuid, username, email, nombre, apellido, rol_id, activo, ultimo_acceso, created_at, updated_at"],
                 [.str id]⟩],
               ⟨200, true, some "Usuario actualizado exitosamente", .fila rows.head?⟩⟩) := by
  have hne := usuarioCampos_no_vacio c body
  have hst : (actualizarUsuario c db id body).respuesta.status ≠ 400 := by
    simp only [actualizarUsuario, hne, if_false]
    split
    · simp [fallo]
    · simp [fallo]
    · split <;> simp [fallo]
  refine ⟨hst, ?_, ⟨?_, hne⟩, ?_⟩
  · intro h
    rw [h] at hst
    exact hst rfl
  · rw [(usuarioCampos_concuerda c body).1]
    simp
  · intro r rs rows hex h1 h2 h3 h4 h5 h6 h7 hup
    have hc : usuarioCampos c body = ⟨[[.texto "updated_at = CURRENT_TIMESTAMP"]], [], 1⟩ := by
      simp [usuarioCampos, h1, h2, h3, h4, h5, h6, h7]
    simp [actualizarUsuario, hex, hc, usuarioUpdateSql, joinSql, hup]

/-- C20 at the empty body for the existing user 2: the UPDATE touches only
`updated_at` and the response is the success. -/
theorem actualizarUsuario_sin_campos_witness :
    (actualizarUsuario Ejemplo.cripto Ejemplo.dbUsuario "2" Ejemplo.usuarioVacio).respuesta.status
        = 200
      ∧ ((actualizarUsuario Ejemplo.cripto Ejemplo.dbUsuario "2" Ejemplo.usuarioVacio).consultas.map
          fun q => renderSql (q.sql.take 4))
        = ["SELECT id FROM usuarios WHERE id = $1",
           "UPDATE usuarios SET updated_at = CURRENT_TIMESTAMP WHERE id = $1"] := by
  rw [(actualizarUsuario_sin_campos Ejemplo.cripto Ejemplo.dbUsuario "2"
    Ejemplo.usuarioVacio).2.2.2 [("id", .num (.int 2)), ("username", .str "beto")] []
    [[("id", .num (.int 2)), ("username", .str "beto")]] rfl rfl rfl rfl rfl rfl rfl rfl rfl]
  exact ⟨rfl, by decide⟩

/-! ### C21: what `verificarToken` reads of the Authorization header -/

/-- Text without a space is a single segment. -/
theorem splitEspacio_sin_espacio (cs : List Char) (h : ' ' ∉ cs) : splitEspacio cs = [cs] := by
  induction cs with
  | nil => rfl
  | cons c r ih =>
    have hc : c ≠ ' ' := fun hc => h (by simp [hc])
    have hr : ' ' ∉ r := fun hr => h (List.mem_cons_of_mem _ hr)
    simp [splitEspacio, ih hr, hc]

/-- C21: for any two non-empty Authorization headers with the same second
space-separated segment, on the same store and the same incoming request
otherwise, `verificarToken` produces the same result (response, call of `next`,
attached identity, statements issued, store afterwards): the scheme word before
the first space is never looked at. A non-empty header without any space has no
second segment and is rejected with 401 as malformed. -/
theorem verificarToken_solo_segundo_segmento (c : Cripto) (st : Store) (h1 h2 : String)
    (user : Option Identidad) (hne1 : h1 ≠ "") (hne2 : h2 ≠ "")
    (hseg : segundoSegmento h1 = segundoSegmento h2) :
    verificarToken c st ⟨some h1, user⟩ = verificarToken c st ⟨some h2, user⟩
      ∧ (∀ h : String, h ≠ "" → ' ' ∉ h.toList →
          segundoSegmento h = none
            ∧ verificarToken c st ⟨some h, user⟩
              = (st, ⟨some (fallo 401 "Formato de token inválido"), 0, user, []⟩)) := by
  have ht : ∀ h : String, h ≠ "" → Campo.truthy (some h) = true := by
    intro h hne
    simp [Campo.truthy, Campo.val, JsVal.truthy, hne]
  refine ⟨?_, ?_⟩
  · simp only [verificarToken, rechazo, ht h1 hne1, ht h2 hne2, Option.getD_some, hseg]
  · intro h hne hsp
    have hs : segundoSegmento h = none := by
      show ((splitEspacio h.toList).get? 1).map String.mk = none
      rw [splitEspacio_sin_espacio _ hsp]
      rfl
    have hN : Campo.truthy (none : Campo) = false := rfl
    exact ⟨hs, by simp [verificarToken, ht h hne, hs, hN, rechazo]⟩

/-- C21 at concrete headers: `Basic t1` is treated like `Bearer t1` (both pass
with the identity of `ana`), and the header `Bearer` alone is rejected as
malformed. -/
theorem verificarToken_solo_segundo_segmento_witness :
    (verificarToken Ejemplo.cripto Ejemplo.store ⟨some "Basic t1", none⟩
        = verificarToken Ejemplo.cripto Ejemplo.store ⟨some "Bearer t1", none⟩)
      ∧ (verificarToken Ejemplo.cripto Ejemplo.store ⟨some "Basic t1", none⟩).2
        = ⟨none, 1, some (identidadDe Ejemplo.ana "Administrador"),
            [⟨sqlTokenSelect, [idParam 1]⟩]⟩
      ∧ verificarToken Ejemplo.cripto Ejemplo.store ⟨some "Bearer", none⟩
        = (Ejemplo.store, ⟨some (fallo 401 "Formato de token inválido"), 0, none, []⟩) :=
  have h := verificarToken_solo_segundo_segmento Ejemplo.cripto Ejemplo.store
    "Basic t1" "Bearer t1" none (by decide) (by decide) (by decide)
  ⟨h.1, rfl, (h.2 "Bearer" (by decide) (by decide)).2⟩

end Xtralight
